import Mathlib

/-!
# Kria RTSP stream viewer client: command channel and input handling

A shallow embedding of the control path of the viewer (`src/src/nativecontroller.cpp`),
of the pointer normalisation and network configuration of the window
(`src/src/mainwindow.cpp`) and of the stream worker (`src/src/rtspstreamer.cpp`),
followed by the properties proved about them.

Conventions of the embedding:

* A member function of `NativeController` becomes a function from the controller state
  (and the outcome of the socket calls it makes) to the new state and the list of
  effects it performed, in program order.
* `QString` values are Lean strings; `QString::arg` is modelled after the Qt
  implementation (place markers `%1` .. `%99`, lowest number replaced first).
* C++ `double` values are modelled by `Double`: the finite values are rationals, with the
  two infinities and NaN added; comparisons follow IEEE 754.  Arithmetic on finite values
  is exact (rounding is not modelled).
* The socket and timer objects are created in the constructor and never reset, so the
  null-pointer tests of the source always pass and are not represented.
* The reports of the TCP socket and the expiry of the reconnect timer are events of a
  step function on the controller state; a call of `disconnectFromHost` and the closure
  it leads to are two steps.
* A run of the stream worker is a function of what the capture session and the other
  thread present to it, pass by pass; when these inputs end the worker is still in
  its loop.
-/

namespace KriaClient

/-! ## Qt strings -/

/-- Value of an ASCII decimal digit, `none` for every other character
(the digit test applied to the character after `%` in a place marker). -/
def digitValue (c : Char) : Option Nat :=
  if 48 ≤ c.toNat ∧ c.toNat ≤ 57 then some (c.toNat - 48) else none

/-- A piece of a format string: a literal character, or a place marker `%n`
(`%Ln`) together with the characters it is written with. -/
inductive ArgPiece where
  | text (c : Char)
  | escape (n : Nat) (raw : List Char)
  deriving DecidableEq, Repr

/-- Position of the scanner inside a format string. -/
inductive ScanState where
  | plain
  | percent (raw : List Char)
  | digit (n : Nat) (raw : List Char)
  deriving DecidableEq, Repr

/-- The scan loop of `QString::arg`: a `%`, an optional `L`, then one or two decimal
digits form a place marker; a `%` that is not followed by a digit is literal text and
scanning resumes at the character after it. -/
def scanArg : ScanState → List Char → List ArgPiece
  | .plain, [] => []
  | .plain, c :: cs =>
    if c = '%' then scanArg (.percent [c]) cs else .text c :: scanArg .plain cs
  | .percent raw, [] => raw.map .text
  | .percent raw, c :: cs =>
    if c = 'L' ∧ raw.length = 1 then scanArg (.percent (raw ++ [c])) cs
    else
      match digitValue c with
      | some n => scanArg (.digit n (raw ++ [c])) cs
      | none =>
        raw.map .text ++
          (if c = '%' then scanArg (.percent [c]) cs else .text c :: scanArg .plain cs)
  | .digit n raw, [] => [.escape n raw]
  | .digit n raw, c :: cs =>
    match digitValue c with
    | some m => .escape (10 * n + m) (raw ++ [c]) :: scanArg .plain cs
    | none =>
      .escape n raw ::
        (if c = '%' then scanArg (.percent [c]) cs else .text c :: scanArg .plain cs)

/-- All pieces of a format string. -/
def findArgEscapes (s : List Char) : List ArgPiece := scanArg .plain s

/-- The lowest place-marker number of a format string, if it has a marker. -/
def minEscape : List ArgPiece → Option Nat
  | [] => none
  | .text _ :: ps => minEscape ps
  | .escape n _ :: ps =>
    match minEscape ps with
    | none => some n
    | some m => some (min n m)

/-- Every marker with number `m` is replaced by `a`; everything else is copied. -/
def replaceArgEscapes (m : Nat) (a : List Char) : List ArgPiece → List Char
  | [] => []
  | .text c :: ps => c :: replaceArgEscapes m a ps
  | .escape n raw :: ps =>
    (if n = m then a else raw) ++ replaceArgEscapes m a ps

/-- Model of `QString::arg(const QString &a)` with the default field width: the markers with the
lowest number are replaced by `a`.  A string without marker is returned unchanged. -/
def QString.arg (s : String) (a : String) : String :=
  match minEscape (findArgEscapes s.data) with
  | none => s
  | some m => ⟨replaceArgEscapes m a.data (findArgEscapes s.data)⟩

/-- Decimal text of an integer, as `QString::number` writes it: a minus sign for a
negative value, then the digits without leading zero. -/
def decimal (x : Int) : String :=
  if x < 0 then ⟨'-' :: Nat.toDigits 10 x.natAbs⟩ else ⟨Nat.toDigits 10 x.toNat⟩

/-- Model of `QString::arg(int a)` with the default field width and base 10.  (The localised form
that Qt substitutes into `%L` markers is not modelled; no format string of the program
has such a marker.) -/
def QString.argInt (s : String) (a : Int) : String :=
  QString.arg s (decimal a)

/-- UTF-8 encoding of one character, bytes as naturals below 256. -/
def utf8EncodeChar (c : Char) : List Nat :=
  let v := c.toNat
  if v ≤ 0x7f then [v]
  else if v ≤ 0x7ff then [0xc0 + v / 64, 0x80 + v % 64]
  else if v ≤ 0xffff then [0xe0 + v / 4096, 0x80 + v / 64 % 64, 0x80 + v % 64]
  else [0xf0 + v / 262144, 0x80 + v / 4096 % 64, 0x80 + v / 64 % 64, 0x80 + v % 64]

/-- Model of `QString::toUtf8`: the UTF-8 bytes of the characters, in order. -/
def toUtf8 (s : String) : List Nat :=
  s.data.flatMap utf8EncodeChar

/-! ## IEEE doubles, as far as the program uses them -/

/-- A C++ `double` (IEEE 754 binary64): a finite value, written as the rational it
denotes, an infinity, or NaN.  The two zeros are one value: no comparison tells them
apart, and the only quotients of the program whose divisor can be a zero of either sign
are converted to `int` right away, which is undefined for both infinities. -/
inductive Double where
  | finite (q : ℚ)
  | posInf
  | negInf
  | nan
  deriving DecidableEq

namespace Double

/-- The comparison `a < b` of two doubles; false whenever an operand is NaN. -/
def lt : Double → Double → Bool
  | finite a, finite b => decide (a < b)
  | finite _, posInf => true
  | negInf, finite _ => true
  | negInf, posInf => true
  | _, _ => false

/-- The comparison `a > b`. -/
def gt (a b : Double) : Bool := lt b a

/-- The comparison `a >= b`; false whenever an operand is NaN. -/
def ge : Double → Double → Bool
  | finite a, finite b => decide (b ≤ a)
  | posInf, finite _ => true
  | posInf, posInf => true
  | posInf, negInf => true
  | finite _, negInf => true
  | negInf, negInf => true
  | _, _ => false

/-- Unary minus. -/
def neg : Double → Double
  | finite a => finite (-a)
  | posInf => negInf
  | negInf => posInf
  | nan => nan

/-- Rounding of a non-negative rational to the nearest integer, a tie going to the even
one. -/
def roundHalfEven (t : ℚ) : Int :=
  if t - ⌊t⌋ < 1 / 2 then ⌊t⌋
  else if 1 / 2 < t - ⌊t⌋ then ⌊t⌋ + 1
  else if ⌊t⌋ % 2 = 0 then ⌊t⌋ else ⌊t⌋ + 1

/-- The binary64 value nearest to a positive rational, a tie going to the even
significand, before the test for overflow: the significand has 53 bits, so the last bit
of a value between `2 ^ k` and `2 ^ (k + 1)` weighs `2 ^ (k - 52)`, and below the normal
range the last bit weighs `2 ^ (-1074)`. -/
def roundMagnitude (q : ℚ) : ℚ :=
  let e := max (Int.log 2 q - 52) (-1074)
  (roundHalfEven (q / 2 ^ e) : ℚ) * 2 ^ e

/-- The rounding of an exact result to a `double`, in the default mode (to nearest, ties
to even): a result that rounds to `2 ^ 1024` or beyond becomes an infinity. -/
def round (q : ℚ) : Double :=
  if q = 0 then finite 0
  else if 0 < q then
    (if 2 ^ 1024 ≤ roundMagnitude q then posInf else finite (roundMagnitude q))
  else
    (if 2 ^ 1024 ≤ roundMagnitude (-q) then negInf else finite (-roundMagnitude (-q)))

/-- Division; a finite quotient is the exact quotient rounded to a `double`, a zero
divisor gives an infinity or NaN. -/
def div : Double → Double → Double
  | finite a, finite b =>
    if b = 0 then (if a = 0 then nan else if 0 < a then posInf else negInf)
    else round (a / b)
  | finite _, posInf => finite 0
  | finite _, negInf => finite 0
  | posInf, finite b => if 0 ≤ b then posInf else negInf
  | negInf, finite b => if 0 ≤ b then negInf else posInf
  | _, _ => nan

/-- Multiplication; a finite product is the exact product rounded to a `double`. -/
def mul : Double → Double → Double
  | finite a, finite b => round (a * b)
  | finite a, posInf => if a = 0 then nan else if 0 < a then posInf else negInf
  | finite a, negInf => if a = 0 then nan else if 0 < a then negInf else posInf
  | posInf, finite b => if b = 0 then nan else if 0 < b then posInf else negInf
  | negInf, finite b => if b = 0 then nan else if 0 < b then negInf else posInf
  | posInf, posInf => posInf
  | negInf, negInf => posInf
  | posInf, negInf => negInf
  | negInf, posInf => negInf
  | _, _ => nan

/-- The conversion `static_cast<double>(i)` of an `int`. -/
def ofInt (i : Int) : Double := finite i

/-- The conversion `static_cast<int>(d)`: truncation toward zero; undefined (`none`)
for a value that is not finite or whose integral part is not a 32-bit `int`. -/
def toInt : Double → Option Int
  | finite q =>
    let t : Int := if 0 ≤ q then ⌊q⌋ else ⌈q⌉
    if -2147483648 ≤ t ∧ t ≤ 2147483647 then some t else none
  | _ => none

end Double

/-- Qt `qAbs(t)`: `t >= 0 ? t : -t`. -/
def qAbs (t : Double) : Double :=
  if Double.ge t (.finite 0) then t else Double.neg t

/-- Qt `qMin(a, b)`: `(a < b) ? a : b`. -/
def qMin (a b : Double) : Double := if Double.lt a b then a else b

/-- Qt `qMax(a, b)`: `(a < b) ? b : a`. -/
def qMax (a b : Double) : Double := if Double.lt a b then b else a

/-- Qt `qBound(min, val, max)`: `qMax(min, qMin(max, val))`. -/
def qBound (lo val hi : Double) : Double := qMax lo (qMin hi val)

/-! ## The controller (`nativecontroller.h`, `nativecontroller.cpp`) -/

/-- The enumeration `QAbstractSocket::SocketState`, the value of `m_tcpClient->state()`. -/
inductive SocketState where
  | UnconnectedState
  | HostLookupState
  | ConnectingState
  | ConnectedState
  | BoundState
  | ListeningState
  | ClosingState
  deriving DecidableEq, Repr

/-- The signals of `NativeController`. -/
inductive Signal where
  | directionPressed (direction : String)
  | modeTogglePressed
  | touchCoordinateReceived (x y : Int)
  | controllerStarted
  | controllerStopped
  | serverConnected
  | serverDisconnected
  | commandSent (command : String)
  | errorOccurred (error : String)
  deriving DecidableEq, Repr

/-- What a member function does to the outside, in program order: calls on the two
sockets and on the reconnect timer, emitted signals, and lines written with `qDebug()`
(the streamed items). -/
inductive Effect where
  | writeDatagram (data : List Nat) (address : String) (port : Nat)
  | tcpWrite (data : List Nat)
  | connectToHost (address : String) (port : Nat)
  | disconnectFromHost
  | emit (s : Signal)
  | qDebug (items : List String)
  | timerStart
  | timerStop
  deriving DecidableEq, Repr

/-- The outcome of the socket calls a send makes: the values returned by
`m_udpSocket->writeDatagram` and `m_tcpClient->write` (`-1` on failure) and the
sockets' `errorString()`. -/
structure SocketEnv where
  udpBytesWritten : Int
  udpErrorString : String
  tcpBytesWritten : Int
  tcpErrorString : String
  deriving DecidableEq, Repr

/-- The fields of `NativeController`, with the state of the TCP socket and of the
reconnect timer that the member functions read and change.  For the timer these are
`isActive()`, `interval()` and, while it is active, the milliseconds left until it
fires (`timerRemaining`). -/
structure NativeController where
  m_serverAddress : String
  m_udpPort : Nat
  m_tcpPort : Nat
  m_keyboardEnabled : Bool
  m_gamepadEnabled : Bool
  m_udpEnabled : Bool
  m_tcpEnabled : Bool
  m_autoReconnect : Bool
  tcpState : SocketState
  timerActive : Bool
  timerInterval : Nat
  timerRemaining : Nat := 0
  deriving DecidableEq, Repr

/-- The controller as the constructor leaves it. -/
def NativeController.init : NativeController where
  m_serverAddress := "192.168.1.71"
  m_udpPort := 8556
  m_tcpPort := 8555
  m_keyboardEnabled := true
  m_gamepadEnabled := true
  m_udpEnabled := true
  m_tcpEnabled := false
  m_autoReconnect := true
  tcpState := .UnconnectedState
  timerActive := false
  timerInterval := 5000
  timerRemaining := 0

/-- Embedding of `NativeController::sendUdpCommand` (nativecontroller.cpp:362). -/
def sendUdpCommand (s : NativeController) (env : SocketEnv) (command : String) :
    NativeController × List Effect :=
  if s.m_serverAddress = "" then
    (s, [.qDebug ["Cannot send UDP command: socket not ready or no server address"]])
  else
    let data := toUtf8 command
    let bytesWritten := env.udpBytesWritten
    (s, [.writeDatagram data s.m_serverAddress s.m_udpPort,
         if bytesWritten = -1 then
           .qDebug ["Failed to send UDP command:", env.udpErrorString]
         else
           .qDebug ["UDP command sent:", command, "to", s.m_serverAddress, ":",
             toString s.m_udpPort]])

/-- Embedding of `NativeController::sendTcpCommand` (nativecontroller.cpp:379). -/
def sendTcpCommand (s : NativeController) (env : SocketEnv) (command : String) :
    NativeController × List Effect :=
  if s.tcpState ≠ .ConnectedState then
    (s, [.qDebug ["Cannot send TCP command: not connected to server"]])
  else
    let formattedCommand := command ++ "\n"
    let data := toUtf8 formattedCommand
    let bytesWritten := env.tcpBytesWritten
    (s, [.tcpWrite data,
         if bytesWritten = -1 then
           .qDebug ["Failed to send TCP command:", env.tcpErrorString]
         else
           .qDebug ["TCP command sent:", command]])

/-- The state a `QTcpSocket` is in when `connectToHost` returns: a socket that is
already looking up, connecting, connected or closing refuses the call and keeps its
state; otherwise the host lookup begins. -/
def socketConnectToHost : SocketState → SocketState
  | .ConnectedState => .ConnectedState
  | .ConnectingState => .ConnectingState
  | .ClosingState => .ClosingState
  | .HostLookupState => .HostLookupState
  | _ => .HostLookupState

/-- Embedding of `NativeController::connectToServer` (nativecontroller.cpp:397). -/
def connectToServer (s : NativeController) : NativeController × List Effect :=
  if s.m_serverAddress = "" then
    (s, [.qDebug ["Cannot connect: no server address set"]])
  else if s.tcpState = .ConnectedState then
    (s, [.qDebug ["Already connected to server"]])
  else
    ({ s with tcpState := socketConnectToHost s.tcpState },
     [.qDebug ["Connecting to TCP server at", s.m_serverAddress, ":", toString s.m_tcpPort],
      .connectToHost s.m_serverAddress s.m_tcpPort])

/-- Embedding of `NativeController::sendButtonPress` (nativecontroller.cpp:124). -/
def sendButtonPress (s : NativeController) (env : SocketEnv) (button : String) :
    NativeController × List Effect :=
  let command := QString.arg "BUTTON:%1" button
  let r1 := if s.m_udpEnabled then sendUdpCommand s env command else (s, [])
  let r2 := if r1.1.m_tcpEnabled then sendTcpCommand r1.1 env command else (r1.1, [])
  (r2.1, r1.2 ++ r2.2 ++
    [.emit (.commandSent command), .qDebug ["Sent button press:", button]])

/-- Embedding of `NativeController::sendTouchCoordinate` (nativecontroller.cpp:140). -/
def sendTouchCoordinate (s : NativeController) (env : SocketEnv) (x y : Int) :
    NativeController × List Effect :=
  let command := QString.argInt (QString.argInt "TOUCH:%1:%2" x) y
  let r1 := if s.m_udpEnabled then sendUdpCommand s env command else (s, [])
  let r2 := if r1.1.m_tcpEnabled then sendTcpCommand r1.1 env command else (r1.1, [])
  (r2.1, r1.2 ++ r2.2 ++
    [.emit (.commandSent command), .qDebug ["Sent touch coordinate:", decimal x, ",", decimal y]])

/-- Embedding of `NativeController::sendModeChange` (nativecontroller.cpp:156). -/
def sendModeChange (s : NativeController) (env : SocketEnv) (autoMode : Bool) :
    NativeController × List Effect :=
  let command := QString.arg "MODE:%1" (if autoMode then "AUTO" else "MANUAL")
  let r1 := if s.m_udpEnabled then sendUdpCommand s env command else (s, [])
  let r2 := if r1.1.m_tcpEnabled then sendTcpCommand r1.1 env command else (r1.1, [])
  (r2.1, r1.2 ++ r2.2 ++
    [.emit (.commandSent command), .qDebug ["Sent mode change:", if autoMode then "AUTO" else "MANUAL"]])

/-- Embedding of `NativeController::onGamepadAxisChanged` (nativecontroller.cpp:257). -/
def onGamepadAxisChanged (s : NativeController) (env : SocketEnv) (axis : Int)
    (value : Double) : NativeController × List Effect :=
  if !s.m_gamepadEnabled || Double.lt (qAbs value) (.finite (1 / 2)) then (s, [])
  else if axis = 0 then
    let direction := if Double.gt value (.finite 0) then "RIGHT" else "LEFT"
    let r := sendButtonPress s env direction
    (r.1, r.2 ++ [.emit (.directionPressed direction)])
  else if axis = 1 then
    let direction := if Double.gt value (.finite 0) then "DOWN" else "UP"
    let r := sendButtonPress s env direction
    (r.1, r.2 ++ [.emit (.directionPressed direction)])
  else (s, [])

/-- Embedding of `NativeController::onGamepadButtonPressed` (nativecontroller.cpp:227):
button 0 raises the mode toggle and returns, buttons 1 to 4 select a direction that is
sent and then announced, any other button returns from the `default` branch. -/
def onGamepadButtonPressed (s : NativeController) (env : SocketEnv) (button : Int) :
    NativeController × List Effect :=
  if !s.m_gamepadEnabled then (s, [])
  else if button = 0 then (s, [.emit .modeTogglePressed])
  else
    let direction : Option String :=
      if button = 1 then some "UP"
      else if button = 2 then some "DOWN"
      else if button = 3 then some "LEFT"
      else if button = 4 then some "RIGHT"
      else none
    match direction with
    | none => (s, [])
    | some d =>
      let r := sendButtonPress s env d
      (r.1, r.2 ++ [.emit (.directionPressed d)])

/-- Embedding of `NativeController::onKeyboardShortcut` (nativecontroller.cpp:275).  The
argument is the text of the key sequence of the shortcut that sent the signal
(`shortcut->key().toString()`), `none` when the sender is no shortcut. -/
def onKeyboardShortcut (s : NativeController) (env : SocketEnv) (sender : Option String) :
    NativeController × List Effect :=
  if !s.m_keyboardEnabled then (s, [])
  else
    match sender with
    | none => (s, [])
    | some key =>
      if key = "Space" then (s, [.emit .modeTogglePressed])
      else if key = "Up" || key = "W" then
        let r := sendButtonPress s env "UP"
        (r.1, r.2 ++ [.emit (.directionPressed "UP")])
      else if key = "Down" || key = "S" then
        let r := sendButtonPress s env "DOWN"
        (r.1, r.2 ++ [.emit (.directionPressed "DOWN")])
      else if key = "Left" || key = "A" then
        let r := sendButtonPress s env "LEFT"
        (r.1, r.2 ++ [.emit (.directionPressed "LEFT")])
      else if key = "Right" || key = "D" then
        let r := sendButtonPress s env "RIGHT"
        (r.1, r.2 ++ [.emit (.directionPressed "RIGHT")])
      else (s, [])

/-! ### Lifecycle of the TCP link and the reconnect timer -/

/-- Model of `QTimer::start()` on the reconnect timer: the timer runs and its full
interval lies ahead, also when it was already running (a running timer is restarted). -/
def reconnectTimerStart (s : NativeController) : NativeController :=
  { s with timerActive := true, timerRemaining := s.timerInterval }

/-- Model of `QTimer::stop()` on the reconnect timer. -/
def reconnectTimerStop (s : NativeController) : NativeController :=
  { s with timerActive := false }

/-- The state a `QTcpSocket` is in when `disconnectFromHost` returns: a connected socket
begins to close (the closure itself is reported by the `disconnected` signal), a socket
that was not yet connected is unconnected. -/
def socketDisconnectFromHost : SocketState → SocketState
  | .ConnectedState => .ClosingState
  | .ClosingState => .ClosingState
  | _ => .UnconnectedState

/-- Embedding of `NativeController::startController` (nativecontroller.cpp:48). -/
def startController (s : NativeController) : NativeController × List Effect :=
  let r := if s.m_tcpEnabled then connectToServer s else (s, [])
  (r.1,
   [.qDebug ["Starting Native Controller as CLIENT"],
    .qDebug ["  Server Address:", s.m_serverAddress],
    .qDebug ["  UDP Port:", toString s.m_udpPort],
    .qDebug ["  TCP Port:", toString s.m_tcpPort]] ++ r.2 ++
   [.emit .controllerStarted])

/-- Embedding of `NativeController::stopController` (nativecontroller.cpp:62). -/
def stopController (s : NativeController) : NativeController × List Effect :=
  let s1 := reconnectTimerStop s
  let r : NativeController × List Effect :=
    if s1.tcpState = .ConnectedState then
      ({ s1 with tcpState := socketDisconnectFromHost s1.tcpState }, [.disconnectFromHost])
    else (s1, [])
  (r.1, [.timerStop] ++ r.2 ++ [.emit .controllerStopped])

/-- Embedding of `NativeController::enableKeyboardControl` (nativecontroller.cpp:75). -/
def enableKeyboardControl (s : NativeController) (enable : Bool) :
    NativeController × List Effect :=
  ({ s with m_keyboardEnabled := enable }, [])

/-- Embedding of `NativeController::enableGamepadControl` (nativecontroller.cpp:80), as
built with Qt Gamepad (the build without it also writes a log line). -/
def enableGamepadControl (s : NativeController) (enable : Bool) :
    NativeController × List Effect :=
  ({ s with m_gamepadEnabled := enable }, [])

/-- Embedding of `NativeController::enableUdpClient` (nativecontroller.cpp:93). -/
def enableUdpClient (s : NativeController) (enable : Bool) :
    NativeController × List Effect :=
  ({ s with m_udpEnabled := enable }, [])

/-- Embedding of `NativeController::enableTcpClient` (nativecontroller.cpp:98). -/
def enableTcpClient (s : NativeController) (enable : Bool) :
    NativeController × List Effect :=
  let s1 := { s with m_tcpEnabled := enable }
  if enable && s1.tcpState = .UnconnectedState then
    connectToServer s1
  else if !enable && s1.tcpState = .ConnectedState then
    ({ s1 with tcpState := socketDisconnectFromHost s1.tcpState }, [.disconnectFromHost])
  else (s1, [])

/-- Embedding of `NativeController::setServerAddress` (nativecontroller.cpp:108). -/
def setServerAddress (s : NativeController) (address : String) :
    NativeController × List Effect :=
  ({ s with m_serverAddress := address }, [.qDebug ["Server address set to:", address]])

/-- Embedding of `NativeController::setUdpPort` (nativecontroller.cpp:114). -/
def setUdpPort (s : NativeController) (port : Nat) : NativeController × List Effect :=
  ({ s with m_udpPort := port }, [])

/-- Embedding of `NativeController::setTcpPort` (nativecontroller.cpp:119). -/
def setTcpPort (s : NativeController) (port : Nat) : NativeController × List Effect :=
  ({ s with m_tcpPort := port }, [])

/-- Embedding of `NativeController::onTcpConnected` (nativecontroller.cpp:179). -/
def onTcpConnected (s : NativeController) : NativeController × List Effect :=
  (reconnectTimerStop s,
   [.qDebug ["Connected to TCP server at", s.m_serverAddress, ":", toString s.m_tcpPort],
    .timerStop,
    .emit .serverConnected])

/-- Embedding of `NativeController::onTcpDisconnected` (nativecontroller.cpp:186). -/
def onTcpDisconnected (s : NativeController) : NativeController × List Effect :=
  if s.m_autoReconnect && s.m_tcpEnabled then
    (reconnectTimerStart s,
     [.qDebug ["Disconnected from TCP server"], .emit .serverDisconnected, .timerStart])
  else
    (s, [.qDebug ["Disconnected from TCP server"], .emit .serverDisconnected])

/-- Embedding of `NativeController::onTcpError` (nativecontroller.cpp:196); `errorMsg`
is the text `m_tcpClient->errorString()` returns. -/
def onTcpError (s : NativeController) (errorMsg : String) : NativeController × List Effect :=
  if s.m_autoReconnect && s.m_tcpEnabled && !s.timerActive then
    (reconnectTimerStart s,
     [.qDebug ["TCP error:", errorMsg], .emit (.errorOccurred errorMsg), .timerStart])
  else
    (s, [.qDebug ["TCP error:", errorMsg], .emit (.errorOccurred errorMsg)])

/-- Embedding of `NativeController::reconnectToServer` (nativecontroller.cpp:207), the
slot of the reconnect timer. -/
def reconnectToServer (s : NativeController) : NativeController × List Effect :=
  if s.tcpState = .UnconnectedState then
    let r := connectToServer s
    (r.1, [.qDebug ["Attempting to reconnect to server..."]] ++ r.2)
  else (s, [])

/-- What happens to the controller: a call of its public interface, a report of the TCP
socket, the passing of time, or the expiry of the reconnect timer. -/
inductive Event where
  | startController
  | stopController
  | enableKeyboardControl (enable : Bool)
  | enableGamepadControl (enable : Bool)
  | enableUdpClient (enable : Bool)
  | enableTcpClient (enable : Bool)
  | setServerAddress (address : String)
  | setUdpPort (port : Nat)
  | setTcpPort (port : Nat)
  | sendButtonPress (env : SocketEnv) (button : String)
  | sendTouchCoordinate (env : SocketEnv) (x y : Int)
  | sendModeChange (env : SocketEnv) (autoMode : Bool)
  | socketHostFound
  | socketConnected
  | socketDisconnected
  | socketConnectFailed (errorMsg : String)
  | socketErrorClose (errorMsg : String)
  | socketOperationError (errorMsg : String)
  | elapse (ms : Nat)
  | timerTimeout
  deriving DecidableEq, Repr

/-- One step of the controller.  The result is `none` when the event cannot happen in the
state `s`.  The socket reports follow the documented behaviour of `QAbstractSocket`:

* `socketHostFound`: the lookup ends and the connection attempt proper begins;
* `socketConnected`: a socket that is looking up or connecting becomes connected and
  emits `connected`;
* `socketDisconnected`: a connected or closing socket becomes unconnected and emits
  `disconnected`;
* `socketConnectFailed`: a connection attempt fails, the socket is unconnected and
  emits `errorOccurred`;
* `socketErrorClose`: a connected or closing socket emits `errorOccurred` and then
  closes at once, emitting `disconnected`;
* `socketOperationError`: a socket that is busy (looking up, connecting, closing)
  emits `errorOccurred` and keeps its state, as after a refused `connectToHost`.

The timer is repeating: on expiry its slot runs and the next interval begins. -/
def step (s : NativeController) : Event → Option (NativeController × List Effect)
  | .startController => some (startController s)
  | .stopController => some (stopController s)
  | .enableKeyboardControl b => some (enableKeyboardControl s b)
  | .enableGamepadControl b => some (enableGamepadControl s b)
  | .enableUdpClient b => some (enableUdpClient s b)
  | .enableTcpClient b => some (enableTcpClient s b)
  | .setServerAddress a => some (setServerAddress s a)
  | .setUdpPort p => some (setUdpPort s p)
  | .setTcpPort p => some (setTcpPort s p)
  | .sendButtonPress env b => some (sendButtonPress s env b)
  | .sendTouchCoordinate env x y => some (sendTouchCoordinate s env x y)
  | .sendModeChange env a => some (sendModeChange s env a)
  | .socketHostFound =>
    if s.tcpState = .HostLookupState then
      some ({ s with tcpState := .ConnectingState }, [])
    else none
  | .socketConnected =>
    if s.tcpState = .HostLookupState ∨ s.tcpState = .ConnectingState then
      some (onTcpConnected { s with tcpState := .ConnectedState })
    else none
  | .socketDisconnected =>
    if s.tcpState = .ConnectedState ∨ s.tcpState = .ClosingState then
      some (onTcpDisconnected { s with tcpState := .UnconnectedState })
    else none
  | .socketConnectFailed msg =>
    if s.tcpState = .HostLookupState ∨ s.tcpState = .ConnectingState then
      some (onTcpError { s with tcpState := .UnconnectedState } msg)
    else none
  | .socketErrorClose msg =>
    if s.tcpState = .ConnectedState ∨ s.tcpState = .ClosingState then
      let r1 := onTcpError s msg
      let r2 := onTcpDisconnected { r1.1 with tcpState := .UnconnectedState }
      some (r2.1, r1.2 ++ r2.2)
    else none
  | .socketOperationError msg =>
    if s.tcpState = .HostLookupState ∨ s.tcpState = .ConnectingState
        ∨ s.tcpState = .ClosingState then
      some (onTcpError s msg)
    else none
  | .elapse ms =>
    if s.timerActive then
      if ms ≤ s.timerRemaining then
        some ({ s with timerRemaining := s.timerRemaining - ms }, [])
      else none
    else some (s, [])
  | .timerTimeout =>
    if s.timerActive ∧ s.timerRemaining = 0 then
      some (reconnectToServer { s with timerRemaining := s.timerInterval })
    else none

/-- The controller after a sequence of events, with all effects in order; `none` when
some event of the sequence cannot happen where it stands. -/
def runEvents : NativeController → List Event → Option (NativeController × List Effect)
  | s, [] => some (s, [])
  | s, e :: es =>
    match step s e with
    | none => none
    | some r1 =>
      match runEvents r1.1 es with
      | none => none
      | some r2 => some (r2.1, r1.2 ++ r2.2)

/-- The states the controller can be in: those some sequence of events leads to from the
state the constructor leaves. -/
def Reachable (s : NativeController) : Prop :=
  ∃ es t, runEvents NativeController.init es = some (s, t)

/-! ## Pointer normalisation of the window (`mainwindow.cpp`) -/

/-- The Qt type `QPoint`: integer coordinates. -/
structure QPoint where
  x : Int
  y : Int
  deriving DecidableEq

/-- The Qt type `QSize`: integer width and height. -/
structure QSize where
  width : Int
  height : Int
  deriving DecidableEq

/-- Model of `QSize::isEmpty`: the width or the height is zero or negative. -/
def QSize.isEmpty (s : QSize) : Bool := decide (s.width ≤ 0) || decide (s.height ≤ 0)

/-- The Qt type `QRect`, as built by `QRect(x, y, width, height)`. -/
structure QRect where
  x : Int
  y : Int
  width : Int
  height : Int
  deriving DecidableEq

/-- The Qt type `QPointF`: a point with `double` coordinates. -/
structure QPointF where
  x : Double
  y : Double
  deriving DecidableEq

/-- The Qt type `QImage`, as far as the normalisation looks at it: `none` is the null image,
`some size` an image of that size. -/
abbrev QImage := Option QSize

/-- What `MainWindow::normalizeCoordinates` reads: the size of the window, the geometry
of the video label, and the frame and stream size the streamer reports; then the
network fields of the window with the values of their member initialisers
(mainwindow.h:55), the mode flag, the controller the window owns (`none` until
`setupNativeController` has run), and the `direction` properties of the arrow buttons
in the order `setupUI` creates them (mainwindow.cpp:139). -/
structure MainWindow where
  width : Int
  height : Int
  videoLabelGeometry : QRect
  currentFrame : QImage
  streamSize : QSize
  m_tcpAddress : String := "192.168.10.102"
  m_rtspPort : Nat := 554
  m_tcpPort : Nat := 8080
  m_udpPort : Nat := 8081
  m_rtspUrl : String := "rtsp://192.168.10.102:554/test"
  m_isAutoMode : Bool := true
  m_nativeController : Option NativeController := none
  m_arrowButtons : List String := ["↑", "→", "↓", "←"]
  deriving DecidableEq

/-- Embedding of `MainWindow::normalizeCoordinates` (mainwindow.cpp:567).  The result is `none` where a
`static_cast<int>` of the source is undefined. -/
def normalizeCoordinates (w : MainWindow) (screenCoord : QPoint) : Option QPointF :=
  let videoRect := w.videoLabelGeometry
  if w.currentFrame.isNone && w.streamSize.isEmpty then
    some ⟨Double.div (Double.ofInt screenCoord.x) (Double.ofInt w.width),
          Double.div (Double.ofInt screenCoord.y) (Double.ofInt w.height)⟩
  else
    let frameSize : QSize :=
      match w.currentFrame with
      | some f => f
      | none => w.streamSize
    let labelSize : QSize := ⟨videoRect.width, videoRect.height⟩
    let frameAspect := Double.div (Double.ofInt frameSize.width) (Double.ofInt frameSize.height)
    let labelAspect := Double.div (Double.ofInt labelSize.width) (Double.ofInt labelSize.height)
    let actualVideoRect : Option QRect :=
      if Double.gt frameAspect labelAspect then
        (Double.toInt (Double.div (Double.ofInt labelSize.width) frameAspect)).map
          fun scaledHeight =>
            let yOffset := Int.tdiv (labelSize.height - scaledHeight) 2
            ⟨videoRect.x, videoRect.y + yOffset, labelSize.width, scaledHeight⟩
      else
        (Double.toInt (Double.mul (Double.ofInt labelSize.height) frameAspect)).map
          fun scaledWidth =>
            let xOffset := Int.tdiv (labelSize.width - scaledWidth) 2
            ⟨videoRect.x + xOffset, videoRect.y, scaledWidth, labelSize.height⟩
    actualVideoRect.map fun r =>
      let relativeCoord : QPoint := ⟨screenCoord.x - r.x, screenCoord.y - r.y⟩
      let normalizedX := Double.div (Double.ofInt relativeCoord.x) (Double.ofInt r.width)
      let normalizedY := Double.div (Double.ofInt relativeCoord.y) (Double.ofInt r.height)
      ⟨qBound (.finite 0) normalizedX (.finite 1), qBound (.finite 0) normalizedY (.finite 1)⟩

/-- Embedding of `MainWindow::setNetworkConfiguration` (mainwindow.cpp:622): the fields
of the window, the stream URL, and through the three setters the configuration of the
controller.  The result carries the effects of the controller calls (the log lines of
the window itself are not represented). -/
def setNetworkConfiguration (w : MainWindow) (address : String)
    (rtspPort tcpPort udpPort : Nat) : MainWindow × List Effect :=
  let w1 := { w with
    m_tcpAddress := address, m_rtspPort := rtspPort, m_tcpPort := tcpPort,
    m_udpPort := udpPort }
  let w2 := { w1 with
    m_rtspUrl := QString.argInt (QString.arg "rtsp://%1:%2/test" w1.m_tcpAddress) w1.m_rtspPort }
  match w2.m_nativeController with
  | some c =>
    let r1 := setServerAddress c w2.m_tcpAddress
    let r2 := setUdpPort r1.1 w2.m_udpPort
    let r3 := setTcpPort r2.1 w2.m_tcpPort
    ({ w2 with m_nativeController := some r3.1 }, r1.2 ++ r2.2 ++ r3.2)
  | none => (w2, [])

/-- The statement of the constructor of `MainWindow` that initialises the stream URL
from the address and the port (mainwindow.cpp:62). -/
def initRtspUrl (w : MainWindow) : MainWindow :=
  { w with m_rtspUrl := QString.argInt (QString.arg "rtsp://%1:%2/test" w.m_tcpAddress) w.m_rtspPort }

/-- Embedding of `MainWindow::toggleAutoManual` (mainwindow.cpp:300), the slot the
`clicked` signal of the on-screen toggle button is connected to (mainwindow.cpp:136):
the mode flag is inverted; the restyling of the buttons is not represented.  The
function calls nothing of the controller, so its list of effects is empty. -/
def toggleAutoManual (w : MainWindow) : MainWindow × List Effect :=
  ({ w with m_isAutoMode := !w.m_isAutoMode }, [])

/-- Embedding of `MainWindow::handleModeToggle` (mainwindow.cpp:535), the slot of the
signal `modeTogglePressed` of the controller. -/
def handleModeToggle (w : MainWindow) (env : SocketEnv) : MainWindow × List Effect :=
  let r := toggleAutoManual w
  match r.1.m_nativeController with
  | some c =>
    let r1 := sendModeChange c env r.1.m_isAutoMode
    ({ r.1 with m_nativeController := some r1.1 }, r.2 ++ r1.2)
  | none => r

/-- Embedding of `MainWindow::arrowButtonClicked` (mainwindow.cpp:393).  The argument is
the `direction` property of the button that sent the signal, `none` when the sender is no
button. -/
def arrowButtonClicked (w : MainWindow) (env : SocketEnv) (sender : Option String) :
    MainWindow × List Effect :=
  match sender with
  | none => (w, [])
  | some direction =>
    let directionName :=
      if direction = "↑" then "UP"
      else if direction = "→" then "RIGHT"
      else if direction = "↓" then "DOWN"
      else if direction = "←" then "LEFT"
      else ""
    match w.m_nativeController with
    | some c =>
      if directionName ≠ "" then
        let r := sendButtonPress c env directionName
        ({ w with m_nativeController := some r.1 }, r.2)
      else (w, [])
    | none => (w, [])

/-- Embedding of `MainWindow::handleDirectionPress` (mainwindow.cpp:504), the slot of the
signal `directionPressed` of the controller: in MANUAL mode the first arrow button whose
`direction` property is the arrow of the direction is clicked, and `QAbstractButton::click`
runs the slot `arrowButtonClicked` of that button. -/
def handleDirectionPress (w : MainWindow) (env : SocketEnv) (direction : String) :
    MainWindow × List Effect :=
  if w.m_isAutoMode = false then
    let arrowSymbol :=
      if direction = "UP" then "↑"
      else if direction = "DOWN" then "↓"
      else if direction = "LEFT" then "←"
      else if direction = "RIGHT" then "→"
      else ""
    match w.m_arrowButtons.find? (fun buttonDirection => buttonDirection = arrowSymbol) with
    | some button => arrowButtonClicked w env (some button)
    | none => (w, [])
  else (w, [])

/-- The slots of the window that the signals of the controller are connected to in
`MainWindow::setupNativeController` (mainwindow.cpp:460): `directionPressed` and
`modeTogglePressed` have slots of the window, the other connections only write a log
line. -/
def windowSlot (w : MainWindow) (env : SocketEnv) : Signal → MainWindow × List Effect
  | .directionPressed d => handleDirectionPress w env d
  | .modeTogglePressed => handleModeToggle w env
  | _ => (w, [])

/-- Delivery of the signals of a trace of the controller to the window, in the order of
the trace: each `emit` runs the connected slot of the window at once (the connections
are direct), and the effects of the slot follow the `emit` in the joint trace. -/
def deliverSignals (env : SocketEnv) : MainWindow → List Effect → MainWindow × List Effect
  | w, [] => (w, [])
  | w, e :: rest =>
    match e with
    | .emit sig =>
      let r1 := windowSlot w env sig
      let r2 := deliverSignals env r1.1 rest
      (r2.1, e :: r1.2 ++ r2.2)
    | _ =>
      let r2 := deliverSignals env w rest
      (r2.1, e :: r2.2)

/-- An input of the controller as the window sees it: the handler of the controller runs
on the controller the window owns (with the socket outcomes `env` of its own sends), and
the signals it raises are delivered to the slots of the window (whose sends meet the
outcomes `envSlot`). -/
def controllerInput (w : MainWindow) (envSlot : SocketEnv)
    (handler : NativeController → NativeController × List Effect) : MainWindow × List Effect :=
  match w.m_nativeController with
  | none => (w, [])
  | some c =>
    let r := handler c
    deliverSignals envSlot { w with m_nativeController := some r.1 } r.2

/-- The Qt type `Qt::MouseButton`, as far as `mousePressEvent` tells its values apart. -/
inductive MouseButton where
  | LeftButton
  | RightButton
  | MiddleButton
  deriving DecidableEq

/-- Embedding of `MainWindow::mousePressEvent` (mainwindow.cpp:428).  The stream size is
the one the streamer reports (`w.streamSize`); `envTouch` and `envMode` are the socket
outcomes of the two sends.  The result is `none` where a `static_cast<int>` of the
source is undefined; `handleTouchCoordinate` only writes log lines. -/
def mousePressEvent (w : MainWindow) (envTouch envMode : SocketEnv) (button : MouseButton)
    (pos : QPoint) : Option (MainWindow × List Effect) :=
  if button = .LeftButton && w.m_isAutoMode then
    match normalizeCoordinates w pos with
    | none => none
    | some normalizedCoord =>
      let streamSize := w.streamSize
      match Double.toInt (Double.mul normalizedCoord.x (Double.ofInt streamSize.width)),
            Double.toInt (Double.mul normalizedCoord.y (Double.ofInt streamSize.height)) with
      | some streamX, some streamY =>
        match w.m_nativeController with
        | some c =>
          let r1 := sendTouchCoordinate c envTouch streamX streamY
          let r2 := sendModeChange r1.1 envMode w.m_isAutoMode
          some ({ w with m_nativeController := some r2.1 }, r1.2 ++ r2.2)
        | none => some (w, [])
      | _, _ => none
  else some (w, [])

/-- A double lies in the closed interval from 0.0 to 1.0. -/
def Double.inUnit : Double → Prop
  | .finite q => 0 ≤ q ∧ q ≤ 1
  | _ => False

/-! ## The stream worker (`rtspstreamer.h`, `rtspstreamer.cpp`) -/

/-- A frame as `cv::VideoCapture::read` delivers it: its dimensions and a number that
stands for its pixel content. -/
structure Mat where
  cols : Nat
  rows : Nat
  pixels : Nat
  deriving DecidableEq, Repr

/-- Model of `cv::Mat::empty`: the frame has no element. -/
def Mat.empty (m : Mat) : Bool := decide (m.cols = 0) || decide (m.rows = 0)

/-- The image `matToQImage` makes of a frame: a copy of its pixels. -/
structure FrameImage where
  width : Nat
  height : Nat
  pixels : Nat
  deriving DecidableEq, Repr

/-- Embedding of `RTSPStreamer::matToQImage` (rtspstreamer.cpp:143), up to the pixel
format. -/
def matToQImage (mat : Mat) : FrameImage := ⟨mat.cols, mat.rows, mat.pixels⟩

/-- What the worker does to the outside, in program order: calls on the capture
session, stores into the fields shared with the window, emitted signals, sleeps. -/
inductive StreamEffect where
  | captureOpen (url : String) (opened : Bool)
  | captureSetBufferSize (n : Nat)
  | captureRead (ok : Bool)
  | captureRelease
  | storeStreamSize (size : QSize)
  | storeCurrentFrame (img : FrameImage)
  | emitConnectionFailed
  | emitNewFrameAvailable (img : FrameImage)
  | msleep (ms : Nat)
  deriving DecidableEq

/-- The fields of `RTSPStreamer`, with the state of its capture session
(`m_videoCapture.isOpened()`). -/
structure RTSPStreamer where
  m_rtspUrl : String
  m_currentFrame : Option FrameImage
  m_stopped : Bool
  m_opencvEnabled : Bool
  m_lowLatencyMode : Bool
  m_streamSize : QSize
  captureOpened : Bool
  deriving DecidableEq

/-- The streamer as the constructor leaves it, built with or without OpenCV. -/
def RTSPStreamer.init (opencvEnabled : Bool) : RTSPStreamer where
  m_rtspUrl := ""
  m_currentFrame := none
  m_stopped := false
  m_opencvEnabled := opencvEnabled
  m_lowLatencyMode := true
  m_streamSize := ⟨0, 0⟩
  captureOpened := false

/-- Embedding of `RTSPStreamer::setUrl` (rtspstreamer.cpp:21). -/
def RTSPStreamer.setUrl (s : RTSPStreamer) (url : String) : RTSPStreamer :=
  { s with m_rtspUrl := url }

/-- Embedding of `RTSPStreamer::stopStreaming` (rtspstreamer.cpp:28). -/
def RTSPStreamer.stopStreaming (s : RTSPStreamer) : RTSPStreamer :=
  { s with m_stopped := true }

/-- Embedding of `RTSPStreamer::getCurrentFrame` (rtspstreamer.cpp:40): a copy of the
frame buffer, taken under the mutex. -/
def RTSPStreamer.getCurrentFrame (s : RTSPStreamer) : Option FrameImage := s.m_currentFrame

/-- Embedding of `RTSPStreamer::getStreamSize` (rtspstreamer.cpp:55): a copy of the stored
stream size, taken under the mutex. -/
def RTSPStreamer.getStreamSize (s : RTSPStreamer) : QSize := s.m_streamSize

/-- What one pass of the capture loop meets: the loop test finds the stop flag set by
`stopStreaming`; the window has called `setUrl` since the last pass; the read fails and
the reopen that follows succeeds or not; the read delivers a frame. -/
inductive LoopInput where
  | stopRequested
  | urlChanged (url : String)
  | readFails (reopened : Bool)
  | readOk (frame : Mat)
  deriving DecidableEq

/-- Whether `run` has returned or is still inside its capture loop. -/
inductive WorkerStatus where
  | Streaming
  | Stopped
  deriving DecidableEq, Repr

/-- The outcome of a worker run over the inputs given: the state, the effects in order,
and whether the run has returned. -/
structure RunResult where
  state : RTSPStreamer
  effects : List StreamEffect
  status : WorkerStatus
  deriving DecidableEq

/-- The same outcome, with the effects `pre` performed before. -/
def RunResult.after (pre : List StreamEffect) (r : RunResult) : RunResult :=
  { r with effects := pre ++ r.effects }

/-- The capture loop of `RTSPStreamer::run` (rtspstreamer.cpp:107-138), with the release
that follows it; `rtspUrl` is the local copy of the URL taken at the start of `run`.
When the inputs end, the worker is still in the loop. -/
def captureLoop (rtspUrl : String) : RTSPStreamer → List LoopInput → RunResult
  | s, [] => ⟨s, [], .Streaming⟩
  | s, .stopRequested :: _ =>
    ⟨{ s with m_stopped := true, captureOpened := false }, [.captureRelease], .Stopped⟩
  | s, .urlChanged url :: rest => captureLoop rtspUrl (s.setUrl url) rest
  | s, .readFails reopened :: rest =>
    if reopened then
      (captureLoop rtspUrl { s with captureOpened := true } rest).after
        [.captureRead false, .captureRelease, .captureOpen rtspUrl true]
    else
      ⟨{ s with captureOpened := false },
       [.captureRead false, .captureRelease, .captureOpen rtspUrl false,
        .emitConnectionFailed, .captureRelease],
       .Stopped⟩
  | s, .readOk frame :: rest =>
    if frame.empty then
      (captureLoop rtspUrl s rest).after [.captureRead true]
    else
      let qimg := matToQImage frame
      (captureLoop rtspUrl { s with m_currentFrame := some qimg } rest).after
        [.captureRead true, .storeCurrentFrame qimg, .emitNewFrameAvailable qimg, .msleep 1]

/-- What a run meets: whether the initial open succeeds, the stream dimensions the
session reports (after the conversion to `int`), and the inputs of the loop passes. -/
structure RunInput where
  opened : Bool
  width : Int
  height : Int
  loop : List LoopInput
  deriving DecidableEq

/-- Embedding of `RTSPStreamer::run` (rtspstreamer.cpp:74). -/
def RTSPStreamer.run (s : RTSPStreamer) (inp : RunInput) : RunResult :=
  let s0 := { s with m_stopped := false }
  let rtspUrl := s0.m_rtspUrl
  if !s0.m_opencvEnabled then
    ⟨s0, [.emitConnectionFailed], .Stopped⟩
  else if !inp.opened then
    ⟨{ s0 with captureOpened := false },
     [.captureOpen rtspUrl false, .emitConnectionFailed], .Stopped⟩
  else
    let s1 := { s0 with captureOpened := true, m_streamSize := ⟨inp.width, inp.height⟩ }
    (captureLoop rtspUrl s1 inp.loop).after
      [.captureOpen rtspUrl true, .captureSetBufferSize 1,
       .storeStreamSize ⟨inp.width, inp.height⟩]

/-! ## Vocabulary used to state the properties -/

/-- The effect is a datagram handed to the UDP socket. -/
def Effect.isDatagram : Effect → Bool
  | .writeDatagram _ _ _ => true
  | _ => false

/-- The effect is a write on the TCP link. -/
def Effect.isTcpWrite : Effect → Bool
  | .tcpWrite _ => true
  | _ => false

/-- The effect hands bytes to one of the two transports. -/
def Effect.isTransport (e : Effect) : Bool := e.isDatagram || e.isTcpWrite

/-- The effect is an emitted signal (an event raised by the controller). -/
def Effect.isSignal : Effect → Bool
  | .emit _ => true
  | _ => false

/-- The effect starts a connection attempt of the TCP socket. -/
def Effect.isConnectToHost : Effect → Bool
  | .connectToHost _ _ => true
  | _ => false

/-- The four direction names of the wire format. -/
def directions : List String := ["UP", "DOWN", "LEFT", "RIGHT"]

/-- The text of an integer: an optional minus sign, then at least one decimal digit. -/
def isIntText : List Char → Bool
  | '-' :: ds => !ds.isEmpty && ds.all Char.isDigit
  | ds => !ds.isEmpty && ds.all Char.isDigit

/-- The text after `TOUCH:` is two integers separated by one colon. -/
def isTouchPayload (rest : List Char) : Bool :=
  isIntText (rest.takeWhile (· ≠ ':')) &&
    match rest.dropWhile (· ≠ ':') with
    | ':' :: ys => isIntText ys
    | _ => false

/-- The wire formats of the control protocol:
`BUTTON:<UP|DOWN|LEFT|RIGHT>`, `TOUCH:<int>:<int>`, `MODE:<AUTO|MANUAL>`. -/
def isWireCommand (c : String) : Bool :=
  (c.data.take 7 == "BUTTON:".data && directions.contains ⟨c.data.drop 7⟩) ||
  (c.data.take 6 == "TOUCH:".data && isTouchPayload (c.data.drop 6)) ||
  (c.data.take 5 == "MODE:".data && ["AUTO", "MANUAL"].contains ⟨c.data.drop 5⟩)

/-- The transport contract of a send for the command `c` in the state `s`: one datagram
with the UTF-8 bytes of `c` exactly when UDP is enabled and the address is not empty, one
write of `c` followed by a newline on the TCP link exactly when TCP is enabled and the
link is connected, and no error event. -/
def TransportContract (s : NativeController) (t : List Effect) (c : String) : Prop :=
  t.filter Effect.isDatagram =
      (if s.m_udpEnabled = true ∧ s.m_serverAddress ≠ "" then
        [.writeDatagram (toUtf8 c) s.m_serverAddress s.m_udpPort] else []) ∧
  t.filter Effect.isTcpWrite =
      (if s.m_tcpEnabled = true ∧ s.tcpState = .ConnectedState then
        [.tcpWrite (toUtf8 c ++ [10])] else []) ∧
  ∀ m, Effect.emit (.errorOccurred m) ∉ t

/-- The effects of the block that the three send functions share, for the command `c`:
the UDP dispatch if enabled, the TCP dispatch if enabled, then `commandSent`. -/
def dispatch (s : NativeController) (env : SocketEnv) (c : String) : List Effect :=
  (if s.m_udpEnabled then (sendUdpCommand s env c).2 else []) ++
  (if s.m_tcpEnabled then (sendTcpCommand s env c).2 else []) ++
  [.emit (.commandSent c)]

/-- The outcome `r` of a handler run from the state `s` is that of one direction input
`d`: the state is unchanged, the effects are those of `sendButtonPress d` followed by the
signal `directionPressed d`, and the signals raised are `commandSent` with `BUTTON:d` and
`directionPressed d`, each once. -/
def FiresDirection (s : NativeController) (env : SocketEnv)
    (r : NativeController × List Effect) (d : String) : Prop :=
  r.1 = s ∧
  r.2 = (sendButtonPress s env d).2 ++ [.emit (.directionPressed d)] ∧
  r.2.filter Effect.isSignal =
    [.emit (.commandSent ("BUTTON:" ++ d)), .emit (.directionPressed d)]

/-- A socket environment in which both writes succeed with `n` bytes. -/
def SocketEnv.ok (n : Int) : SocketEnv where
  udpBytesWritten := n
  udpErrorString := ""
  tcpBytesWritten := n
  tcpErrorString := ""

/-- A socket environment in which the datagram write fails with the given error text. -/
def SocketEnv.udpFails (msg : String) : SocketEnv where
  udpBytesWritten := -1
  udpErrorString := msg
  tcpBytesWritten := 0
  tcpErrorString := ""

/-- In the effects `t` of a send, `commandSent c` is the only signal and is raised once,
and no bytes are handed to a transport after it. -/
def CommandSentAfterTransports (t : List Effect) (c : String) : Prop :=
  t.filter Effect.isSignal = [.emit (.commandSent c)] ∧
  ∃ pre post, t = pre ++ .emit (.commandSent c) :: post ∧
    ∀ e ∈ post, e.isTransport = false

/-- The effect is a call of `start()` on the reconnect timer. -/
def Effect.isTimerStart : Effect → Bool
  | .timerStart => true
  | _ => false

/-- What every reachable state of the controller satisfies: the interval of the reconnect
timer is the 5000 ms set by the constructor, auto-reconnect is on (no function changes
it), and the timer is not running while the link is connected. -/
def LinkInvariant (s : NativeController) : Prop :=
  s.timerInterval = 5000 ∧ s.m_autoReconnect = true ∧
  (s.tcpState = .ConnectedState → s.timerActive = false)

/-- The controller with TCP enabled and the link connected, as it is after
`enableTcpClient(true)` and a successful connection. -/
def NativeController.connected : NativeController :=
  { NativeController.init with m_tcpEnabled := true, tcpState := .ConnectedState }

/-- The effect is a call of `release()` on the capture session. -/
def StreamEffect.isRelease : StreamEffect → Bool
  | .captureRelease => true
  | _ => false

/-- The effect is a call of `open` on the capture session, successful or not. -/
def StreamEffect.isOpen : StreamEffect → Bool
  | .captureOpen _ _ => true
  | _ => false

/-- The effect is a successful `open`: the session holds a capture handle afterwards. -/
def StreamEffect.isOpened : StreamEffect → Bool
  | .captureOpen _ true => true
  | _ => false

/-- The effect is a frame read, successful or not. -/
def StreamEffect.isRead : StreamEffect → Bool
  | .captureRead _ => true
  | _ => false

/-- The effect is a failed frame read. -/
def StreamEffect.isFailedRead : StreamEffect → Bool
  | .captureRead false => true
  | _ => false

/-- The effect is the stream-failure event `connectionFailed`. -/
def StreamEffect.isConnectionFailed : StreamEffect → Bool
  | .emitConnectionFailed => true
  | _ => false

/-- The effect publishes the stream dimensions to the state shared with the window. -/
def StreamEffect.isStoreSize : StreamEffect → Bool
  | .storeStreamSize _ => true
  | _ => false

/-- The effect publishes something to the window: dimensions, a frame, or the signal
that carries a frame. -/
def StreamEffect.isPublish : StreamEffect → Bool
  | .storeStreamSize _ => true
  | .storeCurrentFrame _ => true
  | .emitNewFrameAvailable _ => true
  | _ => false

/-- The book kept on the capture handle while the effects of a run are replayed:
whether a handle is held, how many handles were obtained by a successful open, how many
were released, how many `release()` calls found no handle to release, and how many
successful opens found a handle still held. -/
structure HandleLedger where
  held : Bool
  obtained : Nat
  released : Nat
  idleReleases : Nat
  openedWhileHeld : Nat
  deriving DecidableEq, Repr

/-- One effect entered into the book. -/
def HandleLedger.record (l : HandleLedger) : StreamEffect → HandleLedger
  | .captureOpen _ true =>
    if l.held then
      { l with obtained := l.obtained + 1, openedWhileHeld := l.openedWhileHeld + 1 }
    else { l with held := true, obtained := l.obtained + 1 }
  | .captureRelease =>
    if l.held then { l with held := false, released := l.released + 1 }
    else { l with idleReleases := l.idleReleases + 1 }
  | _ => l

/-- The book after the effects `es`, starting from the book `l`. -/
def replayHandle : HandleLedger → List StreamEffect → HandleLedger
  | l, [] => l
  | l, e :: es => replayHandle (l.record e) es

/-- The book of a worker that has not opened anything yet. -/
def HandleLedger.empty : HandleLedger := ⟨false, 0, 0, 0, 0⟩

/-- A loop input after which the worker leaves its loop: a stop request, or a failed
read whose reopen fails. -/
def LoopInput.isTerminal : LoopInput → Bool
  | .stopRequested => true
  | .readFails false => true
  | _ => false

/-- The reopen discipline of the capture loop, read off its effects: as many opens as
failed reads; every open either succeeds or is answered by a failure event, of which
there is at most one; and once a failure event is raised nothing follows it but the
final release (no further read, no further open). -/
def ReopenDiscipline (es : List StreamEffect) : Prop :=
  (es.filter StreamEffect.isOpen).length = (es.filter StreamEffect.isFailedRead).length ∧
  (es.filter StreamEffect.isConnectionFailed).length
    + (es.filter StreamEffect.isOpened).length = (es.filter StreamEffect.isOpen).length ∧
  (es.filter StreamEffect.isConnectionFailed).length ≤ 1 ∧
  (es.dropWhile (fun e => !e.isConnectionFailed) = [] ∨
   es.dropWhile (fun e => !e.isConnectionFailed)
    = [.emitConnectionFailed, .captureRelease])

/-- The frames the reads of the loop have delivered, in order, up to the input that
makes the worker leave its loop. -/
def framesRead : List LoopInput → List Mat
  | [] => []
  | .stopRequested :: _ => []
  | .urlChanged _ :: rest => framesRead rest
  | .readFails reopened :: rest => if reopened then framesRead rest else []
  | .readOk frame :: rest => frame :: framesRead rest

/-- The most recent non-empty frame among `frames`, as an image; `start` if there is
none. -/
def mostRecentFrame (start : Option FrameImage) (frames : List Mat) : Option FrameImage :=
  match (frames.filter (fun f => !f.empty)).getLast? with
  | some f => some (matToQImage f)
  | none => start

/-- No read follows in `es` before the capture buffer size is set to 1. -/
def bufferSizeSetBeforeRead : List StreamEffect → Bool
  | [] => true
  | .captureSetBufferSize n :: _ => decide (n = 1)
  | .captureRead _ :: _ => false
  | _ :: rest => bufferSizeSetBeforeRead rest

/-- Every successful open in `es` is followed by the setting of the capture buffer size
to 1 before the next read. -/
def bufferSizeSetAfterEveryOpen : List StreamEffect → Bool
  | [] => true
  | .captureOpen _ true :: rest => bufferSizeSetBeforeRead rest && bufferSizeSetAfterEveryOpen rest
  | _ :: rest => bufferSizeSetAfterEveryOpen rest

/-- The commands handed to a transport in the trace `t`, as the bytes written, in
order. -/
def transportWrites : List Effect → List (List Nat)
  | [] => []
  | .writeDatagram data _ _ :: rest => data :: transportWrites rest
  | .tcpWrite data :: rest => data :: transportWrites rest
  | _ :: rest => transportWrites rest

/-- The commands announced by `commandSent` in the trace `t`, in order. -/
def commandsSent : List Effect → List String
  | [] => []
  | .emit (.commandSent c) :: rest => c :: commandsSent rest
  | _ :: rest => commandsSent rest

/-- The effect is a signal of the controller that a slot of the window answers:
`directionPressed` or `modeTogglePressed`. -/
def Effect.isWindowSignal : Effect → Bool
  | .emit (.directionPressed _) => true
  | .emit .modeTogglePressed => true
  | _ => false

/-- A window in MANUAL or AUTO mode that owns the controller `c`, with a view of
800 by 600 on a stream of 640 by 480. -/
def MainWindow.withController (c : NativeController) (autoMode : Bool) : MainWindow where
  width := 800
  height := 600
  videoLabelGeometry := ⟨0, 0, 800, 600⟩
  currentFrame := some ⟨640, 480⟩
  streamSize := ⟨640, 480⟩
  m_isAutoMode := autoMode
  m_nativeController := some c

/-- A window in AUTO mode that owns the controller `c`, with a view of 1920 by 1080 on a
stream of 1280 by 720. -/
def MainWindow.fullHd (c : NativeController) : MainWindow where
  width := 1920
  height := 1080
  videoLabelGeometry := ⟨0, 0, 1920, 1080⟩
  currentFrame := some ⟨1280, 720⟩
  streamSize := ⟨1280, 720⟩
  m_nativeController := some c

/-! ## Lemmas on string formatting -/

theorem arg_button_eq (b : String) : QString.arg "BUTTON:%1" b = "BUTTON:" ++ b := by
  have h : findArgEscapes "BUTTON:%1".data =
      [.text 'B', .text 'U', .text 'T', .text 'T', .text 'O', .text 'N', .text ':',
       .escape 1 ['%', '1']] := by decide
  unfold QString.arg
  rw [h]
  apply String.ext
  simp [minEscape, replaceArgEscapes]

theorem arg_mode_eq (a : String) : QString.arg "MODE:%1" a = "MODE:" ++ a := by
  have h : findArgEscapes "MODE:%1".data =
      [.text 'M', .text 'O', .text 'D', .text 'E', .text ':', .escape 1 ['%', '1']] := by decide
  unfold QString.arg
  rw [h]
  apply String.ext
  simp [minEscape, replaceArgEscapes]

theorem scanArg_plain_append (p r : List Char) (hp : ∀ c ∈ p, c ≠ '%') :
    scanArg .plain (p ++ r) = p.map .text ++ scanArg .plain r := by
  induction p with
  | nil => rfl
  | cons c cs ih =>
    have hc : c ≠ '%' := hp c (List.mem_cons_self _ _)
    have hcs : ∀ d ∈ cs, d ≠ '%' := fun d hd => hp d (List.mem_cons_of_mem _ hd)
    simp [scanArg, hc, ih hcs]

theorem minEscape_text_append (p : List Char) (l : List ArgPiece) :
    minEscape (p.map .text ++ l) = minEscape l := by
  induction p with
  | nil => rfl
  | cons c cs ih => simpa [minEscape] using ih

theorem replaceArgEscapes_text_append (m : Nat) (a p : List Char) (l : List ArgPiece) :
    replaceArgEscapes m a (p.map .text ++ l) = p ++ replaceArgEscapes m a l := by
  induction p with
  | nil => rfl
  | cons c cs ih => simpa [replaceArgEscapes] using ih

theorem digitChar_isDigit : ∀ d, d < 10 → (Nat.digitChar d).isDigit = true := by decide

theorem toDigitsCore_isDigit (fuel : Nat) : ∀ (n : Nat) (ds : List Char),
    (∀ c ∈ ds, c.isDigit = true) → ∀ c ∈ Nat.toDigitsCore 10 fuel n ds, c.isDigit = true := by
  induction fuel with
  | zero => intro n ds h; simpa [Nat.toDigitsCore] using h
  | succ f ih =>
    intro n ds h
    have hd : (Nat.digitChar (n % 10)).isDigit = true :=
      digitChar_isDigit _ (Nat.mod_lt _ (by decide))
    have hcons : ∀ c ∈ Nat.digitChar (n % 10) :: ds, c.isDigit = true := by
      intro c hc
      rcases List.mem_cons.mp hc with rfl | hc
      · exact hd
      · exact h c hc
    unfold Nat.toDigitsCore
    by_cases h0 : n / 10 = 0
    · simpa [h0] using hcons
    · simpa [h0] using ih (n / 10) _ hcons

theorem toDigits_isDigit (n : Nat) : ∀ c ∈ Nat.toDigits 10 n, c.isDigit = true :=
  toDigitsCore_isDigit (n + 1) n [] (by simp)

theorem toDigitsCore_ne_nil (fuel : Nat) : ∀ (n : Nat) (ds : List Char),
    ds ≠ [] → Nat.toDigitsCore 10 fuel n ds ≠ [] := by
  induction fuel with
  | zero => intro n ds h; simpa [Nat.toDigitsCore] using h
  | succ f ih =>
    intro n ds _
    unfold Nat.toDigitsCore
    by_cases h0 : n / 10 = 0
    · simp [h0]
    · simpa [h0] using ih (n / 10) _ (by simp)

theorem toDigits_ne_nil (n : Nat) : Nat.toDigits 10 n ≠ [] := by
  unfold Nat.toDigits Nat.toDigitsCore
  by_cases h0 : n / 10 = 0
  · simp [h0]
  · simpa [h0] using toDigitsCore_ne_nil n (n / 10) _ (by simp)

theorem decimal_chars (x : Int) : ∀ c ∈ (decimal x).data, c = '-' ∨ c.isDigit = true := by
  intro c hc
  unfold decimal at hc
  by_cases hx : x < 0
  · simp only [hx, if_true] at hc
    rcases List.mem_cons.mp hc with h | h
    · exact Or.inl h
    · exact Or.inr (toDigits_isDigit _ c h)
  · simp only [hx, if_false] at hc
    exact Or.inr (toDigits_isDigit _ c hc)

theorem isDigit_ne_percent (c : Char) (h : c.isDigit = true) : c ≠ '%' := by
  rintro rfl; revert h; decide

theorem isDigit_ne_colon (c : Char) (h : c.isDigit = true) : c ≠ ':' := by
  rintro rfl; revert h; decide

theorem decimal_no_percent (x : Int) : ∀ c ∈ (decimal x).data, c ≠ '%' := by
  intro c hc
  rcases decimal_chars x c hc with rfl | h
  · decide
  · exact isDigit_ne_percent c h

theorem arg_touch_eq (x y : Int) :
    QString.argInt (QString.argInt "TOUCH:%1:%2" x) y
      = "TOUCH:" ++ decimal x ++ ":" ++ decimal y := by
  have h1 : findArgEscapes "TOUCH:%1:%2".data =
      [.text 'T', .text 'O', .text 'U', .text 'C', .text 'H', .text ':',
       .escape 1 ['%', '1'], .text ':', .escape 2 ['%', '2']] := by decide
  have e1 : QString.argInt "TOUCH:%1:%2" x
      = ⟨"TOUCH:".data ++ (decimal x).data ++ [':'] ++ ['%', '2']⟩ := by
    unfold QString.argInt QString.arg
    rw [h1]
    apply String.ext
    simp [minEscape, replaceArgEscapes]
  have hp : ∀ c ∈ "TOUCH:".data ++ (decimal x).data ++ [':'], c ≠ '%' := by
    intro c hc
    simp only [List.mem_append, List.mem_singleton] at hc
    rcases hc with (hc | hc) | rfl
    · revert c; decide
    · exact decimal_no_percent x c hc
    · decide
  have h2 : findArgEscapes ("TOUCH:".data ++ (decimal x).data ++ [':'] ++ ['%', '2'])
      = ("TOUCH:".data ++ (decimal x).data ++ [':']).map .text ++ [.escape 2 ['%', '2']] := by
    unfold findArgEscapes
    rw [scanArg_plain_append _ _ hp]
    rfl
  rw [e1]
  unfold QString.argInt QString.arg
  simp only [h2, minEscape_text_append, replaceArgEscapes_text_append]
  apply String.ext
  simp [minEscape, replaceArgEscapes]

/-! ## Lemmas on the send functions -/

theorem sendUdpCommand_state (s : NativeController) (env : SocketEnv) (c : String) :
    (sendUdpCommand s env c).1 = s := by
  unfold sendUdpCommand; split <;> rfl

theorem sendTcpCommand_state (s : NativeController) (env : SocketEnv) (c : String) :
    (sendTcpCommand s env c).1 = s := by
  unfold sendTcpCommand; split <;> rfl

theorem sendButtonPress_eq (s : NativeController) (env : SocketEnv) (b : String) :
    sendButtonPress s env b =
      (s, dispatch s env ("BUTTON:" ++ b) ++ [.qDebug ["Sent button press:", b]]) := by
  unfold sendButtonPress dispatch
  simp only [arg_button_eq]
  cases hu : s.m_udpEnabled <;> cases ht : s.m_tcpEnabled <;>
    simp [hu, ht, sendUdpCommand_state, sendTcpCommand_state]

theorem sendTouchCoordinate_eq (s : NativeController) (env : SocketEnv) (x y : Int) :
    sendTouchCoordinate s env x y =
      (s, dispatch s env ("TOUCH:" ++ decimal x ++ ":" ++ decimal y) ++
          [.qDebug ["Sent touch coordinate:", decimal x, ",", decimal y]]) := by
  unfold sendTouchCoordinate dispatch
  simp only [arg_touch_eq]
  cases hu : s.m_udpEnabled <;> cases ht : s.m_tcpEnabled <;>
    simp [hu, ht, sendUdpCommand_state, sendTcpCommand_state]

theorem arg_mode_cases (autoMode : Bool) :
    QString.arg "MODE:%1" (if autoMode then "AUTO" else "MANUAL")
      = (if autoMode then "MODE:AUTO" else "MODE:MANUAL") := by
  cases autoMode <;> decide

theorem sendModeChange_eq (s : NativeController) (env : SocketEnv) (autoMode : Bool) :
    sendModeChange s env autoMode =
      (s, dispatch s env (if autoMode then "MODE:AUTO" else "MODE:MANUAL") ++
          [.qDebug ["Sent mode change:", if autoMode then "AUTO" else "MANUAL"]]) := by
  unfold sendModeChange dispatch
  simp only [arg_mode_cases]
  cases hu : s.m_udpEnabled <;> cases ht : s.m_tcpEnabled <;>
    simp [hu, ht, sendUdpCommand_state, sendTcpCommand_state]

theorem sendUdpCommand_effects (s : NativeController) (env : SocketEnv) (c : String) :
    (sendUdpCommand s env c).2.filter Effect.isSignal = [] ∧
    (sendUdpCommand s env c).2.filter Effect.isTcpWrite = [] ∧
    (sendUdpCommand s env c).2.filter Effect.isDatagram =
      (if s.m_serverAddress ≠ "" then
        [.writeDatagram (toUtf8 c) s.m_serverAddress s.m_udpPort] else []) := by
  unfold sendUdpCommand
  by_cases ha : s.m_serverAddress = "" <;> by_cases hw : env.udpBytesWritten = -1 <;>
    simp [ha, hw, Effect.isSignal, Effect.isTcpWrite, Effect.isDatagram]

theorem toUtf8_newline (c : String) : toUtf8 (c ++ "\n") = toUtf8 c ++ [10] := by
  unfold toUtf8
  have h : (c ++ "\n").data = c.data ++ ['\n'] := by simp
  rw [h, List.flatMap_append]
  congr 1

theorem sendTcpCommand_effects (s : NativeController) (env : SocketEnv) (c : String) :
    (sendTcpCommand s env c).2.filter Effect.isSignal = [] ∧
    (sendTcpCommand s env c).2.filter Effect.isDatagram = [] ∧
    (sendTcpCommand s env c).2.filter Effect.isTcpWrite =
      (if s.tcpState = .ConnectedState then [.tcpWrite (toUtf8 c ++ [10])] else []) := by
  unfold sendTcpCommand
  by_cases ha : s.tcpState = .ConnectedState <;> by_cases hw : env.tcpBytesWritten = -1 <;>
    simp [ha, hw, Effect.isSignal, Effect.isTcpWrite, Effect.isDatagram, toUtf8_newline]

theorem dispatch_signals (s : NativeController) (env : SocketEnv) (c : String) :
    (dispatch s env c).filter Effect.isSignal = [.emit (.commandSent c)] := by
  unfold dispatch
  cases hu : s.m_udpEnabled <;> cases ht : s.m_tcpEnabled <;>
    simp [(sendUdpCommand_effects s env c).1, (sendTcpCommand_effects s env c).1,
      Effect.isSignal]

theorem dispatch_datagrams (s : NativeController) (env : SocketEnv) (c : String) :
    (dispatch s env c).filter Effect.isDatagram =
      (if s.m_udpEnabled = true ∧ s.m_serverAddress ≠ "" then
        [.writeDatagram (toUtf8 c) s.m_serverAddress s.m_udpPort] else []) := by
  unfold dispatch
  cases hu : s.m_udpEnabled <;> cases ht : s.m_tcpEnabled <;>
    simp [(sendUdpCommand_effects s env c).2.2, (sendTcpCommand_effects s env c).2.1,
      Effect.isDatagram]

theorem dispatch_tcpWrites (s : NativeController) (env : SocketEnv) (c : String) :
    (dispatch s env c).filter Effect.isTcpWrite =
      (if s.m_tcpEnabled = true ∧ s.tcpState = .ConnectedState then
        [.tcpWrite (toUtf8 c ++ [10])] else []) := by
  unfold dispatch
  cases hu : s.m_udpEnabled <;> cases ht : s.m_tcpEnabled <;>
    simp [(sendUdpCommand_effects s env c).2.1, (sendTcpCommand_effects s env c).2.2,
      Effect.isTcpWrite]

/-! ## C1 to C3: the encoding of the three commands -/

/-- C1: for every button string `b`, `sendButtonPress` builds the command `BUTTON:` followed
by `b`; that string is what the UDP and TCP dispatch receive and what `commandSent`
carries.  For `UP` the command is `BUTTON:UP`. -/
theorem sendButtonPress_builds_button_command (s : NativeController) (env : SocketEnv)
    (b : String) :
    QString.arg "BUTTON:%1" b = "BUTTON:" ++ b ∧
    (sendButtonPress s env b).2 =
      (if s.m_udpEnabled then (sendUdpCommand s env ("BUTTON:" ++ b)).2 else []) ++
      (if s.m_tcpEnabled then (sendTcpCommand s env ("BUTTON:" ++ b)).2 else []) ++
      [.emit (.commandSent ("BUTTON:" ++ b)), .qDebug ["Sent button press:", b]] ∧
    QString.arg "BUTTON:%1" "UP" = "BUTTON:UP" ∧
    (sendButtonPress s env "UP").2.filter Effect.isSignal
      = [.emit (.commandSent "BUTTON:UP")] := by
  refine ⟨arg_button_eq b, ?_, by decide, ?_⟩
  · rw [sendButtonPress_eq]; simp [dispatch]
  · rw [sendButtonPress_eq]
    have h : ("BUTTON:" ++ "UP" : String) = "BUTTON:UP" := by decide
    simp [h, dispatch_signals, Effect.isSignal]

/-- C2: for all integers `x` and `y`, negative ones included, `sendTouchCoordinate` builds
`TOUCH:` + decimal `x` + `:` + decimal `y`, with `x` first; that string goes to the
transports and into `commandSent`.  For `(12, 34)` the command is `TOUCH:12:34`. -/
theorem sendTouchCoordinate_builds_touch_command (s : NativeController) (env : SocketEnv)
    (x y : Int) :
    QString.argInt (QString.argInt "TOUCH:%1:%2" x) y
      = "TOUCH:" ++ decimal x ++ ":" ++ decimal y ∧
    (sendTouchCoordinate s env x y).2 =
      (if s.m_udpEnabled then
          (sendUdpCommand s env ("TOUCH:" ++ decimal x ++ ":" ++ decimal y)).2 else []) ++
      (if s.m_tcpEnabled then
          (sendTcpCommand s env ("TOUCH:" ++ decimal x ++ ":" ++ decimal y)).2 else []) ++
      [.emit (.commandSent ("TOUCH:" ++ decimal x ++ ":" ++ decimal y)),
       .qDebug ["Sent touch coordinate:", decimal x, ",", decimal y]] ∧
    QString.argInt (QString.argInt "TOUCH:%1:%2" 12) 34 = "TOUCH:12:34" ∧
    QString.argInt (QString.argInt "TOUCH:%1:%2" (-7)) (-3) = "TOUCH:-7:-3" ∧
    (sendTouchCoordinate s env 12 34).2.filter Effect.isSignal
      = [.emit (.commandSent "TOUCH:12:34")] := by
  refine ⟨arg_touch_eq x y, ?_, by decide, by decide, ?_⟩
  · rw [sendTouchCoordinate_eq]; simp [dispatch]
  · rw [sendTouchCoordinate_eq]
    have h : ("TOUCH:" ++ decimal 12 ++ ":" ++ decimal 34 : String) = "TOUCH:12:34" := by
      decide
    simp [h, dispatch_signals, Effect.isSignal]

/-- C3: `sendModeChange true` builds exactly `MODE:AUTO` and `sendModeChange false`
exactly `MODE:MANUAL`; the only signal of a call is `commandSent` with one of these two
strings, and a command of `sendButtonPress` or `sendTouchCoordinate` never starts with
`MODE:`. -/
theorem sendModeChange_builds_mode_command (s : NativeController) (env : SocketEnv) :
    QString.arg "MODE:%1" "AUTO" = "MODE:AUTO" ∧
    QString.arg "MODE:%1" "MANUAL" = "MODE:MANUAL" ∧
    (∀ autoMode, (sendModeChange s env autoMode).2 =
      (if s.m_udpEnabled then
          (sendUdpCommand s env (if autoMode then "MODE:AUTO" else "MODE:MANUAL")).2
        else []) ++
      (if s.m_tcpEnabled then
          (sendTcpCommand s env (if autoMode then "MODE:AUTO" else "MODE:MANUAL")).2
        else []) ++
      [.emit (.commandSent (if autoMode then "MODE:AUTO" else "MODE:MANUAL")),
       .qDebug ["Sent mode change:", if autoMode then "AUTO" else "MANUAL"]]) ∧
    (sendModeChange s env true).2.filter Effect.isSignal
      = [.emit (.commandSent "MODE:AUTO")] ∧
    (sendModeChange s env false).2.filter Effect.isSignal
      = [.emit (.commandSent "MODE:MANUAL")] ∧
    (∀ b, (QString.arg "BUTTON:%1" b).data.take 5 ≠ "MODE:".data) ∧
    (∀ x y, (QString.argInt (QString.argInt "TOUCH:%1:%2" x) y).data.take 5
      ≠ "MODE:".data) := by
  refine ⟨by decide, by decide, fun a => ?_, ?_, ?_, ?_, ?_⟩
  · rw [sendModeChange_eq]; simp [dispatch]
  · rw [sendModeChange_eq]; simp [dispatch_signals, Effect.isSignal]
  · rw [sendModeChange_eq]; simp [dispatch_signals, Effect.isSignal]
  · intro b; rw [arg_button_eq]; simp
  · intro x y; rw [arg_touch_eq]; simp

/-! ## C4: the vocabulary of the wire -/

theorem isIntText_digits (l : List Char) (hne : l ≠ []) (hd : ∀ c ∈ l, c.isDigit = true) :
    isIntText l = true := by
  cases l with
  | nil => exact absurd rfl hne
  | cons c cs =>
    have hc : c ≠ '-' := by
      have := hd c (List.mem_cons_self _ _)
      rintro rfl; revert this; decide
    unfold isIntText
    split
    · rename_i h; simp at h; exact absurd h.1 hc
    · simp
      exact ⟨hd c (List.mem_cons_self _ _), fun x hx => hd x (List.mem_cons_of_mem _ hx)⟩

theorem isIntText_decimal (x : Int) : isIntText (decimal x).data = true := by
  unfold decimal
  by_cases hx : x < 0
  · simp only [hx, if_true]
    unfold isIntText
    have hne := toDigits_ne_nil x.natAbs
    have hd := toDigits_isDigit x.natAbs
    simp
    exact ⟨hne, hd⟩
  · simp only [hx, if_false]
    exact isIntText_digits _ (toDigits_ne_nil _) (toDigits_isDigit _)

theorem decimal_no_colon (x : Int) : ∀ c ∈ (decimal x).data, c ≠ ':' := by
  intro c hc
  rcases decimal_chars x c hc with rfl | h
  · decide
  · exact isDigit_ne_colon c h

theorem takeWhile_colon (p r : List Char) (hp : ∀ c ∈ p, c ≠ ':') :
    (p ++ ':' :: r).takeWhile (· ≠ ':') = p ∧
    (p ++ ':' :: r).dropWhile (· ≠ ':') = ':' :: r := by
  induction p with
  | nil => simp
  | cons c cs ih =>
    have hc : c ≠ ':' := hp c (List.mem_cons_self _ _)
    have := ih (fun d hd => hp d (List.mem_cons_of_mem _ hd))
    simp only [ne_eq, decide_not] at this
    simp [List.takeWhile, List.dropWhile, hc, this]

theorem isWireCommand_touch (x y : Int) :
    isWireCommand ("TOUCH:" ++ decimal x ++ ":" ++ decimal y) = true := by
  have hd : ("TOUCH:" ++ decimal x ++ ":" ++ decimal y).data
      = 'T' :: 'O' :: 'U' :: 'C' :: 'H' :: ':' :: ((decimal x).data ++ ':' :: (decimal y).data) := by
    simp
  have ht := takeWhile_colon (decimal x).data (decimal y).data (decimal_no_colon x)
  simp only [ne_eq, decide_not] at ht
  unfold isWireCommand isTouchPayload
  rw [hd]
  simp [ht.1, ht.2, isIntText_decimal]

theorem isWireCommand_button (b : String) :
    isWireCommand ("BUTTON:" ++ b) = true ↔ b ∈ directions := by
  have hd : ("BUTTON:" ++ b).data
      = 'B' :: 'U' :: 'T' :: 'T' :: 'O' :: 'N' :: ':' :: b.data := by
    simp
  unfold isWireCommand
  rw [hd]
  simp [directions]

/-- C4 (as stated, refuted): `sendButtonPress` accepts the string `FOO`; the datagram
handed to the UDP socket and the command carried by `commandSent` are `BUTTON:FOO`, which
matches none of the three wire formats. -/
theorem sendButtonPress_outside_vocabulary :
    Effect.writeDatagram (toUtf8 "BUTTON:FOO") "192.168.1.71" 8556
      ∈ (sendButtonPress NativeController.init (SocketEnv.ok 10) "FOO").2 ∧
    Effect.emit (.commandSent "BUTTON:FOO")
      ∈ (sendButtonPress NativeController.init (SocketEnv.ok 10) "FOO").2 ∧
    isWireCommand "BUTTON:FOO" = false := by
  decide

/-- C4 (amended): the command that each send function hands to the dispatch block is
`TOUCH:<int>:<int>` for `sendTouchCoordinate`, `MODE:<AUTO|MANUAL>` for `sendModeChange`,
and `BUTTON:` followed by the caller's string for `sendButtonPress`; the latter is in
the vocabulary `BUTTON:<UP|DOWN|LEFT|RIGHT>` exactly when the caller passes one of the
four direction names. -/
theorem send_commands_wire_format (s : NativeController) (env : SocketEnv) :
    (∀ b, (sendButtonPress s env b).2
        = dispatch s env ("BUTTON:" ++ b) ++ [.qDebug ["Sent button press:", b]] ∧
      (isWireCommand ("BUTTON:" ++ b) = true ↔ b ∈ directions)) ∧
    (∀ x y, (sendTouchCoordinate s env x y).2
        = dispatch s env ("TOUCH:" ++ decimal x ++ ":" ++ decimal y) ++
            [.qDebug ["Sent touch coordinate:", decimal x, ",", decimal y]] ∧
      isWireCommand ("TOUCH:" ++ decimal x ++ ":" ++ decimal y) = true) ∧
    (∀ autoMode, (sendModeChange s env autoMode).2
        = dispatch s env (if autoMode then "MODE:AUTO" else "MODE:MANUAL") ++
            [.qDebug ["Sent mode change:", if autoMode then "AUTO" else "MANUAL"]] ∧
      isWireCommand (if autoMode then "MODE:AUTO" else "MODE:MANUAL") = true) := by
  refine ⟨fun b => ⟨?_, isWireCommand_button b⟩, fun x y => ⟨?_, isWireCommand_touch x y⟩,
    fun a => ⟨?_, ?_⟩⟩
  · rw [sendButtonPress_eq]
  · rw [sendTouchCoordinate_eq]
  · rw [sendModeChange_eq]
  · cases a <;> decide

/-! ## C5: the deadzone of the gamepad axes -/

theorem qAbs_finite (q : ℚ) : qAbs (.finite q) = .finite |q| := by
  unfold qAbs
  by_cases hq : 0 ≤ q
  · have : Double.ge (.finite q) (.finite 0) = true := by
      simp only [Double.ge, decide_eq_true_eq]; exact hq
    rw [this, abs_of_nonneg hq]; rfl
  · have : Double.ge (.finite q) (.finite 0) = false := by
      simp only [Double.ge, decide_eq_false_iff_not]; exact hq
    rw [this, abs_of_neg (not_le.mp hq)]; rfl

theorem qAbs_ge_half (v : Double) (h : Double.ge (qAbs v) (.finite (1 / 2)) = true) :
    Double.lt (qAbs v) (.finite (1 / 2)) = false ∧
    (Double.gt v (.finite 0) = true ∨ Double.lt v (.finite 0) = true) ∧
    ¬ (Double.gt v (.finite 0) = true ∧ Double.lt v (.finite 0) = true) := by
  cases v with
  | finite q =>
    rw [qAbs_finite] at h ⊢
    simp only [Double.ge, Double.lt, Double.gt, decide_eq_true_eq, decide_eq_false_iff_not,
      not_lt] at h ⊢
    refine ⟨h, ?_, fun h1 => absurd h1.1 (not_lt.mpr (le_of_lt h1.2))⟩
    rcases lt_trichotomy q 0 with hq | hq | hq
    · exact Or.inr hq
    · rw [hq] at h; norm_num at h
    · exact Or.inl hq
  | posInf => decide
  | negInf => decide
  | nan => exact absurd h (by decide)

theorem onGamepadAxisChanged_live (s : NativeController) (env : SocketEnv) (axis : Int)
    (v : Double) (h : s.m_gamepadEnabled = true)
    (hlt : Double.lt (qAbs v) (.finite (1 / 2)) = false) :
    onGamepadAxisChanged s env axis v =
      if axis = 0 then
        ((sendButtonPress s env (if Double.gt v (.finite 0) then "RIGHT" else "LEFT")).1,
         (sendButtonPress s env (if Double.gt v (.finite 0) then "RIGHT" else "LEFT")).2 ++
          [.emit (.directionPressed (if Double.gt v (.finite 0) then "RIGHT" else "LEFT"))])
      else if axis = 1 then
        ((sendButtonPress s env (if Double.gt v (.finite 0) then "DOWN" else "UP")).1,
         (sendButtonPress s env (if Double.gt v (.finite 0) then "DOWN" else "UP")).2 ++
          [.emit (.directionPressed (if Double.gt v (.finite 0) then "DOWN" else "UP"))])
      else (s, []) := by
  unfold onGamepadAxisChanged
  rw [h, hlt]
  rfl

theorem sendButtonPress_fires (s : NativeController) (env : SocketEnv) (d : String) :
    FiresDirection s env
      ((sendButtonPress s env d).1, (sendButtonPress s env d).2 ++
        [.emit (.directionPressed d)]) d := by
  refine ⟨?_, rfl, ?_⟩
  · rw [sendButtonPress_eq]
  · rw [sendButtonPress_eq]
    simp [dispatch_signals, Effect.isSignal]

/-- C5: with gamepad control enabled, an axis value of magnitude below 0.5 produces no
event and no command; a value of magnitude at least 0.5 is positive or negative (never
both), and produces exactly one direction by its sign: axis 0 gives RIGHT or LEFT, axis 1
gives DOWN or UP, any other axis nothing. -/
theorem onGamepadAxisChanged_deadzone (s : NativeController) (env : SocketEnv) (axis : Int)
    (v : Double) (h : s.m_gamepadEnabled = true) :
    (Double.lt (qAbs v) (.finite (1 / 2)) = true →
      onGamepadAxisChanged s env axis v = (s, [])) ∧
    (Double.ge (qAbs v) (.finite (1 / 2)) = true →
      (Double.gt v (.finite 0) = true ∨ Double.lt v (.finite 0) = true) ∧
      ¬ (Double.gt v (.finite 0) = true ∧ Double.lt v (.finite 0) = true) ∧
      (axis = 0 → Double.gt v (.finite 0) = true →
        FiresDirection s env (onGamepadAxisChanged s env axis v) "RIGHT") ∧
      (axis = 0 → Double.lt v (.finite 0) = true →
        FiresDirection s env (onGamepadAxisChanged s env axis v) "LEFT") ∧
      (axis = 1 → Double.gt v (.finite 0) = true →
        FiresDirection s env (onGamepadAxisChanged s env axis v) "DOWN") ∧
      (axis = 1 → Double.lt v (.finite 0) = true →
        FiresDirection s env (onGamepadAxisChanged s env axis v) "UP") ∧
      (axis ≠ 0 → axis ≠ 1 → onGamepadAxisChanged s env axis v = (s, []))) := by
  constructor
  · intro hlt
    unfold onGamepadAxisChanged
    rw [h, hlt]
    rfl
  · intro hge
    obtain ⟨hlt, hsign, hexcl⟩ := qAbs_ge_half v hge
    have hneg : Double.lt v (.finite 0) = true → Double.gt v (.finite 0) = false := by
      intro hn
      cases hg : Double.gt v (.finite 0)
      · rfl
      · exact absurd ⟨hg, hn⟩ hexcl
    rw [onGamepadAxisChanged_live s env axis v h hlt]
    refine ⟨hsign, hexcl, ?_, ?_, ?_, ?_, ?_⟩
    · intro ha hpos
      simpa [ha, hpos] using sendButtonPress_fires s env "RIGHT"
    · intro ha hn
      simpa [ha, hneg hn] using sendButtonPress_fires s env "LEFT"
    · intro ha hpos
      simpa [ha, hpos] using sendButtonPress_fires s env "DOWN"
    · intro ha hn
      simpa [ha, hneg hn] using sendButtonPress_fires s env "UP"
    · intro h0 h1
      simp [h0, h1]

/-- C5, at concrete inputs: the double nearest to 0.4 on axis 0 produces nothing; the
double nearest to 0.51 on axis 0 fires RIGHT, and its negative on axis 1 fires UP. -/
theorem onGamepadAxisChanged_deadzone_witness :
    NativeController.init.m_gamepadEnabled = true ∧
    onGamepadAxisChanged NativeController.init (SocketEnv.ok 12) 0
        (.finite (3602879701896397 / 9007199254740992)) = (NativeController.init, []) ∧
    FiresDirection NativeController.init (SocketEnv.ok 12)
      (onGamepadAxisChanged NativeController.init (SocketEnv.ok 12) 0
        (.finite (2296835809958953 / 4503599627370496))) "RIGHT" ∧
    FiresDirection NativeController.init (SocketEnv.ok 9)
      (onGamepadAxisChanged NativeController.init (SocketEnv.ok 9) 1
        (.finite (-2296835809958953 / 4503599627370496))) "UP" := by
  refine ⟨rfl, ?_, ?_, ?_⟩
  · refine (onGamepadAxisChanged_deadzone NativeController.init (SocketEnv.ok 12) 0
      (.finite (3602879701896397 / 9007199254740992)) rfl).1 ?_
    rw [qAbs_finite]
    simp only [Double.lt, decide_eq_true_eq]
    rw [abs_lt]
    constructor <;> norm_num
  · refine ((onGamepadAxisChanged_deadzone NativeController.init (SocketEnv.ok 12) 0
      (.finite (2296835809958953 / 4503599627370496)) rfl).2 ?_).2.2.1 rfl ?_
    · rw [qAbs_finite]
      simp only [Double.ge, decide_eq_true_eq]
      rw [le_abs]
      left; norm_num
    · simp only [Double.gt, Double.lt, decide_eq_true_eq]
      norm_num
  · refine ((onGamepadAxisChanged_deadzone NativeController.init (SocketEnv.ok 9) 1
      (.finite (-2296835809958953 / 4503599627370496)) rfl).2 ?_).2.2.2.2.2.1 rfl ?_
    · rw [qAbs_finite]
      simp only [Double.ge, decide_eq_true_eq]
      rw [le_abs]
      right; norm_num
    · simp only [Double.lt, decide_eq_true_eq]
      norm_num

/-! ## Lemmas on the rounding of doubles -/

/-- The integer that lies less than one half from a rational is what the rounding
returns. -/
theorem roundHalfEven_eq (t : ℚ) (m : Int) (h1 : (m : ℚ) - 1 / 2 < t) (h2 : t < m + 1 / 2) :
    Double.roundHalfEven t = m := by
  have hf1 : ((⌊t⌋ : Int) : ℚ) ≤ t := Int.floor_le t
  have hf2 : t < ⌊t⌋ + 1 := Int.lt_floor_add_one t
  unfold Double.roundHalfEven
  split_ifs with c1 c2 c3
  · have a : ((⌊t⌋ : Int) : ℚ) < m + 1 := by linarith
    have b : (m : ℚ) < ⌊t⌋ + 1 := by linarith
    have a' : ⌊t⌋ < m + 1 := by exact_mod_cast a
    have b' : m < ⌊t⌋ + 1 := by exact_mod_cast b
    omega
  · have a : ((⌊t⌋ : Int) : ℚ) < m := by linarith
    have b : (m : ℚ) < ⌊t⌋ + 2 := by linarith
    have a' : ⌊t⌋ < m := by exact_mod_cast a
    have b' : m < ⌊t⌋ + 2 := by exact_mod_cast b
    omega
  · exfalso
    have e : t - ⌊t⌋ = 1 / 2 := le_antisymm (not_lt.mp c2) (not_lt.mp c1)
    have a : ((⌊t⌋ : Int) : ℚ) < m := by linarith
    have b : (m : ℚ) < ⌊t⌋ + 1 := by linarith
    have a' : ⌊t⌋ < m := by exact_mod_cast a
    have b' : m < ⌊t⌋ + 1 := by exact_mod_cast b
    omega
  · exfalso
    have e : t - ⌊t⌋ = 1 / 2 := le_antisymm (not_lt.mp c2) (not_lt.mp c1)
    have a : ((⌊t⌋ : Int) : ℚ) < m := by linarith
    have b : (m : ℚ) < ⌊t⌋ + 1 := by linarith
    have a' : ⌊t⌋ < m := by exact_mod_cast a
    have b' : m < ⌊t⌋ + 1 := by exact_mod_cast b
    omega

theorem roundHalfEven_nonneg (t : ℚ) (h : 0 ≤ t) : 0 ≤ Double.roundHalfEven t := by
  have hf : 0 ≤ ⌊t⌋ := Int.floor_nonneg.mpr h
  unfold Double.roundHalfEven
  split_ifs <;> omega

theorem roundHalfEven_le (t : ℚ) (N : Int) (h : t ≤ N) : Double.roundHalfEven t ≤ N := by
  have hf : ⌊t⌋ ≤ N := by
    have := Int.floor_mono h
    simpa using this
  have hstep : ¬ (t - ⌊t⌋ < 1 / 2) → ⌊t⌋ + 1 ≤ N := by
    intro c
    have a : ((⌊t⌋ : Int) : ℚ) < t := by linarith [not_lt.mp c]
    have b : ((⌊t⌋ : Int) : ℚ) < N := lt_of_lt_of_le a h
    have b' : ⌊t⌋ < N := by exact_mod_cast b
    omega
  unfold Double.roundHalfEven
  split_ifs with c1 c2 c3
  · exact hf
  · exact hstep c1
  · exact hf
  · exact hstep c1

/-- The rounding to an integer moves a rational by one half at most. -/
theorem roundHalfEven_near (t : ℚ) : |(Double.roundHalfEven t : ℚ) - t| ≤ 1 / 2 := by
  have hf1 : ((⌊t⌋ : Int) : ℚ) ≤ t := Int.floor_le t
  have hf2 : t < ⌊t⌋ + 1 := Int.lt_floor_add_one t
  unfold Double.roundHalfEven
  rw [abs_le]
  split_ifs with c1 c2 c3
  · constructor <;> linarith
  · push_cast; constructor <;> linarith
  · have e : t - ⌊t⌋ = 1 / 2 := le_antisymm (not_lt.mp c2) (not_lt.mp c1)
    constructor <;> linarith
  · have e : t - ⌊t⌋ = 1 / 2 := le_antisymm (not_lt.mp c2) (not_lt.mp c1)
    push_cast; constructor <;> linarith

/-- What `roundMagnitude` returns for a positive rational: a multiple of the weight of
the last bit, with a significand of at most `2 ^ 53`, that lies within half that weight of
the rational. -/
theorem roundMagnitude_near (q : ℚ) (hq : 0 < q) :
    ∃ m : Int, 0 ≤ m ∧ m ≤ 2 ^ 53 ∧
      Double.roundMagnitude q = m * 2 ^ (max (Int.log 2 q - 52) (-1074)) ∧
      |Double.roundMagnitude q - q| ≤ 2 ^ (max (Int.log 2 q - 52) (-1074)) / 2 := by
  have hp : (0 : ℚ) < 2 ^ (max (Int.log 2 q - 52) (-1074)) := by positivity
  have ht0 : 0 ≤ q / 2 ^ (max (Int.log 2 q - 52) (-1074)) := div_nonneg hq.le hp.le
  have hlt : q < (2 : ℚ) ^ (Int.log 2 q + 1) := by
    exact_mod_cast Int.lt_zpow_succ_log_self (by norm_num : 1 < 2) q
  have hle : (2 : ℚ) ^ (Int.log 2 q + 1)
      ≤ 2 ^ (53 : ℤ) * 2 ^ (max (Int.log 2 q - 52) (-1074)) := by
    rw [← zpow_add₀ (by norm_num : (2 : ℚ) ≠ 0)]
    apply zpow_le_zpow_right₀ (by norm_num)
    have := le_max_left (Int.log 2 q - 52) (-1074)
    omega
  have htN : q / 2 ^ (max (Int.log 2 q - 52) (-1074)) ≤ ((2 ^ 53 : Int) : ℚ) := by
    rw [div_le_iff₀ hp]
    have h53 : (((2 ^ 53 : Int) : ℚ)) = (2 : ℚ) ^ (53 : ℤ) := by norm_num
    rw [h53]
    exact (lt_of_lt_of_le hlt hle).le
  refine ⟨Double.roundHalfEven (q / 2 ^ (max (Int.log 2 q - 52) (-1074))),
    roundHalfEven_nonneg _ ht0, roundHalfEven_le _ _ htN, rfl, ?_⟩
  have hn := roundHalfEven_near (q / 2 ^ (max (Int.log 2 q - 52) (-1074)))
  have e : Double.roundMagnitude q - q
      = ((Double.roundHalfEven (q / 2 ^ (max (Int.log 2 q - 52) (-1074))) : ℚ)
          - q / 2 ^ (max (Int.log 2 q - 52) (-1074)))
        * 2 ^ (max (Int.log 2 q - 52) (-1074)) := by
    unfold Double.roundMagnitude
    field_simp
  rw [e, abs_mul, abs_of_pos hp]
  calc _ ≤ 1 / 2 * 2 ^ (max (Int.log 2 q - 52) (-1074)) :=
        mul_le_mul_of_nonneg_right hn hp.le
    _ = _ := by ring

/-- The value of `roundMagnitude` from bounds that arithmetic can check: `q` lies in the
binade whose last bit weighs `2 ^ e`, and `m` is the integer nearest to `q / 2 ^ e`. -/
theorem roundMagnitude_eq (q : ℚ) (m e : Int)
    (hlo : (2 : ℚ) ^ (e + 52) ≤ q) (hhi : q < (2 : ℚ) ^ (e + 53)) (he : -1074 ≤ e)
    (h1 : (m : ℚ) - 1 / 2 < q / 2 ^ e) (h2 : q / 2 ^ e < m + 1 / 2) :
    Double.roundMagnitude q = m * 2 ^ e := by
  have hq : 0 < q := lt_of_lt_of_le (by positivity) hlo
  have hl1 : e + 52 ≤ Int.log 2 q :=
    (Int.zpow_le_iff_le_log (by norm_num) hq).mp (by exact_mod_cast hlo)
  have hl2 : Int.log 2 q < e + 53 :=
    (Int.lt_zpow_iff_log_lt (by norm_num) hq).mp (by exact_mod_cast hhi)
  have hl : Int.log 2 q - 52 = e := by omega
  unfold Double.roundMagnitude
  simp only [hl, max_eq_left he]
  rw [roundHalfEven_eq _ m h1 h2]

/-- The rounding of a positive rational, from the same bounds. -/
theorem round_pos_eq (q : ℚ) (m e : Int)
    (hlo : (2 : ℚ) ^ (e + 52) ≤ q) (hhi : q < (2 : ℚ) ^ (e + 53)) (he : -1074 ≤ e)
    (h1 : (m : ℚ) - 1 / 2 < q / 2 ^ e) (h2 : q / 2 ^ e < m + 1 / 2)
    (hfin : (m : ℚ) * 2 ^ e < 2 ^ 1024) :
    Double.round q = .finite (m * 2 ^ e) := by
  have hq : 0 < q := lt_of_lt_of_le (by positivity) hlo
  unfold Double.round
  rw [roundMagnitude_eq q m e hlo hhi he h1 h2]
  simp only [hq.ne', if_false, hq, if_true, not_le.mpr hfin]

/-- The rounding of a negative rational, from the bounds on its magnitude. -/
theorem round_neg_eq (q : ℚ) (m e : Int)
    (hlo : (2 : ℚ) ^ (e + 52) ≤ -q) (hhi : -q < (2 : ℚ) ^ (e + 53)) (he : -1074 ≤ e)
    (h1 : (m : ℚ) - 1 / 2 < -q / 2 ^ e) (h2 : -q / 2 ^ e < m + 1 / 2)
    (hfin : (m : ℚ) * 2 ^ e < 2 ^ 1024) :
    Double.round q = .finite (-(m * 2 ^ e)) := by
  have hq : 0 < -q := lt_of_lt_of_le (by positivity) hlo
  have hq' : q < 0 := by linarith
  unfold Double.round
  rw [roundMagnitude_eq (-q) m e hlo hhi he h1 h2]
  simp only [hq'.ne, if_false, not_lt.mpr hq'.le, not_le.mpr hfin]

/-- Rounding is monotone against integers that a `double` holds exactly: a rational
between 0 and an integer below `2 ^ 53` rounds to a finite value between 0 and that
integer. -/
theorem round_between (q : ℚ) (W : Int) (h0 : 0 ≤ q) (hW : q ≤ W) (hb : W < 2 ^ 53) :
    ∃ r : ℚ, Double.round q = .finite r ∧ 0 ≤ r ∧ r ≤ W := by
  by_cases hq0 : q = 0
  · refine ⟨0, ?_, le_rfl, ?_⟩
    · simp [Double.round, hq0]
    · rw [hq0] at hW; exact hW
  have hq : 0 < q := lt_of_le_of_ne h0 (Ne.symm hq0)
  have hWq : (W : ℚ) < 2 ^ (53 : ℤ) := by exact_mod_cast hb
  have hlog : Int.log 2 q < 53 :=
    (Int.lt_zpow_iff_log_lt (by norm_num) hq).mp (by exact_mod_cast lt_of_le_of_lt hW hWq)
  obtain ⟨k, hk⟩ : ∃ k : ℕ, max (Int.log 2 q - 52) (-1074) = -(k : ℤ) := by
    refine ⟨(-(max (Int.log 2 q - 52) (-1074))).toNat, ?_⟩
    have : max (Int.log 2 q - 52) (-1074) ≤ 0 := max_le (by omega) (by norm_num)
    omega
  have hpow : (0 : ℚ) < 2 ^ k := by positivity
  have hmag : Double.roundMagnitude q = (Double.roundHalfEven (q * 2 ^ k) : ℚ) / 2 ^ k := by
    unfold Double.roundMagnitude
    simp only [hk, zpow_neg, zpow_natCast, div_inv_eq_mul]
    rfl
  have ht0 : 0 ≤ q * 2 ^ k := mul_nonneg h0 hpow.le
  have htN : q * 2 ^ k ≤ ((W * 2 ^ k : Int) : ℚ) := by
    push_cast
    exact mul_le_mul_of_nonneg_right hW hpow.le
  have hm0 := roundHalfEven_nonneg _ ht0
  have hmN := roundHalfEven_le _ _ htN
  have hr0 : 0 ≤ Double.roundMagnitude q := by
    rw [hmag]
    exact div_nonneg (by exact_mod_cast hm0) hpow.le
  have hrW : Double.roundMagnitude q ≤ W := by
    rw [hmag, div_le_iff₀ hpow]
    have : ((Double.roundHalfEven (q * 2 ^ k) : Int) : ℚ) ≤ ((W * 2 ^ k : Int) : ℚ) := by
      exact_mod_cast hmN
    simpa using this
  have hfin : ¬ ((2 : ℚ) ^ 1024 ≤ Double.roundMagnitude q) := by
    have h53 : (W : ℚ) < 2 ^ 1024 :=
      lt_trans (show (W : ℚ) < 2 ^ 53 by exact_mod_cast hb) (by norm_num)
    exact not_le.mpr (lt_of_le_of_lt hrW h53)
  refine ⟨Double.roundMagnitude q, ?_, hr0, hrW⟩
  simp only [Double.round, hq0, if_false, hq, if_true, hfin]

/-- The quotient of two converted integers is the exact quotient, rounded. -/
theorem div_ofInt (a b : Int) (hb : b ≠ 0) :
    Double.div (Double.ofInt a) (Double.ofInt b) = Double.round ((a : ℚ) / (b : ℚ)) := by
  have hb' : (b : ℚ) ≠ 0 := by exact_mod_cast hb
  simp only [Double.div, Double.ofInt, hb', if_false]

theorem mul_ofInt_finite (a : Int) (b : ℚ) :
    Double.mul (Double.ofInt a) (.finite b) = Double.round ((a : ℚ) * b) := rfl

theorem mul_finite_ofInt (a : ℚ) (b : Int) :
    Double.mul (.finite a) (Double.ofInt b) = Double.round (a * (b : ℚ)) := rfl

/-! ## C6: the range of the normalised pointer coordinates -/

theorem lt_finite (a b : ℚ) : Double.lt (.finite a) (.finite b) = decide (a < b) := rfl

theorem qMin_finite (a b : ℚ) : qMin (.finite a) (.finite b) = .finite (min a b) := by
  unfold qMin
  rw [lt_finite]
  by_cases h : a < b
  · simp [h, min_eq_left (le_of_lt h)]
  · simp [h, min_eq_right (not_lt.mp h)]

theorem qMax_finite (a b : ℚ) : qMax (.finite a) (.finite b) = .finite (max a b) := by
  unfold qMax
  rw [lt_finite]
  by_cases h : a < b
  · simp [h, max_eq_right (le_of_lt h)]
  · simp [h, max_eq_left (not_lt.mp h)]

theorem qBound_unit (v : Double) : (qBound (.finite 0) v (.finite 1)).inUnit := by
  cases v with
  | finite q =>
    unfold qBound
    rw [qMin_finite, qMax_finite]
    exact ⟨le_max_left _ _, max_le (by norm_num) (min_le_left _ _)⟩
  | posInf =>
    have h : qMin (.finite 1) .posInf = .finite 1 := rfl
    unfold qBound
    rw [h, qMax_finite]
    exact ⟨le_max_left _ _, max_le (by norm_num) le_rfl⟩
  | negInf =>
    have h : qBound (.finite 0) .negInf (.finite 1) = .finite 0 := rfl
    rw [h]
    exact ⟨le_rfl, by norm_num⟩
  | nan =>
    have h : qBound (.finite 0) .nan (.finite 1) = .finite 0 := rfl
    rw [h]
    exact ⟨le_rfl, by norm_num⟩

/-- Where a frame or a stream size is known, the point returned by
`normalizeCoordinates` has both components between 0.0 and 1.0. -/
theorem normalizeCoordinates_clamped (w : MainWindow) (p : QPoint) (r : QPointF)
    (hinfo : (w.currentFrame.isNone && w.streamSize.isEmpty) = false)
    (hr : normalizeCoordinates w p = some r) : r.x.inUnit ∧ r.y.inUnit := by
  unfold normalizeCoordinates at hr
  simp only [hinfo] at hr
  simp only [Bool.false_eq_true, if_false, Option.map_eq_some'] at hr
  obtain ⟨a, -, rfl⟩ := hr
  exact ⟨qBound_unit _, qBound_unit _⟩

/-- C6 (the code at the failing input): with no frame and no stream size, in a window of
100 by 100, the point `(-50, 200)` is returned as `(-0.5, 2.0)`; neither component lies
between 0.0 and 1.0. -/
theorem normalizeCoordinates_unclamped_without_stream :
    normalizeCoordinates
        { width := 100, height := 100, videoLabelGeometry := ⟨0, 0, 100, 100⟩,
          currentFrame := none, streamSize := ⟨0, 0⟩ }
        ⟨-50, 200⟩
      = some ⟨.finite (-1 / 2), .finite 2⟩ ∧
    ¬ (Double.finite (-1 / 2)).inUnit ∧ ¬ (Double.finite 2).inUnit := by
  refine ⟨?_, ?_, ?_⟩
  · have r1 : Double.round (((-50 : Int) : ℚ) / ((100 : Int) : ℚ)) = .finite (-1 / 2) := by
      have := round_neg_eq (((-50 : Int) : ℚ) / ((100 : Int) : ℚ)) 4503599627370496 (-53)
        (by norm_num) (by norm_num) (by norm_num) (by norm_num) (by norm_num) (by norm_num)
      rw [this]
      norm_num
    have r2 : Double.round (((200 : Int) : ℚ) / ((100 : Int) : ℚ)) = .finite 2 := by
      have := round_pos_eq (((200 : Int) : ℚ) / ((100 : Int) : ℚ)) 4503599627370496 (-51)
        (by norm_num) (by norm_num) (by norm_num) (by norm_num) (by norm_num) (by norm_num)
      rw [this]
      norm_num
    have e : normalizeCoordinates
        { width := 100, height := 100, videoLabelGeometry := ⟨0, 0, 100, 100⟩,
          currentFrame := none, streamSize := ⟨0, 0⟩ }
        ⟨-50, 200⟩
        = some ⟨Double.div (Double.ofInt (-50)) (Double.ofInt 100),
                Double.div (Double.ofInt 200) (Double.ofInt 100)⟩ := rfl
    rw [e, div_ofInt (-50) 100 (by norm_num), div_ofInt 200 100 (by norm_num), r1, r2]
  · simp only [Double.inUnit]; norm_num
  · simp only [Double.inUnit]; norm_num

/-! ## C7 to C10: the dispatch to the transports -/

theorem dispatch_contract (s : NativeController) (env : SocketEnv) (c : String)
    (l : List String) : TransportContract s (dispatch s env c ++ [.qDebug l]) c := by
  refine ⟨?_, ?_, ?_⟩
  · simp [List.filter_append, dispatch_datagrams, Effect.isDatagram]
  · simp [List.filter_append, dispatch_tcpWrites, Effect.isTcpWrite]
  · intro m hm
    have h1 : Effect.emit (Signal.errorOccurred m)
        ∈ (dispatch s env c ++ [Effect.qDebug l]).filter Effect.isSignal :=
      List.mem_filter.mpr ⟨hm, rfl⟩
    simp [List.filter_append, dispatch_signals, Effect.isSignal] at h1

theorem dispatch_commandSent (s : NativeController) (env : SocketEnv) (c : String)
    (l : List String) : CommandSentAfterTransports (dispatch s env c ++ [.qDebug l]) c := by
  refine ⟨?_, ?_⟩
  · simp [List.filter_append, dispatch_signals, Effect.isSignal]
  · refine ⟨(if s.m_udpEnabled then (sendUdpCommand s env c).2 else []) ++
        (if s.m_tcpEnabled then (sendTcpCommand s env c).2 else []), [.qDebug l], ?_, ?_⟩
    · simp [dispatch]
    · intro e he
      simp only [List.mem_singleton] at he
      subst he
      rfl

/-- C7: for each of the three send functions and its command `c`: one datagram with the
UTF-8 bytes of `c` is written exactly when UDP is enabled and the address is not empty;
`c` followed by one newline is written to the TCP link exactly when TCP is enabled and the
link is connected, and nothing is written and no error raised otherwise.  The TCP writes
do not depend on the outcome of the socket calls, the UDP write included. -/
theorem send_transport_contract (s : NativeController) (env : SocketEnv) :
    (∀ b, TransportContract s (sendButtonPress s env b).2 ("BUTTON:" ++ b)) ∧
    (∀ x y, TransportContract s (sendTouchCoordinate s env x y).2
      ("TOUCH:" ++ decimal x ++ ":" ++ decimal y)) ∧
    (∀ autoMode, TransportContract s (sendModeChange s env autoMode).2
      (if autoMode then "MODE:AUTO" else "MODE:MANUAL")) ∧
    (∀ c, toUtf8 (c ++ "\n") = toUtf8 c ++ [10]) ∧
    (∀ env2 b, (sendButtonPress s env b).2.filter Effect.isTcpWrite
      = (sendButtonPress s env2 b).2.filter Effect.isTcpWrite) ∧
    (∀ env2 x y, (sendTouchCoordinate s env x y).2.filter Effect.isTcpWrite
      = (sendTouchCoordinate s env2 x y).2.filter Effect.isTcpWrite) ∧
    (∀ env2 autoMode, (sendModeChange s env autoMode).2.filter Effect.isTcpWrite
      = (sendModeChange s env2 autoMode).2.filter Effect.isTcpWrite) := by
  refine ⟨fun b => ?_, fun x y => ?_, fun a => ?_, toUtf8_newline, fun env2 b => ?_,
    fun env2 x y => ?_, fun env2 a => ?_⟩
  · rw [sendButtonPress_eq]; exact dispatch_contract _ _ _ _
  · rw [sendTouchCoordinate_eq]; exact dispatch_contract _ _ _ _
  · rw [sendModeChange_eq]; exact dispatch_contract _ _ _ _
  · rw [sendButtonPress_eq, sendButtonPress_eq]
    rw [(dispatch_contract s env _ _).2.1, (dispatch_contract s env2 _ _).2.1]
  · rw [sendTouchCoordinate_eq, sendTouchCoordinate_eq]
    rw [(dispatch_contract s env _ _).2.1, (dispatch_contract s env2 _ _).2.1]
  · rw [sendModeChange_eq, sendModeChange_eq]
    rw [(dispatch_contract s env _ _).2.1, (dispatch_contract s env2 _ _).2.1]

/-- C8: each call of a send function raises `commandSent` exactly once, with the encoded
command, as its only signal and after every write to a transport, whatever the transport
flags, the link state and the server address; with both transports disabled the call
does nothing else than raise it (and log). -/
theorem send_raises_commandSent_once (s : NativeController) (env : SocketEnv) :
    (∀ b, CommandSentAfterTransports (sendButtonPress s env b).2 ("BUTTON:" ++ b)) ∧
    (∀ x y, CommandSentAfterTransports (sendTouchCoordinate s env x y).2
      ("TOUCH:" ++ decimal x ++ ":" ++ decimal y)) ∧
    (∀ autoMode, CommandSentAfterTransports (sendModeChange s env autoMode).2
      (if autoMode then "MODE:AUTO" else "MODE:MANUAL")) ∧
    (sendButtonPress { s with m_udpEnabled := false, m_tcpEnabled := false } env "UP").2
      = [.emit (.commandSent "BUTTON:UP"), .qDebug ["Sent button press:", "UP"]] := by
  refine ⟨fun b => ?_, fun x y => ?_, fun a => ?_, ?_⟩
  · rw [sendButtonPress_eq]; exact dispatch_commandSent _ _ _ _
  · rw [sendTouchCoordinate_eq]; exact dispatch_commandSent _ _ _ _
  · rw [sendModeChange_eq]; exact dispatch_commandSent _ _ _ _
  · rw [sendButtonPress_eq]
    have h : ("BUTTON:" ++ "UP" : String) = "BUTTON:UP" := by decide
    simp [dispatch, h]

/-- C9 (as stated, refuted): in the initial state (UDP enabled, address set) with a
datagram write that returns -1, `sendButtonPress` writes the datagram, logs the failure
and raises `commandSent`; it raises no `errorOccurred`. -/
theorem udp_write_failure_raises_no_error :
    (SocketEnv.udpFails "Network unreachable").udpBytesWritten = -1 ∧
    (sendButtonPress NativeController.init (SocketEnv.udpFails "Network unreachable") "UP").2
      = [.writeDatagram (toUtf8 "BUTTON:UP") "192.168.1.71" 8556,
         .qDebug ["Failed to send UDP command:", "Network unreachable"],
         .emit (.commandSent "BUTTON:UP"),
         .qDebug ["Sent button press:", "UP"]] ∧
    ¬ ∃ m, Effect.emit (.errorOccurred m) ∈
      (sendButtonPress NativeController.init (SocketEnv.udpFails "Network unreachable") "UP").2 := by
  have h : (sendButtonPress NativeController.init
      (SocketEnv.udpFails "Network unreachable") "UP").2
      = [.writeDatagram (toUtf8 "BUTTON:UP") "192.168.1.71" 8556,
         .qDebug ["Failed to send UDP command:", "Network unreachable"],
         .emit (.commandSent "BUTTON:UP"),
         .qDebug ["Sent button press:", "UP"]] := by decide
  refine ⟨rfl, h, ?_⟩
  rw [h]
  simp

/-- C9 (amended): a datagram write or a TCP write that returns -1 is written to the debug
log and nothing else happens: no send function raises `errorOccurred`, and each leaves the
controller state, the transport flags included, as it was, so the next send is
dispatched as before. -/
theorem send_failure_logged_state_kept (s : NativeController) (env : SocketEnv)
    (c : String) :
    (s.m_serverAddress ≠ "" → env.udpBytesWritten = -1 →
      sendUdpCommand s env c =
        (s, [.writeDatagram (toUtf8 c) s.m_serverAddress s.m_udpPort,
             .qDebug ["Failed to send UDP command:", env.udpErrorString]])) ∧
    (s.tcpState = .ConnectedState → env.tcpBytesWritten = -1 →
      sendTcpCommand s env c =
        (s, [.tcpWrite (toUtf8 c ++ [10]),
             .qDebug ["Failed to send TCP command:", env.tcpErrorString]])) ∧
    (∀ b m, Effect.emit (.errorOccurred m) ∉ (sendButtonPress s env b).2) ∧
    (∀ x y m, Effect.emit (.errorOccurred m) ∉ (sendTouchCoordinate s env x y).2) ∧
    (∀ a m, Effect.emit (.errorOccurred m) ∉ (sendModeChange s env a).2) ∧
    (∀ b, (sendButtonPress s env b).1 = s) ∧
    (∀ x y, (sendTouchCoordinate s env x y).1 = s) ∧
    (∀ a, (sendModeChange s env a).1 = s) ∧
    (∀ b env2 b2, TransportContract s
      (sendButtonPress (sendButtonPress s env b).1 env2 b2).2 ("BUTTON:" ++ b2)) := by
  refine ⟨?_, ?_, ?_, ?_, ?_, ?_, ?_, ?_, ?_⟩
  · intro ha hw
    simp [sendUdpCommand, ha, hw]
  · intro hc hw
    simp [sendTcpCommand, hc, hw, toUtf8_newline]
  · intro b m
    rw [sendButtonPress_eq]; exact (dispatch_contract _ _ _ _).2.2 m
  · intro x y m
    rw [sendTouchCoordinate_eq]; exact (dispatch_contract _ _ _ _).2.2 m
  · intro a m
    rw [sendModeChange_eq]; exact (dispatch_contract _ _ _ _).2.2 m
  · intro b; rw [sendButtonPress_eq]
  · intro x y; rw [sendTouchCoordinate_eq]
  · intro a; rw [sendModeChange_eq]
  · intro b env2 b2
    rw [sendButtonPress_eq s env b, sendButtonPress_eq]
    exact dispatch_contract _ _ _ _

/-- C9 (amended), at a concrete input: in the initial state a failing datagram write of
`BUTTON:UP` gives the datagram and the log line, and the state is the initial state. -/
theorem send_failure_logged_state_kept_witness :
    sendUdpCommand NativeController.init (SocketEnv.udpFails "Network unreachable")
        "BUTTON:UP" =
      (NativeController.init,
        [.writeDatagram (toUtf8 "BUTTON:UP") "192.168.1.71" 8556,
         .qDebug ["Failed to send UDP command:", "Network unreachable"]]) ∧
    sendTcpCommand { NativeController.init with tcpState := .ConnectedState }
        { udpBytesWritten := 9, udpErrorString := "", tcpBytesWritten := -1,
          tcpErrorString := "Broken pipe" } "BUTTON:UP" =
      ({ NativeController.init with tcpState := .ConnectedState },
        [.tcpWrite (toUtf8 "BUTTON:UP" ++ [10]),
         .qDebug ["Failed to send TCP command:", "Broken pipe"]]) :=
  ⟨(send_failure_logged_state_kept NativeController.init
      (SocketEnv.udpFails "Network unreachable") "BUTTON:UP").1 (by decide) rfl,
   (send_failure_logged_state_kept { NativeController.init with tcpState := .ConnectedState }
      { udpBytesWritten := 9, udpErrorString := "", tcpBytesWritten := -1,
        tcpErrorString := "Broken pipe" } "BUTTON:UP").2.1 rfl rfl⟩

/-- C10: with an empty server address `sendUdpCommand` writes no datagram and
`connectToServer` starts no connection attempt; each only writes a log line and returns
the controller state (link state, reconnect timer, settings) unchanged. -/
theorem empty_address_is_noop (s : NativeController) (env : SocketEnv) (c : String)
    (h : s.m_serverAddress = "") :
    sendUdpCommand s env c =
      (s, [.qDebug ["Cannot send UDP command: socket not ready or no server address"]]) ∧
    (sendUdpCommand s env c).2.filter Effect.isDatagram = [] ∧
    connectToServer s = (s, [.qDebug ["Cannot connect: no server address set"]]) ∧
    (connectToServer s).2.filter Effect.isConnectToHost = [] := by
  have h1 : sendUdpCommand s env c =
      (s, [.qDebug ["Cannot send UDP command: socket not ready or no server address"]]) := by
    simp [sendUdpCommand, h]
  have h2 : connectToServer s = (s, [.qDebug ["Cannot connect: no server address set"]]) := by
    simp [connectToServer, h]
  refine ⟨h1, ?_, h2, ?_⟩
  · rw [h1]; rfl
  · rw [h2]; rfl

/-- C10, at a concrete input: the initial controller with the address cleared, TCP enabled
and the reconnect timer running. -/
theorem empty_address_is_noop_witness :
    ({ NativeController.init with
        m_serverAddress := "", m_tcpEnabled := true, timerActive := true }
      : NativeController).m_serverAddress = "" ∧
    (connectToServer { NativeController.init with
        m_serverAddress := "", m_tcpEnabled := true, timerActive := true }).1
      = { NativeController.init with
        m_serverAddress := "", m_tcpEnabled := true, timerActive := true } ∧
    (sendUdpCommand { NativeController.init with
        m_serverAddress := "", m_tcpEnabled := true, timerActive := true }
        (SocketEnv.ok 9) "BUTTON:UP").2.filter Effect.isDatagram = [] :=
  ⟨rfl,
   congrArg Prod.fst (empty_address_is_noop { NativeController.init with
        m_serverAddress := "", m_tcpEnabled := true, timerActive := true }
      (SocketEnv.ok 9) "BUTTON:UP" rfl).2.2.1,
   (empty_address_is_noop { NativeController.init with
        m_serverAddress := "", m_tcpEnabled := true, timerActive := true }
      (SocketEnv.ok 9) "BUTTON:UP" rfl).2.1⟩

/-! ## Lemmas on the lifecycle of the TCP link -/

theorem connectToServer_keeps (s : NativeController) :
    (connectToServer s).1.timerActive = s.timerActive ∧
    (connectToServer s).1.timerInterval = s.timerInterval ∧
    (connectToServer s).1.timerRemaining = s.timerRemaining ∧
    (connectToServer s).1.m_autoReconnect = s.m_autoReconnect ∧
    (connectToServer s).1.m_tcpEnabled = s.m_tcpEnabled ∧
    ((connectToServer s).1.tcpState = .ConnectedState → s.tcpState = .ConnectedState) := by
  unfold connectToServer
  by_cases ha : s.m_serverAddress = ""
  · simp [ha]
  · by_cases hc : s.tcpState = .ConnectedState
    · simp [ha, hc]
    · simp only [ha, hc, if_false]
      simp only [true_and]
      intro h
      exfalso
      revert h hc
      cases s.tcpState <;> simp [socketConnectToHost]

theorem connectToServer_inv (s : NativeController) (h : LinkInvariant s) :
    LinkInvariant (connectToServer s).1 := by
  obtain ⟨h1, h2, h3⟩ := h
  obtain ⟨k1, k2, -, k4, -, k6⟩ := connectToServer_keeps s
  exact ⟨k2.trans h1, k4.trans h2, fun hc => k1.trans (h3 (k6 hc))⟩

theorem onTcpError_inv (s : NativeController) (msg : String) (h : LinkInvariant s)
    (hs : s.tcpState ≠ .ConnectedState) : LinkInvariant (onTcpError s msg).1 := by
  obtain ⟨h1, h2, -⟩ := h
  unfold onTcpError
  split
  · exact ⟨h1, h2, fun hc => absurd hc hs⟩
  · exact ⟨h1, h2, fun hc => absurd hc hs⟩

theorem onTcpDisconnected_inv (s : NativeController) (h : LinkInvariant s)
    (hs : s.tcpState ≠ .ConnectedState) : LinkInvariant (onTcpDisconnected s).1 := by
  obtain ⟨h1, h2, -⟩ := h
  unfold onTcpDisconnected
  split
  · exact ⟨h1, h2, fun hc => absurd hc hs⟩
  · exact ⟨h1, h2, fun hc => absurd hc hs⟩

theorem onTcpError_keeps (s : NativeController) (msg : String) :
    (onTcpError s msg).1.tcpState = s.tcpState ∧
    (onTcpError s msg).1.timerInterval = s.timerInterval ∧
    (onTcpError s msg).1.m_autoReconnect = s.m_autoReconnect ∧
    (onTcpError s msg).1.m_tcpEnabled = s.m_tcpEnabled := by
  unfold onTcpError
  split <;> exact ⟨rfl, rfl, rfl, rfl⟩

theorem step_inv (s : NativeController) (e : Event) (r : NativeController × List Effect)
    (h : LinkInvariant s) (hstep : step s e = some r) : LinkInvariant r.1 := by
  obtain ⟨h1, h2, h3⟩ := h
  cases e with
  | startController =>
    simp only [step, Option.some.injEq] at hstep
    subst hstep
    unfold startController
    by_cases ht : s.m_tcpEnabled = true
    · simpa [ht] using connectToServer_inv s ⟨h1, h2, h3⟩
    · simpa [ht] using (⟨h1, h2, h3⟩ : LinkInvariant s)
  | stopController =>
    simp only [step, Option.some.injEq] at hstep
    subst hstep
    unfold stopController reconnectTimerStop
    by_cases hc : s.tcpState = .ConnectedState
    · simp [hc, LinkInvariant, h1, h2, socketDisconnectFromHost]
    · simp [hc, LinkInvariant, h1, h2]
  | enableKeyboardControl b =>
    simp only [step, Option.some.injEq] at hstep
    subst hstep
    exact ⟨h1, h2, h3⟩
  | enableGamepadControl b =>
    simp only [step, Option.some.injEq] at hstep
    subst hstep
    exact ⟨h1, h2, h3⟩
  | enableUdpClient b =>
    simp only [step, Option.some.injEq] at hstep
    subst hstep
    exact ⟨h1, h2, h3⟩
  | enableTcpClient b =>
    simp only [step, Option.some.injEq] at hstep
    subst hstep
    unfold enableTcpClient
    dsimp only
    have hinv : LinkInvariant { s with m_tcpEnabled := b } := ⟨h1, h2, h3⟩
    split
    · exact connectToServer_inv _ hinv
    · split
      · exact ⟨h1, h2, fun hc => by simp_all [socketDisconnectFromHost]⟩
      · exact hinv
  | setServerAddress a =>
    simp only [step, Option.some.injEq] at hstep
    subst hstep
    exact ⟨h1, h2, h3⟩
  | setUdpPort p =>
    simp only [step, Option.some.injEq] at hstep
    subst hstep
    exact ⟨h1, h2, h3⟩
  | setTcpPort p =>
    simp only [step, Option.some.injEq] at hstep
    subst hstep
    exact ⟨h1, h2, h3⟩
  | sendButtonPress env b =>
    simp only [step, Option.some.injEq] at hstep
    subst hstep
    rw [sendButtonPress_eq]
    exact ⟨h1, h2, h3⟩
  | sendTouchCoordinate env x y =>
    simp only [step, Option.some.injEq] at hstep
    subst hstep
    rw [sendTouchCoordinate_eq]
    exact ⟨h1, h2, h3⟩
  | sendModeChange env a =>
    simp only [step, Option.some.injEq] at hstep
    subst hstep
    rw [sendModeChange_eq]
    exact ⟨h1, h2, h3⟩
  | socketHostFound =>
    simp only [step] at hstep
    split at hstep
    · simp only [Option.some.injEq] at hstep
      subst hstep
      exact ⟨h1, h2, fun hc => by simp at hc⟩
    · simp at hstep
  | socketConnected =>
    simp only [step] at hstep
    split at hstep
    · simp only [Option.some.injEq] at hstep
      subst hstep
      exact ⟨h1, h2, fun _ => rfl⟩
    · simp at hstep
  | socketDisconnected =>
    simp only [step] at hstep
    split at hstep
    · simp only [Option.some.injEq] at hstep
      subst hstep
      exact onTcpDisconnected_inv _ ⟨h1, h2, fun hc => by simp at hc⟩ (by simp)
    · simp at hstep
  | socketConnectFailed msg =>
    simp only [step] at hstep
    split at hstep
    · simp only [Option.some.injEq] at hstep
      subst hstep
      exact onTcpError_inv _ msg ⟨h1, h2, fun hc => by simp at hc⟩ (by simp)
    · simp at hstep
  | socketErrorClose msg =>
    simp only [step] at hstep
    split at hstep
    · simp only [Option.some.injEq] at hstep
      subst hstep
      obtain ⟨-, k2, k3, -⟩ := onTcpError_keeps s msg
      exact onTcpDisconnected_inv _ ⟨k2.trans h1, k3.trans h2, fun hc => by simp at hc⟩
        (by simp)
    · simp at hstep
  | socketOperationError msg =>
    simp only [step] at hstep
    split at hstep
    · rename_i hbusy
      simp only [Option.some.injEq] at hstep
      subst hstep
      refine onTcpError_inv _ msg ⟨h1, h2, h3⟩ ?_
      rcases hbusy with hb | hb | hb <;> simp [hb]
    · simp at hstep
  | elapse ms =>
    simp only [step] at hstep
    split at hstep
    · split at hstep
      · simp only [Option.some.injEq] at hstep
        subst hstep
        exact ⟨h1, h2, h3⟩
      · simp at hstep
    · simp only [Option.some.injEq] at hstep
      subst hstep
      exact ⟨h1, h2, h3⟩
  | timerTimeout =>
    simp only [step] at hstep
    split at hstep
    · simp only [Option.some.injEq] at hstep
      subst hstep
      have hinv : LinkInvariant { s with timerRemaining := s.timerInterval } := ⟨h1, h2, h3⟩
      unfold reconnectToServer
      split
      · exact connectToServer_inv _ hinv
      · exact hinv
    · simp at hstep

theorem runEvents_inv (es : List Event) : ∀ (s : NativeController)
    (r : NativeController × List Effect),
    LinkInvariant s → runEvents s es = some r → LinkInvariant r.1 := by
  induction es with
  | nil =>
    intro s r h hr
    simp only [runEvents, Option.some.injEq] at hr
    subst hr
    exact h
  | cons e es ih =>
    intro s r h hr
    simp only [runEvents] at hr
    cases h1 : step s e with
    | none => simp [h1] at hr
    | some r1 =>
      simp only [h1] at hr
      cases h2 : runEvents r1.1 es with
      | none => simp [h2] at hr
      | some r2 =>
        simp only [h2, Option.some.injEq] at hr
        subst hr
        exact ih r1.1 r2 (step_inv s e r1 h h1) h2

theorem reachable_inv (s : NativeController) (h : Reachable s) : LinkInvariant s := by
  obtain ⟨es, t, hr⟩ := h
  exact runEvents_inv es NativeController.init (s, t) ⟨rfl, rfl, fun _ => rfl⟩ hr

theorem connected_reachable : Reachable NativeController.connected :=
  ⟨[.enableTcpClient true, .socketHostFound, .socketConnected],
   [.qDebug ["Connecting to TCP server at", "192.168.1.71", ":", "8555"],
    .connectToHost "192.168.1.71" 8555,
    .qDebug ["Connected to TCP server at", "192.168.1.71", ":", "8555"],
    .timerStop,
    .emit .serverConnected], by decide⟩

theorem onTcpDisconnected_spec (s : NativeController) :
    (onTcpDisconnected s).2.filter Effect.isSignal = [.emit .serverDisconnected] ∧
    (s.m_autoReconnect = true → s.m_tcpEnabled = true →
      (onTcpDisconnected s).1.timerActive = true ∧
      (onTcpDisconnected s).1.timerInterval = s.timerInterval) ∧
    (s.m_tcpEnabled = false →
      (onTcpDisconnected s).1 = s ∧
      (onTcpDisconnected s).2.filter Effect.isTimerStart = []) ∧
    (onTcpDisconnected s).1.tcpState = s.tcpState ∧
    (onTcpDisconnected s).1.m_tcpEnabled = s.m_tcpEnabled := by
  unfold onTcpDisconnected
  cases ha : s.m_autoReconnect <;> cases ht : s.m_tcpEnabled <;>
    simp [reconnectTimerStart, Effect.isSignal, Effect.isTimerStart, ht]

theorem onTcpError_spec (s : NativeController) (msg : String) :
    (onTcpError s msg).2.filter Effect.isSignal = [.emit (.errorOccurred msg)] ∧
    (s.m_autoReconnect = true → s.m_tcpEnabled = true →
      (onTcpError s msg).1.timerActive = true ∧
      (onTcpError s msg).1.timerInterval = s.timerInterval) ∧
    (s.m_tcpEnabled = false →
      (onTcpError s msg).1 = s ∧
      (onTcpError s msg).2.filter Effect.isTimerStart = []) ∧
    (s.timerActive = true →
      (onTcpError s msg).1 = s ∧
      (onTcpError s msg).2.filter Effect.isTimerStart = []) := by
  unfold onTcpError
  cases ha : s.m_autoReconnect <;> cases ht : s.m_tcpEnabled <;> cases hx : s.timerActive <;>
    simp [reconnectTimerStart, Effect.isSignal, Effect.isTimerStart, hx]

/-! ## C11 to C16: the TCP link, its reconnect timer, and the configuration -/

/-- C11 (the code at the failing input): a closure event that finds the reconnect timer
running with 1 ms left calls `start()` on it, so that 5000 ms lie ahead again.  Two runs
from the constructor state show it: when the server closes the link, the error handler
starts the timer and the closure handler starts it a second time; and a closure that
arrives 4999 ms after the timer was started pushes the expiry back from 1 ms to
5000 ms. -/
theorem onTcpDisconnected_restarts_running_timer :
    onTcpDisconnected
        { NativeController.init with
          m_tcpEnabled := true, timerActive := true, timerRemaining := 1 }
      = ({ NativeController.init with
            m_tcpEnabled := true, timerActive := true, timerRemaining := 5000 },
         [.qDebug ["Disconnected from TCP server"], .emit .serverDisconnected,
          .timerStart]) ∧
    (runEvents NativeController.init
        [.enableTcpClient true, .socketHostFound, .socketConnected,
         .socketErrorClose "The remote host closed the connection"]).map
        (fun r => r.2.filter Effect.isTimerStart)
      = some [.timerStart, .timerStart] ∧
    (runEvents NativeController.init
        [.enableTcpClient true, .socketHostFound, .socketConnected, .stopController,
         .startController,
         .socketOperationError "Trying to connect while connection is in progress",
         .elapse 4999]).map
        (fun r => (r.1.timerActive, r.1.timerRemaining))
      = some (true, 1) ∧
    (runEvents NativeController.init
        [.enableTcpClient true, .socketHostFound, .socketConnected, .stopController,
         .startController,
         .socketOperationError "Trying to connect while connection is in progress",
         .elapse 4999, .socketDisconnected]).map
        (fun r => (r.1.timerActive, r.1.timerRemaining))
      = some (true, 5000) := by
  refine ⟨by decide, by decide, by decide, by decide⟩

/-- The error handler has the guard that the closure handler lacks: an error event that
finds the reconnect timer running leaves the whole controller state as it is and does
not call `start()`. -/
theorem onTcpError_leaves_running_timer (s : NativeController) (msg : String)
    (h : s.timerActive = true) :
    (onTcpError s msg).1 = s ∧ (onTcpError s msg).2.filter Effect.isTimerStart = [] :=
  (onTcpError_spec s msg).2.2.2 h

/-- C12: in a reachable state, after a closure event is handled the signal
`serverDisconnected` has been raised once (and no other), after an error event
`errorOccurred` with the error text of the socket, and after an error on an established
link, which the socket reports as an error followed by the closure, each of the two once
in that order; with auto-reconnect and TCP enabled the reconnect timer is then running
with its interval of 5000 ms; with TCP disabled the handlers call no `start()` and leave
the timer as it was. -/
theorem link_loss_raises_event_and_starts_timer (s : NativeController) (msg : String)
    (hr : Reachable s) :
    (∀ r, step s .socketDisconnected = some r →
      r.2.filter Effect.isSignal = [.emit .serverDisconnected] ∧
      (s.m_autoReconnect = true → s.m_tcpEnabled = true →
        r.1.timerActive = true ∧ r.1.timerInterval = 5000) ∧
      (s.m_tcpEnabled = false →
        r.2.filter Effect.isTimerStart = [] ∧ r.1.timerActive = s.timerActive ∧
        r.1.timerRemaining = s.timerRemaining)) ∧
    (∀ r, (step s (.socketConnectFailed msg) = some r ∨
        step s (.socketOperationError msg) = some r) →
      r.2.filter Effect.isSignal = [.emit (.errorOccurred msg)] ∧
      (s.m_autoReconnect = true → s.m_tcpEnabled = true →
        r.1.timerActive = true ∧ r.1.timerInterval = 5000) ∧
      (s.m_tcpEnabled = false →
        r.2.filter Effect.isTimerStart = [] ∧ r.1.timerActive = s.timerActive ∧
        r.1.timerRemaining = s.timerRemaining)) ∧
    (∀ r, step s (.socketErrorClose msg) = some r →
      r.2.filter Effect.isSignal
        = [.emit (.errorOccurred msg), .emit .serverDisconnected] ∧
      (s.m_autoReconnect = true → s.m_tcpEnabled = true →
        r.1.timerActive = true ∧ r.1.timerInterval = 5000) ∧
      (s.m_tcpEnabled = false →
        r.2.filter Effect.isTimerStart = [] ∧ r.1.timerActive = s.timerActive ∧
        r.1.timerRemaining = s.timerRemaining)) := by
  obtain ⟨hi, -, -⟩ := reachable_inv s hr
  refine ⟨?_, ?_, ?_⟩
  · intro r hstep
    simp only [step] at hstep
    split at hstep
    · simp only [Option.some.injEq] at hstep
      subst hstep
      obtain ⟨k1, k2, k3, -, -⟩ := onTcpDisconnected_spec { s with tcpState := .UnconnectedState }
      refine ⟨k1, fun ha ht => ?_, fun ht => ?_⟩
      · obtain ⟨a, b⟩ := k2 ha ht
        exact ⟨a, b.trans hi⟩
      · obtain ⟨a, b⟩ := k3 ht
        exact ⟨b, by rw [a], by rw [a]⟩
    · simp at hstep
  · intro r hstep
    have key : ∀ s2 : NativeController, s2.m_autoReconnect = s.m_autoReconnect →
        s2.m_tcpEnabled = s.m_tcpEnabled → s2.timerInterval = s.timerInterval →
        s2.timerActive = s.timerActive → s2.timerRemaining = s.timerRemaining →
        r = onTcpError s2 msg →
        r.2.filter Effect.isSignal = [.emit (.errorOccurred msg)] ∧
        (s.m_autoReconnect = true → s.m_tcpEnabled = true →
          r.1.timerActive = true ∧ r.1.timerInterval = 5000) ∧
        (s.m_tcpEnabled = false →
          r.2.filter Effect.isTimerStart = [] ∧ r.1.timerActive = s.timerActive ∧
          r.1.timerRemaining = s.timerRemaining) := by
      intro s2 e1 e2 e3 e4 e5 hr2
      subst hr2
      obtain ⟨k1, k2, k3, -⟩ := onTcpError_spec s2 msg
      refine ⟨k1, fun ha ht => ?_, fun ht => ?_⟩
      · obtain ⟨a, b⟩ := k2 (e1.trans ha) (e2.trans ht)
        exact ⟨a, b.trans (e3.trans hi)⟩
      · obtain ⟨a, b⟩ := k3 (e2.trans ht)
        exact ⟨b, by rw [a]; exact e4, by rw [a]; exact e5⟩
    rcases hstep with hstep | hstep
    · simp only [step] at hstep
      split at hstep
      · simp only [Option.some.injEq] at hstep
        exact key { s with tcpState := .UnconnectedState } rfl rfl rfl rfl rfl hstep.symm
      · simp at hstep
    · simp only [step] at hstep
      split at hstep
      · simp only [Option.some.injEq] at hstep
        exact key _ rfl rfl rfl rfl rfl hstep.symm
      · simp at hstep
  · intro r hstep
    simp only [step] at hstep
    split at hstep
    · simp only [Option.some.injEq] at hstep
      subst hstep
      obtain ⟨e1, -, e3, -⟩ := onTcpError_spec s msg
      obtain ⟨-, ki, ka, kt⟩ := onTcpError_keeps s msg
      obtain ⟨d1, d2, d3, -, -⟩ :=
        onTcpDisconnected_spec { (onTcpError s msg).1 with tcpState := .UnconnectedState }
      refine ⟨?_, fun ha ht => ?_, fun ht => ?_⟩
      · simp only [List.filter_append, e1, d1]
        rfl
      · obtain ⟨a, b⟩ := d2 (ka.trans ha) (kt.trans ht)
        exact ⟨a, b.trans (ki.trans hi)⟩
      · obtain ⟨es, et⟩ := e3 ht
        obtain ⟨ds, dt⟩ := d3 (kt.trans ht)
        refine ⟨?_, ?_, ?_⟩
        · simp only [List.filter_append, et, dt]
          rfl
        · have h1 := congrArg NativeController.timerActive ds
          have h2 : (onTcpError s msg).1.timerActive = s.timerActive :=
            congrArg NativeController.timerActive es
          exact h1.trans h2
        · have h1 := congrArg NativeController.timerRemaining ds
          have h2 : (onTcpError s msg).1.timerRemaining = s.timerRemaining :=
            congrArg NativeController.timerRemaining es
          exact h1.trans h2
    · simp at hstep

/-- C12, at a concrete input: the link of the connected controller closes, or fails with
an error that closes it; the timer runs afterwards with 5000 ms. -/
theorem link_loss_raises_event_and_starts_timer_witness :
    Reachable NativeController.connected ∧
    step NativeController.connected .socketDisconnected =
      some ({ NativeController.init with
              m_tcpEnabled := true, timerActive := true, timerRemaining := 5000 },
            [.qDebug ["Disconnected from TCP server"], .emit .serverDisconnected,
             .timerStart]) ∧
    ({ NativeController.init with
        m_tcpEnabled := true, timerActive := true, timerRemaining := 5000 }
      : NativeController).timerActive = true ∧
    step NativeController.connected (.socketErrorClose "The remote host closed the connection") =
      some ({ NativeController.init with
              m_tcpEnabled := true, timerActive := true, timerRemaining := 5000 },
            [.qDebug ["TCP error:", "The remote host closed the connection"],
             .emit (.errorOccurred "The remote host closed the connection"), .timerStart,
             .qDebug ["Disconnected from TCP server"], .emit .serverDisconnected,
             .timerStart]) ∧
    ([.qDebug ["TCP error:", "The remote host closed the connection"],
      .emit (.errorOccurred "The remote host closed the connection"), .timerStart,
      .qDebug ["Disconnected from TCP server"], .emit .serverDisconnected,
      .timerStart] : List Effect).filter Effect.isSignal
      = [.emit (.errorOccurred "The remote host closed the connection"),
         .emit .serverDisconnected] :=
  ⟨connected_reachable, by decide,
   (((link_loss_raises_event_and_starts_timer NativeController.connected "" connected_reachable).1
      ({ NativeController.init with
          m_tcpEnabled := true, timerActive := true, timerRemaining := 5000 },
       [.qDebug ["Disconnected from TCP server"], .emit .serverDisconnected, .timerStart])
      (by decide)).2.1 rfl rfl).1,
   by decide,
   ((link_loss_raises_event_and_starts_timer NativeController.connected
      "The remote host closed the connection" connected_reachable).2.2
      ({ NativeController.init with
          m_tcpEnabled := true, timerActive := true, timerRemaining := 5000 },
       [.qDebug ["TCP error:", "The remote host closed the connection"],
        .emit (.errorOccurred "The remote host closed the connection"), .timerStart,
        .qDebug ["Disconnected from TCP server"], .emit .serverDisconnected,
        .timerStart])
      (by decide)).1⟩

/-- C13 (the code at the failing input): from the constructor state, TCP is enabled, the
connection attempt is refused (the error handler starts the reconnect timer), TCP is
disabled again, and 5000 ms pass.  TCP is now disabled and the timer still runs; its
expiry finds the link unconnected and starts a connection attempt. -/
theorem timer_expiry_connects_while_tcp_disabled :
    runEvents NativeController.init
        [.enableTcpClient true, .socketConnectFailed "Connection refused",
         .enableTcpClient false, .elapse 5000]
      = some ({ NativeController.init with timerActive := true, timerRemaining := 0 },
          [.qDebug ["Connecting to TCP server at", "192.168.1.71", ":", "8555"],
           .connectToHost "192.168.1.71" 8555,
           .qDebug ["TCP error:", "Connection refused"],
           .emit (.errorOccurred "Connection refused"),
           .timerStart]) ∧
    ({ NativeController.init with timerActive := true, timerRemaining := 0 }
      : NativeController).m_tcpEnabled = false ∧
    step { NativeController.init with timerActive := true, timerRemaining := 0 } .timerTimeout
      = some ({ NativeController.init with
                tcpState := .HostLookupState, timerActive := true, timerRemaining := 5000 },
          [.qDebug ["Attempting to reconnect to server..."],
           .qDebug ["Connecting to TCP server at", "192.168.1.71", ":", "8555"],
           .connectToHost "192.168.1.71" 8555]) := by
  refine ⟨by decide, rfl, by decide⟩

/-- The slot of the reconnect timer starts a connection attempt exactly when the link is
unconnected and the server address is not empty; it reads neither the auto-reconnect
flag nor the TCP flag. -/
theorem reconnectToServer_connects_iff (s : NativeController) :
    (reconnectToServer s).2.filter Effect.isConnectToHost =
      (if s.tcpState = .UnconnectedState ∧ s.m_serverAddress ≠ "" then
        [.connectToHost s.m_serverAddress s.m_tcpPort] else []) := by
  unfold reconnectToServer connectToServer
  by_cases hu : s.tcpState = .UnconnectedState <;> by_cases ha : s.m_serverAddress = "" <;>
    simp [hu, ha, Effect.isConnectToHost]

/-- C14: from a reachable state with the link connected, `enableTcpClient(false)` asks
the socket to disconnect, and once the closure that results is handled the link is
unconnected, TCP is disabled and the reconnect timer is not running: the closure handler
calls no `start()`, and no timer expiry can follow. -/
theorem disable_tcp_while_connected (s : NativeController) (hr : Reachable s)
    (hc : s.tcpState = .ConnectedState) :
    (enableTcpClient s false).2 = [.disconnectFromHost] ∧
    ∃ r, step (enableTcpClient s false).1 .socketDisconnected = some r ∧
      r.1.tcpState = .UnconnectedState ∧ r.1.timerActive = false ∧
      r.1.m_tcpEnabled = false ∧ r.2.filter Effect.isTimerStart = [] ∧
      step r.1 .timerTimeout = none := by
  obtain ⟨-, -, hi⟩ := reachable_inv s hr
  have ht : s.timerActive = false := hi hc
  have he : enableTcpClient s false =
      ({ s with m_tcpEnabled := false, tcpState := .ClosingState }, [.disconnectFromHost]) := by
    simp [enableTcpClient, hc, socketDisconnectFromHost]
  rw [he]
  refine ⟨rfl, onTcpDisconnected
    { s with m_tcpEnabled := false, tcpState := .UnconnectedState }, ?_, ?_⟩
  · simp [step]
  · obtain ⟨-, -, k3, -, -⟩ := onTcpDisconnected_spec
      { s with m_tcpEnabled := false, tcpState := .UnconnectedState }
    obtain ⟨a, b⟩ := k3 rfl
    rw [a]
    refine ⟨rfl, ht, rfl, b, ?_⟩
    simp [step, ht]

/-- C14, at a concrete input: the connected controller. -/
theorem disable_tcp_while_connected_witness :
    Reachable NativeController.connected ∧
    NativeController.connected.tcpState = .ConnectedState ∧
    (enableTcpClient NativeController.connected false).2 = [.disconnectFromHost] :=
  ⟨connected_reachable, rfl,
   (disable_tcp_while_connected NativeController.connected connected_reachable rfl).1⟩

/-- C15 (the code at the failing input): after `enableTcpClient(true)` the socket is
looking up the host, and after the lookup it is connecting; in both states
`startController` calls `connectToHost` again. -/
theorem startController_connects_while_connecting :
    runEvents NativeController.init [.enableTcpClient true]
      = some ({ NativeController.init with
                m_tcpEnabled := true, tcpState := .HostLookupState },
          [.qDebug ["Connecting to TCP server at", "192.168.1.71", ":", "8555"],
           .connectToHost "192.168.1.71" 8555]) ∧
    (startController { NativeController.init with
        m_tcpEnabled := true, tcpState := .HostLookupState }).2.filter Effect.isConnectToHost
      = [.connectToHost "192.168.1.71" 8555] ∧
    (runEvents NativeController.init [.enableTcpClient true, .socketHostFound]).map
        (fun r => r.1)
      = some { NativeController.init with
                m_tcpEnabled := true, tcpState := .ConnectingState } ∧
    (startController { NativeController.init with
        m_tcpEnabled := true, tcpState := .ConnectingState }).2.filter Effect.isConnectToHost
      = [.connectToHost "192.168.1.71" 8555] := by
  refine ⟨by decide, by decide, by decide, by decide⟩

/-- The other paths into `connectToHost` are guarded: `enableTcpClient` and the timer slot
reach it only from the unconnected state, and no path reaches it while the link is
connected. -/
theorem connectToHost_guarded_paths (s : NativeController) (enable : Bool) :
    ((enableTcpClient s enable).2.filter Effect.isConnectToHost ≠ [] →
      s.tcpState = .UnconnectedState) ∧
    ((reconnectToServer s).2.filter Effect.isConnectToHost ≠ [] →
      s.tcpState = .UnconnectedState) ∧
    ((startController s).2.filter Effect.isConnectToHost ≠ [] →
      s.tcpState ≠ .ConnectedState) := by
  refine ⟨?_, ?_, ?_⟩
  · intro h
    by_contra hu
    apply h
    unfold enableTcpClient
    cases enable <;> by_cases hc : s.tcpState = .ConnectedState <;>
      simp [hu, hc, Effect.isConnectToHost]
  · intro h
    by_contra hu
    apply h
    rw [reconnectToServer_connects_iff]
    simp [hu]
  · intro h hc
    apply h
    unfold startController connectToServer
    cases ht : s.m_tcpEnabled <;> by_cases ha : s.m_serverAddress = "" <;>
      simp [hc, ha, Effect.isConnectToHost]

/-- C16 (as stated, refuted): `setServerAddress` changes the address of the constructor
state and leaves both ports at their previous values 8556 and 8555; a send that follows
writes its datagram to the new address with the old port. -/
theorem setServerAddress_changes_address_alone :
    (setServerAddress NativeController.init "10.0.0.7").1
      = { NativeController.init with m_serverAddress := "10.0.0.7" } ∧
    (setServerAddress NativeController.init "10.0.0.7").1.m_udpPort = 8556 ∧
    (setServerAddress NativeController.init "10.0.0.7").1.m_tcpPort = 8555 ∧
    (sendButtonPress (setServerAddress NativeController.init "10.0.0.7").1
        (SocketEnv.ok 9) "UP").2.filter Effect.isDatagram
      = [.writeDatagram (toUtf8 "BUTTON:UP") "10.0.0.7" 8556] := by
  refine ⟨rfl, rfl, rfl, by decide⟩

/-- C16 (amended): the controller replaces its configuration field by field: each of
`setServerAddress`, `setUdpPort`, `setTcpPort` changes exactly its own field and neither
sends nor connects.  `setNetworkConfiguration` of the window calls the three in a row,
with no send or connect in between, so that on its return the controller holds the new
address and both new ports, the rest of its state being as before. -/
theorem configuration_is_set_field_by_field (s : NativeController) (a : String) (p : Nat) :
    setServerAddress s a
      = ({ s with m_serverAddress := a }, [.qDebug ["Server address set to:", a]]) ∧
    setUdpPort s p = ({ s with m_udpPort := p }, []) ∧
    setTcpPort s p = ({ s with m_tcpPort := p }, []) ∧
    (∀ (w : MainWindow) (c : NativeController) (address : String)
        (rtspPort tcpPort udpPort : Nat), w.m_nativeController = some c →
      (setNetworkConfiguration w address rtspPort tcpPort udpPort).1.m_nativeController
        = some { c with
            m_serverAddress := address, m_udpPort := udpPort, m_tcpPort := tcpPort } ∧
      (setNetworkConfiguration w address rtspPort tcpPort udpPort).2
        = [.qDebug ["Server address set to:", address]]) := by
  refine ⟨rfl, rfl, rfl, ?_⟩
  intro w c address rtspPort tcpPort udpPort hw
  simp [setNetworkConfiguration, hw, setServerAddress, setUdpPort, setTcpPort]

/-- C16 (amended), at a concrete input: a window that owns the constructor-state
controller is configured for `10.0.0.7` with the ports 8554, 9000 and 9001. -/
theorem configuration_is_set_field_by_field_witness :
    (setNetworkConfiguration
        { width := 800, height := 600, videoLabelGeometry := ⟨0, 0, 800, 600⟩,
          currentFrame := none, streamSize := ⟨0, 0⟩,
          m_nativeController := some NativeController.init }
        "10.0.0.7" 8554 9000 9001).1.m_nativeController
      = some { NativeController.init with
          m_serverAddress := "10.0.0.7", m_udpPort := 9001, m_tcpPort := 9000 } :=
  ((configuration_is_set_field_by_field NativeController.init "" 0).2.2.2
    { width := 800, height := 600, videoLabelGeometry := ⟨0, 0, 800, 600⟩,
      currentFrame := none, streamSize := ⟨0, 0⟩,
      m_nativeController := some NativeController.init }
    NativeController.init "10.0.0.7" 8554 9000 9001 rfl).1

/-! ## Lemmas on the capture loop -/

theorem after_effects (pre : List StreamEffect) (r : RunResult) :
    (r.after pre).effects = pre ++ r.effects ∧ (r.after pre).status = r.status ∧
    (r.after pre).state = r.state :=
  ⟨rfl, rfl, rfl⟩

/-- Every `open` of the capture loop is made with the URL copied at the start of the run,
whatever `setUrl` has stored since. -/
theorem captureLoop_open_url (url : String) (script : List LoopInput) :
    ∀ (s : RTSPStreamer) (u : String) (ok : Bool),
      StreamEffect.captureOpen u ok ∈ (captureLoop url s script).effects → u = url := by
  induction script with
  | nil => intro s u ok h; simp [captureLoop] at h
  | cons e es ih =>
    intro s u ok h
    cases e with
    | stopRequested => simp [captureLoop] at h
    | urlChanged v => exact ih _ u ok (by simpa [captureLoop] using h)
    | readFails reopened =>
      cases reopened with
      | true =>
        simp only [captureLoop, if_true, after_effects, List.mem_append, List.mem_cons,
          List.mem_nil_iff, or_false] at h
        rcases h with (h | h | h) | h
        · cases h
        · cases h
        · cases h; rfl
        · exact ih _ u ok h
      | false =>
        simp [captureLoop] at h
        exact h.1
    | readOk frame =>
      by_cases hf : frame.empty = true
      · simp only [captureLoop, hf, if_true, after_effects, List.mem_append, List.mem_cons,
          List.mem_nil_iff, or_false] at h
        rcases h with h | h
        · cases h
        · exact ih _ u ok h
      · have e : captureLoop url s (.readOk frame :: es)
            = (captureLoop url { s with m_currentFrame := some (matToQImage frame) } es).after
                [.captureRead true, .storeCurrentFrame (matToQImage frame),
                 .emitNewFrameAvailable (matToQImage frame), .msleep 1] := by
          simp [captureLoop, hf]
        rw [e] at h
        simp only [after_effects, List.mem_append, List.mem_cons,
          List.mem_nil_iff, or_false] at h
        rcases h with (h | h | h | h) | h
        · cases h
        · cases h
        · cases h
        · cases h
        · exact ih _ u ok h

theorem dropWhile_append_skip (p : StreamEffect → Bool) (pre rest : List StreamEffect)
    (h : ∀ e ∈ pre, p e = true) : (pre ++ rest).dropWhile p = rest.dropWhile p := by
  induction pre with
  | nil => rfl
  | cons a as ih =>
    have ha : p a = true := h a (List.mem_cons_self _ _)
    have := ih (fun e he => h e (List.mem_cons_of_mem _ he))
    simp [List.dropWhile, ha, this]

/-- A block of effects without failure event, with as many opens as failed reads, all
successful, keeps the reopen discipline of what follows it. -/
theorem reopenDiscipline_prepend (pre rest : List StreamEffect)
    (h1 : (pre.filter StreamEffect.isOpen).length
      = (pre.filter StreamEffect.isFailedRead).length)
    (h2 : (pre.filter StreamEffect.isOpened).length
      = (pre.filter StreamEffect.isOpen).length)
    (h3 : pre.filter StreamEffect.isConnectionFailed = [])
    (hr : ReopenDiscipline rest) : ReopenDiscipline (pre ++ rest) := by
  obtain ⟨r1, r2, r3, r4⟩ := hr
  have hskip : ∀ e ∈ pre, (!e.isConnectionFailed) = true := by
    intro e he
    cases hc : e.isConnectionFailed
    · rfl
    · have : e ∈ pre.filter StreamEffect.isConnectionFailed := List.mem_filter.mpr ⟨he, hc⟩
      rw [h3] at this
      cases this
  unfold ReopenDiscipline
  rw [dropWhile_append_skip _ pre rest hskip]
  simp only [List.filter_append, List.length_append, h3, List.length_nil, List.nil_append]
  refine ⟨by omega, by omega, r3, r4⟩

/-- The effects of the capture loop keep the reopen discipline. -/
theorem captureLoop_discipline (url : String) (script : List LoopInput) :
    ∀ (s : RTSPStreamer), ReopenDiscipline (captureLoop url s script).effects := by
  induction script with
  | nil => intro s; exact ⟨rfl, rfl, Nat.zero_le _, Or.inl rfl⟩
  | cons e es ih =>
    intro s
    cases e with
    | stopRequested => exact ⟨rfl, rfl, Nat.zero_le _, Or.inl rfl⟩
    | urlChanged v => exact ih (s.setUrl v)
    | readFails reopened =>
      cases reopened with
      | true =>
        exact reopenDiscipline_prepend
          [.captureRead false, .captureRelease, .captureOpen url true] _ rfl rfl rfl
          (ih { s with captureOpened := true })
      | false => exact ⟨rfl, rfl, Nat.le_refl _, Or.inr rfl⟩
    | readOk frame =>
      by_cases hf : frame.empty = true
      · have e : captureLoop url s (.readOk frame :: es)
            = (captureLoop url s es).after [.captureRead true] := by
          simp [captureLoop, hf]
        rw [e]
        exact reopenDiscipline_prepend [.captureRead true] _ rfl rfl rfl (ih s)
      · have e : captureLoop url s (.readOk frame :: es)
            = (captureLoop url { s with m_currentFrame := some (matToQImage frame) } es).after
                [.captureRead true, .storeCurrentFrame (matToQImage frame),
                 .emitNewFrameAvailable (matToQImage frame), .msleep 1] := by
          simp [captureLoop, hf]
        rw [e]
        exact reopenDiscipline_prepend _ _ rfl rfl rfl (ih _)

theorem replayHandle_append (a b : List StreamEffect) :
    ∀ l : HandleLedger, replayHandle l (a ++ b) = replayHandle (replayHandle l a) b := by
  induction a with
  | nil => intro l; rfl
  | cons e es ih => intro l; exact ih (l.record e)

/-- The book after a block of effects that neither opens nor releases is unchanged. -/
theorem replayHandle_neutral (pre : List StreamEffect)
    (h1 : pre.filter StreamEffect.isOpened = []) (h2 : pre.filter StreamEffect.isRelease = []) :
    ∀ l : HandleLedger, replayHandle l pre = l := by
  induction pre with
  | nil => intro l; rfl
  | cons e es ih =>
    intro l
    have he1 : e.isOpened = false := by
      cases hc : e.isOpened
      · rfl
      · simp [List.filter, hc] at h1
    have he2 : e.isRelease = false := by
      cases hc : e.isRelease
      · rfl
      · simp [List.filter, hc] at h2
    have hes1 : es.filter StreamEffect.isOpened = [] := by
      simpa [List.filter, he1] using h1
    have hes2 : es.filter StreamEffect.isRelease = [] := by
      simpa [List.filter, he2] using h2
    have hrec : l.record e = l := by
      cases e with
      | captureOpen u ok =>
        cases ok
        · rfl
        · simp [StreamEffect.isOpened] at he1
      | captureRelease => simp [StreamEffect.isRelease] at he2
      | _ => rfl
    show replayHandle (l.record e) es = l
    rw [hrec]
    exact ih hes1 hes2 l

/-- The book kept over the capture loop, entered with a handle held: the handle is held
exactly while the worker is in the loop, no open finds a handle held, every handle
obtained by a reopen is released, with the one held at entry once the loop is left, and
the only release that finds no handle is the one after a failed reopen. -/
theorem captureLoop_ledger (url : String) (script : List LoopInput) :
    ∀ (s : RTSPStreamer) (l : HandleLedger), l.held = true →
      (replayHandle l (captureLoop url s script).effects).held
        = decide ((captureLoop url s script).status = .Streaming) ∧
      (replayHandle l (captureLoop url s script).effects).obtained
        = l.obtained
          + ((captureLoop url s script).effects.filter StreamEffect.isOpened).length ∧
      (replayHandle l (captureLoop url s script).effects).released
        = l.released
          + ((captureLoop url s script).effects.filter StreamEffect.isOpened).length
          + (if (captureLoop url s script).status = .Stopped then 1 else 0) ∧
      (replayHandle l (captureLoop url s script).effects).idleReleases
        = l.idleReleases
          + ((captureLoop url s script).effects.filter
              StreamEffect.isConnectionFailed).length ∧
      (replayHandle l (captureLoop url s script).effects).openedWhileHeld
        = l.openedWhileHeld ∧
      ((captureLoop url s script).effects.filter StreamEffect.isRelease).length
        = ((captureLoop url s script).effects.filter StreamEffect.isOpened).length
          + ((captureLoop url s script).effects.filter
              StreamEffect.isConnectionFailed).length
          + (if (captureLoop url s script).status = .Stopped then 1 else 0) := by
  induction script with
  | nil =>
    intro s l hl
    simp [captureLoop, replayHandle, hl]
  | cons e es ih =>
    intro s l hl
    cases e with
    | stopRequested =>
      simp [captureLoop, replayHandle, HandleLedger.record, hl, StreamEffect.isOpened,
        StreamEffect.isConnectionFailed, StreamEffect.isRelease]
    | urlChanged v => exact ih (s.setUrl v) l hl
    | readFails reopened =>
      cases reopened with
      | true =>
        have hb : replayHandle l [.captureRead false, .captureRelease, .captureOpen url true]
            = { l with obtained := l.obtained + 1, released := l.released + 1 } := by
          simp [replayHandle, HandleLedger.record, hl]
        obtain ⟨k1, k2, k3, k4, k5, k6⟩ := ih { s with captureOpened := true }
          { l with obtained := l.obtained + 1, released := l.released + 1 } hl
        simp only [captureLoop, if_true, after_effects]
        rw [replayHandle_append, hb]
        simp only [List.filter_append, List.length_append]
        have c1 : ([.captureRead false, .captureRelease, .captureOpen url true]
            : List StreamEffect).filter StreamEffect.isOpened = [.captureOpen url true] := rfl
        have c2 : ([.captureRead false, .captureRelease, .captureOpen url true]
            : List StreamEffect).filter StreamEffect.isConnectionFailed = [] := rfl
        have c3 : ([.captureRead false, .captureRelease, .captureOpen url true]
            : List StreamEffect).filter StreamEffect.isRelease = [.captureRelease] := rfl
        rw [c1, c2, c3]
        simp only [List.length_cons, List.length_nil]
        refine ⟨k1, ?_, ?_, ?_, k5, ?_⟩
        · rw [k2]; simp only; omega
        · rw [k3]; simp only; omega
        · rw [k4]; simp only; omega
        · rw [k6]; omega
      | false =>
        simp [captureLoop, replayHandle, HandleLedger.record, hl, StreamEffect.isOpened,
          StreamEffect.isConnectionFailed, StreamEffect.isRelease]
    | readOk frame =>
      by_cases hf : frame.empty = true
      · have e : captureLoop url s (.readOk frame :: es)
            = (captureLoop url s es).after [.captureRead true] := by
          simp [captureLoop, hf]
        obtain ⟨k1, k2, k3, k4, k5, k6⟩ := ih s l hl
        rw [e]
        simp only [after_effects]
        rw [replayHandle_append, replayHandle_neutral [.captureRead true] rfl rfl]
        simp only [List.filter_append, List.length_append]
        have c1 : ([.captureRead true] : List StreamEffect).filter StreamEffect.isOpened
            = [] := rfl
        have c2 : ([.captureRead true] : List StreamEffect).filter
            StreamEffect.isConnectionFailed = [] := rfl
        have c3 : ([.captureRead true] : List StreamEffect).filter StreamEffect.isRelease
            = [] := rfl
        rw [c1, c2, c3]
        simp only [List.length_nil, Nat.zero_add]
        exact ⟨k1, k2, k3, k4, k5, k6⟩
      · have e : captureLoop url s (.readOk frame :: es)
            = (captureLoop url { s with m_currentFrame := some (matToQImage frame) } es).after
                [.captureRead true, .storeCurrentFrame (matToQImage frame),
                 .emitNewFrameAvailable (matToQImage frame), .msleep 1] := by
          simp [captureLoop, hf]
        obtain ⟨k1, k2, k3, k4, k5, k6⟩ :=
          ih { s with m_currentFrame := some (matToQImage frame) } l hl
        rw [e]
        simp only [after_effects]
        rw [replayHandle_append, replayHandle_neutral
          [.captureRead true, .storeCurrentFrame (matToQImage frame),
           .emitNewFrameAvailable (matToQImage frame), .msleep 1] rfl rfl]
        simp only [List.filter_append, List.length_append]
        have c1 : ([.captureRead true, .storeCurrentFrame (matToQImage frame),
            .emitNewFrameAvailable (matToQImage frame), .msleep 1]
            : List StreamEffect).filter StreamEffect.isOpened = [] := rfl
        have c2 : ([.captureRead true, .storeCurrentFrame (matToQImage frame),
            .emitNewFrameAvailable (matToQImage frame), .msleep 1]
            : List StreamEffect).filter StreamEffect.isConnectionFailed = [] := rfl
        have c3 : ([.captureRead true, .storeCurrentFrame (matToQImage frame),
            .emitNewFrameAvailable (matToQImage frame), .msleep 1]
            : List StreamEffect).filter StreamEffect.isRelease = [] := rfl
        rw [c1, c2, c3]
        simp only [List.length_nil, Nat.zero_add]
        exact ⟨k1, k2, k3, k4, k5, k6⟩

/-- The capture session of the state agrees with the status: open while the worker is in
the loop, released once it has left it. -/
theorem captureLoop_state (url : String) (script : List LoopInput) :
    ∀ (s : RTSPStreamer), s.captureOpened = true →
      (captureLoop url s script).state.captureOpened
        = decide ((captureLoop url s script).status = .Streaming) := by
  induction script with
  | nil => intro s hs; simp [captureLoop, hs]
  | cons e es ih =>
    intro s hs
    cases e with
    | stopRequested => simp [captureLoop]
    | urlChanged v => exact ih (s.setUrl v) hs
    | readFails reopened =>
      cases reopened with
      | true => simpa [captureLoop, after_effects] using ih { s with captureOpened := true } rfl
      | false => simp [captureLoop]
    | readOk frame =>
      by_cases hf : frame.empty = true
      · simpa [captureLoop, hf, after_effects] using ih s hs
      · simpa [captureLoop, hf, after_effects] using
          ih { s with m_currentFrame := some (matToQImage frame) } hs

/-- A loop that meets no terminal input is still running when the inputs end, and has
raised no failure event. -/
theorem captureLoop_no_terminal (url : String) (script : List LoopInput) :
    ∀ (s : RTSPStreamer), (∀ e ∈ script, e.isTerminal = false) →
      (captureLoop url s script).status = .Streaming ∧
      (captureLoop url s script).effects.filter StreamEffect.isConnectionFailed = [] := by
  induction script with
  | nil => intro s _; exact ⟨rfl, rfl⟩
  | cons e es ih =>
    intro s h
    have he : e.isTerminal = false := h e (List.mem_cons_self _ _)
    have hes : ∀ x ∈ es, x.isTerminal = false := fun x hx => h x (List.mem_cons_of_mem _ hx)
    cases e with
    | stopRequested => simp [LoopInput.isTerminal] at he
    | urlChanged v => exact ih (s.setUrl v) hes
    | readFails reopened =>
      cases reopened with
      | true =>
        obtain ⟨a, b⟩ := ih { s with captureOpened := true } hes
        simp only [captureLoop, if_true, after_effects, List.filter_append, b, List.append_nil]
        exact ⟨a, rfl⟩
      | false => simp [LoopInput.isTerminal] at he
    | readOk frame =>
      by_cases hf : frame.empty = true
      · obtain ⟨a, b⟩ := ih s hes
        simp only [captureLoop, hf, if_true, after_effects, List.filter_append, b,
          List.append_nil]
        exact ⟨a, rfl⟩
      · obtain ⟨a, b⟩ := ih { s with m_currentFrame := some (matToQImage frame) } hes
        have e : captureLoop url s (.readOk frame :: es)
            = (captureLoop url { s with m_currentFrame := some (matToQImage frame) } es).after
                [.captureRead true, .storeCurrentFrame (matToQImage frame),
                 .emitNewFrameAvailable (matToQImage frame), .msleep 1] := by
          simp [captureLoop, hf]
        rw [e]
        simp only [after_effects, List.filter_append, b, List.append_nil]
        exact ⟨a, rfl⟩

/-! ## C17 to C20: the stream worker -/

/-- C17: for every endpoint, when the initial open of the capture session fails, the run
consists of that one open and one `connectionFailed`: no frame is read, nothing is
opened again, no frame and no dimensions are published, and the run has returned. -/
theorem run_initial_open_fails (s : RTSPStreamer) (inp : RunInput)
    (ho : s.m_opencvEnabled = true) (hf : inp.opened = false) :
    s.run inp =
      ⟨{ s with m_stopped := false, captureOpened := false },
       [.captureOpen s.m_rtspUrl false, .emitConnectionFailed], .Stopped⟩ ∧
    (s.run inp).effects.filter StreamEffect.isConnectionFailed = [.emitConnectionFailed] ∧
    (s.run inp).effects.filter StreamEffect.isRead = [] ∧
    (s.run inp).effects.filter StreamEffect.isOpen = [.captureOpen s.m_rtspUrl false] ∧
    (s.run inp).effects.filter StreamEffect.isPublish = [] ∧
    (s.run inp).state.m_currentFrame = s.m_currentFrame ∧
    (s.run inp).state.m_streamSize = s.m_streamSize ∧
    (s.run inp).status = .Stopped := by
  have h : s.run inp =
      ⟨{ s with m_stopped := false, captureOpened := false },
       [.captureOpen s.m_rtspUrl false, .emitConnectionFailed], .Stopped⟩ := by
    simp [RTSPStreamer.run, ho, hf]
  rw [h]
  exact ⟨rfl, rfl, rfl, rfl, rfl, rfl, rfl, rfl⟩

/-- C17, at a concrete input: the endpoint of the window does not open; the frames that
the session would have delivered are never read. -/
theorem run_initial_open_fails_witness :
    (((RTSPStreamer.init true).setUrl "rtsp://192.168.10.102:554/test").run
        ⟨false, 640, 480, [.readOk ⟨640, 480, 1⟩, .readFails true]⟩).effects
      = [.captureOpen "rtsp://192.168.10.102:554/test" false, .emitConnectionFailed] :=
  congrArg RunResult.effects
    (run_initial_open_fails ((RTSPStreamer.init true).setUrl "rtsp://192.168.10.102:554/test")
      ⟨false, 640, 480, [.readOk ⟨640, 480, 1⟩, .readFails true]⟩ rfl rfl).1

/-- C18: a failed frame read is followed by a release and one open with the URL copied
at the start of the run.  If that open succeeds the loop goes on with the next input and
no failure event is raised for it; if it fails, `connectionFailed` is raised once and the
loop is left, whatever inputs remain, with only the final release after it.  Over a whole
run every open carries the URL of the initial open, also when `setUrl` is called in
between, there are as many reopens as failed reads, and at most one failure event. -/
theorem failed_read_is_followed_by_one_reopen (s : RTSPStreamer) (url : String)
    (rest : List LoopInput) :
    captureLoop url s (.readFails true :: rest)
      = (captureLoop url { s with captureOpened := true } rest).after
          [.captureRead false, .captureRelease, .captureOpen url true] ∧
    captureLoop url s (.readFails false :: rest)
      = ⟨{ s with captureOpened := false },
         [.captureRead false, .captureRelease, .captureOpen url false,
          .emitConnectionFailed, .captureRelease], .Stopped⟩ ∧
    (∀ script, ReopenDiscipline (captureLoop url s script).effects) ∧
    (∀ inp u ok, StreamEffect.captureOpen u ok ∈ (s.run inp).effects → u = s.m_rtspUrl) ∧
    (∀ inp, ((s.run inp).effects.filter StreamEffect.isConnectionFailed).length ≤ 1) := by
  refine ⟨rfl, rfl, fun script => captureLoop_discipline url script s, ?_, ?_⟩
  · intro inp u ok h
    unfold RTSPStreamer.run at h
    by_cases ho : s.m_opencvEnabled = true
    · by_cases hi : inp.opened = true
      · simp only [ho, hi, Bool.not_true, Bool.false_eq_true, if_false, after_effects,
          List.mem_append, List.mem_cons, List.mem_nil_iff, or_false] at h
        rcases h with (h | h | h) | h
        · cases h; rfl
        · cases h
        · cases h
        · exact captureLoop_open_url _ _ _ u ok h
      · simp [ho, hi] at h
        exact h.1
    · simp [ho] at h
  · intro inp
    unfold RTSPStreamer.run
    by_cases ho : s.m_opencvEnabled = true
    · by_cases hi : inp.opened = true
      · simp only [ho, hi, Bool.not_true, Bool.false_eq_true, if_false, after_effects,
          List.filter_append]
        have c : ([.captureOpen s.m_rtspUrl true, .captureSetBufferSize 1,
            .storeStreamSize ⟨inp.width, inp.height⟩] : List StreamEffect).filter
            StreamEffect.isConnectionFailed = [] := rfl
        rw [c]
        exact (captureLoop_discipline _ _ _).2.2.1
      · simp [ho, hi, StreamEffect.isConnectionFailed]
    · simp [ho, StreamEffect.isConnectionFailed]

/-- C19 (as stated, refuted): a run whose first three reads fail, each reopen succeeding.
The dimensions are stored once, after the initial open and before the first read; none of
the three reopens stores them again. -/
theorem reopen_republishes_no_dimensions :
    (((RTSPStreamer.init true).setUrl "rtsp://192.168.10.102:554/test").run
        ⟨true, 640, 480, [.readFails true, .readFails true, .readFails true]⟩).effects
      = [.captureOpen "rtsp://192.168.10.102:554/test" true,
         .captureSetBufferSize 1,
         .storeStreamSize ⟨640, 480⟩,
         .captureRead false, .captureRelease,
         .captureOpen "rtsp://192.168.10.102:554/test" true,
         .captureRead false, .captureRelease,
         .captureOpen "rtsp://192.168.10.102:554/test" true,
         .captureRead false, .captureRelease,
         .captureOpen "rtsp://192.168.10.102:554/test" true] ∧
    ((((RTSPStreamer.init true).setUrl "rtsp://192.168.10.102:554/test").run
        ⟨true, 640, 480, [.readFails true, .readFails true, .readFails true]⟩).effects.dropWhile
        (fun e => !e.isFailedRead)).filter StreamEffect.isStoreSize = [] ∧
    (((RTSPStreamer.init true).setUrl "rtsp://192.168.10.102:554/test").run
        ⟨true, 640, 480, [.readFails true, .readFails true, .readFails true]⟩).status
      = .Streaming := by
  refine ⟨by decide, by decide, by decide⟩

/-- C19 (amended): in a run where, after any number of delivered frames, three
consecutive reads fail and each of the three reopens succeeds, the worker is still in its
capture loop afterwards with its session open, and no stream-failure event has been
raised. -/
theorem transient_read_failures_keep_streaming (s : RTSPStreamer) (w h : Int)
    (frames : List Mat) (ho : s.m_opencvEnabled = true) :
    (s.run ⟨true, w, h,
        frames.map .readOk ++ [.readFails true, .readFails true, .readFails true]⟩).status
      = .Streaming ∧
    (s.run ⟨true, w, h,
        frames.map .readOk ++ [.readFails true, .readFails true, .readFails true]⟩).effects.filter
        StreamEffect.isConnectionFailed = [] ∧
    (s.run ⟨true, w, h,
        frames.map .readOk ++ [.readFails true, .readFails true, .readFails true]⟩).state.captureOpened
      = true := by
  have hnt : ∀ e ∈ frames.map LoopInput.readOk
      ++ [.readFails true, .readFails true, .readFails true], e.isTerminal = false := by
    intro e he
    simp only [List.mem_append, List.mem_map, List.mem_cons, List.mem_nil_iff, or_false] at he
    rcases he with ⟨f, -, rfl⟩ | rfl | rfl | rfl <;> rfl
  have hrun : s.run ⟨true, w, h,
        frames.map .readOk ++ [.readFails true, .readFails true, .readFails true]⟩
      = (captureLoop s.m_rtspUrl
          { s with m_stopped := false, captureOpened := true, m_streamSize := ⟨w, h⟩ }
          (frames.map .readOk ++ [.readFails true, .readFails true, .readFails true])).after
          [.captureOpen s.m_rtspUrl true, .captureSetBufferSize 1,
           .storeStreamSize ⟨w, h⟩] := by
    simp [RTSPStreamer.run, ho]
  obtain ⟨a, b⟩ := captureLoop_no_terminal s.m_rtspUrl _
    { s with m_stopped := false, captureOpened := true, m_streamSize := ⟨w, h⟩ } hnt
  have c := captureLoop_state s.m_rtspUrl
    (frames.map .readOk ++ [.readFails true, .readFails true, .readFails true])
    { s with m_stopped := false, captureOpened := true, m_streamSize := ⟨w, h⟩ } rfl
  rw [hrun]
  simp only [after_effects, List.filter_append, b, List.append_nil]
  refine ⟨a, rfl, ?_⟩
  rw [c, a]
  rfl

/-- C19 (amended), at a concrete input: one frame is delivered, then three reads fail. -/
theorem transient_read_failures_keep_streaming_witness :
    (((RTSPStreamer.init true).setUrl "rtsp://192.168.10.102:554/test").run
        ⟨true, 640, 480,
          [Mat.mk 640 480 7].map .readOk
            ++ [.readFails true, .readFails true, .readFails true]⟩).status
      = .Streaming :=
  (transient_read_failures_keep_streaming
    ((RTSPStreamer.init true).setUrl "rtsp://192.168.10.102:554/test") 640 480
    [Mat.mk 640 480 7] rfl).1

/-- C20 (as stated, refuted): a run in which the first read fails and the reopen fails.
The session is opened successfully once and `release()` is called twice: after the
failed read, and again after the loop. -/
theorem failed_reopen_releases_twice :
    (((RTSPStreamer.init true).setUrl "rtsp://192.168.10.102:554/test").run
        ⟨true, 640, 480, [.readFails false]⟩).effects
      = [.captureOpen "rtsp://192.168.10.102:554/test" true,
         .captureSetBufferSize 1,
         .storeStreamSize ⟨640, 480⟩,
         .captureRead false, .captureRelease,
         .captureOpen "rtsp://192.168.10.102:554/test" false,
         .emitConnectionFailed,
         .captureRelease] ∧
    ((((RTSPStreamer.init true).setUrl "rtsp://192.168.10.102:554/test").run
        ⟨true, 640, 480, [.readFails false]⟩).effects.filter StreamEffect.isRelease).length
      = 2 ∧
    ((((RTSPStreamer.init true).setUrl "rtsp://192.168.10.102:554/test").run
        ⟨true, 640, 480, [.readFails false]⟩).effects.filter StreamEffect.isOpened).length
      = 1 := by
  refine ⟨by decide, by decide, by decide⟩

/-- C20 (amended): over any run that starts with no capture handle held, no open finds a
handle still held, and once the run has returned every handle it obtained has been
released exactly once and none is held.  A run that ends because of a stop request makes
as many `release()` calls as successful opens; in general, once the initial open has
succeeded, the calls are the successful opens, less the handle still held while the
worker is in its loop, plus one call that finds nothing to release when a reopen has
failed. -/
theorem capture_handle_released_once (s : RTSPStreamer) (inp : RunInput)
    (hs : s.captureOpened = false) :
    (replayHandle .empty (s.run inp).effects).openedWhileHeld = 0 ∧
    (replayHandle .empty (s.run inp).effects).obtained
      = ((s.run inp).effects.filter StreamEffect.isOpened).length ∧
    (replayHandle .empty (s.run inp).effects).held
      = decide ((s.run inp).status = .Streaming) ∧
    (replayHandle .empty (s.run inp).effects).released
        + (if (s.run inp).status = .Streaming then 1 else 0)
      = (replayHandle .empty (s.run inp).effects).obtained ∧
    (s.run inp).state.captureOpened = decide ((s.run inp).status = .Streaming) ∧
    ((s.run inp).status = .Stopped →
      (s.run inp).effects.filter StreamEffect.isConnectionFailed = [] →
      ((s.run inp).effects.filter StreamEffect.isRelease).length
        = ((s.run inp).effects.filter StreamEffect.isOpened).length) ∧
    (s.m_opencvEnabled = true → inp.opened = true →
      ((s.run inp).effects.filter StreamEffect.isRelease).length
          + (if (s.run inp).status = .Streaming then 1 else 0)
        = ((s.run inp).effects.filter StreamEffect.isOpened).length
          + ((s.run inp).effects.filter StreamEffect.isConnectionFailed).length) := by
  by_cases ho : s.m_opencvEnabled = true
  · by_cases hi : inp.opened = true
    · have hrun : s.run inp
          = (captureLoop s.m_rtspUrl
              { s with m_stopped := false, captureOpened := true,
                       m_streamSize := ⟨inp.width, inp.height⟩ } inp.loop).after
              [.captureOpen s.m_rtspUrl true, .captureSetBufferSize 1,
               .storeStreamSize ⟨inp.width, inp.height⟩] := by
        simp [RTSPStreamer.run, ho, hi]
      have hb : replayHandle .empty
          [.captureOpen s.m_rtspUrl true, .captureSetBufferSize 1,
           .storeStreamSize ⟨inp.width, inp.height⟩]
          = ⟨true, 1, 0, 0, 0⟩ := rfl
      obtain ⟨k1, k2, k3, k4, k5, k6⟩ := captureLoop_ledger s.m_rtspUrl inp.loop
        { s with m_stopped := false, captureOpened := true,
                 m_streamSize := ⟨inp.width, inp.height⟩ } ⟨true, 1, 0, 0, 0⟩ rfl
      have kst := captureLoop_state s.m_rtspUrl inp.loop
        { s with m_stopped := false, captureOpened := true,
                 m_streamSize := ⟨inp.width, inp.height⟩ } rfl
      rw [hrun]
      simp only [after_effects]
      rw [replayHandle_append, hb]
      simp only [List.filter_append, List.length_append]
      have c1 : ([.captureOpen s.m_rtspUrl true, .captureSetBufferSize 1,
          .storeStreamSize ⟨inp.width, inp.height⟩] : List StreamEffect).filter
          StreamEffect.isOpened = [.captureOpen s.m_rtspUrl true] := rfl
      have c2 : ([.captureOpen s.m_rtspUrl true, .captureSetBufferSize 1,
          .storeStreamSize ⟨inp.width, inp.height⟩] : List StreamEffect).filter
          StreamEffect.isConnectionFailed = [] := rfl
      have c3 : ([.captureOpen s.m_rtspUrl true, .captureSetBufferSize 1,
          .storeStreamSize ⟨inp.width, inp.height⟩] : List StreamEffect).filter
          StreamEffect.isRelease = [] := rfl
      rw [c1, c2, c3]
      simp only [List.length_cons, List.length_nil, List.nil_append, Nat.zero_add]
      dsimp only at k1 k2 k3 k4 k5 k6
      generalize captureLoop s.m_rtspUrl
          { s with m_stopped := false, captureOpened := true,
                   m_streamSize := ⟨inp.width, inp.height⟩ } inp.loop = L at *
      generalize replayHandle ⟨true, 1, 0, 0, 0⟩ L.effects = B at *
      generalize (L.effects.filter StreamEffect.isOpened).length = nO at *
      generalize (L.effects.filter StreamEffect.isRelease).length = nR at *
      rw [k1, k5, kst]
      cases hst : L.status
      · simp only [hst, reduceCtorEq, if_false, if_true] at k3 k6 ⊢
        refine ⟨trivial, by omega, trivial, by omega, trivial, ?_, ?_⟩
        · intro h; cases h
        · intro _ _; omega
      · simp only [hst, reduceCtorEq, if_false, if_true] at k3 k6 ⊢
        refine ⟨trivial, by omega, trivial, by omega, trivial, ?_, ?_⟩
        · intro _ hc
          rw [hc] at k6
          simp only [List.length_nil] at k6
          omega
        · intro _ _; omega
    · have hrun : s.run inp =
          ⟨{ s with m_stopped := false, captureOpened := false },
           [.captureOpen s.m_rtspUrl false, .emitConnectionFailed], .Stopped⟩ := by
        simp [RTSPStreamer.run, ho, hi]
      rw [hrun]
      refine ⟨rfl, rfl, rfl, rfl, rfl, ?_, ?_⟩
      · intro _ hc
        simp [StreamEffect.isConnectionFailed] at hc
      · intro _ h
        exact absurd h hi
  · have hrun : s.run inp = ⟨{ s with m_stopped := false }, [.emitConnectionFailed], .Stopped⟩ := by
      simp [RTSPStreamer.run, ho]
    rw [hrun]
    refine ⟨rfl, rfl, rfl, rfl, ?_, ?_, ?_⟩
    · simp [hs]
    · intro _ hc
      simp [StreamEffect.isConnectionFailed] at hc
    · intro h
      exact absurd h ho

/-- C20 (amended), at a concrete input: a frame is delivered, a read fails and the
reopen succeeds, then a stop is requested; no open found a handle held. -/
theorem capture_handle_released_once_witness :
    ((RTSPStreamer.init true).setUrl "rtsp://192.168.10.102:554/test").captureOpened = false ∧
    (replayHandle .empty
      (((RTSPStreamer.init true).setUrl "rtsp://192.168.10.102:554/test").run
        ⟨true, 640, 480,
          [.readOk ⟨640, 480, 7⟩, .readFails true, .stopRequested]⟩).effects).openedWhileHeld
      = 0 :=
  ⟨rfl,
   (capture_handle_released_once
      ((RTSPStreamer.init true).setUrl "rtsp://192.168.10.102:554/test")
      ⟨true, 640, 480, [.readOk ⟨640, 480, 7⟩, .readFails true, .stopRequested]⟩ rfl).1⟩


/-! ## C21: the frame buffer and the stream size -/

/-- The most recent non-empty frame of a list that starts with a non-empty frame. -/
theorem mostRecentFrame_cons (start : Option FrameImage) (f : Mat) (fs : List Mat)
    (hf : f.empty = false) :
    mostRecentFrame start (f :: fs) = mostRecentFrame (some (matToQImage f)) fs := by
  unfold mostRecentFrame
  simp only [List.filter_cons, hf, Bool.not_false, if_true]
  cases h : (fs.filter (fun f => !f.empty)) with
  | nil => simp
  | cons g gs =>
    rw [List.getLast?_cons_cons, List.getLast?_eq_getLast (g :: gs) (by simp)]

/-- An empty frame at the head of a list does not count. -/
theorem mostRecentFrame_skip (start : Option FrameImage) (f : Mat) (fs : List Mat)
    (hf : f.empty = true) :
    mostRecentFrame start (f :: fs) = mostRecentFrame start fs := by
  unfold mostRecentFrame
  simp [List.filter_cons, hf]

/-- The frame buffer after the loop holds the most recent non-empty frame read, or what
it held before when there was none; the loop leaves the stored stream size alone. -/
theorem captureLoop_buffer (url : String) (script : List LoopInput) :
    ∀ (s : RTSPStreamer),
      (captureLoop url s script).state.getCurrentFrame
        = mostRecentFrame s.getCurrentFrame (framesRead script) ∧
      (captureLoop url s script).state.getStreamSize = s.getStreamSize := by
  induction script with
  | nil => intro s; exact ⟨rfl, rfl⟩
  | cons e es ih =>
    intro s
    cases e with
    | stopRequested => exact ⟨rfl, rfl⟩
    | urlChanged v => exact ih (s.setUrl v)
    | readFails reopened =>
      cases reopened with
      | true => simpa [captureLoop, after_effects, framesRead] using ih { s with captureOpened := true }
      | false => exact ⟨rfl, rfl⟩
    | readOk frame =>
      by_cases hf : frame.empty = true
      · have h := ih s
        simp only [captureLoop, hf, if_true, after_effects, framesRead]
        rw [mostRecentFrame_skip _ _ _ hf]
        exact h
      · have hf2 : frame.empty = false := by simpa using hf
        have h := ih { s with m_currentFrame := some (matToQImage frame) }
        simp only [captureLoop, hf2, after_effects, framesRead]
        rw [mostRecentFrame_cons _ _ _ hf2]
        exact h

/-- C21: at every point of a worker run (after every sequence of loop inputs, whether the
run is then still in its loop or has returned), `getCurrentFrame` returns the image of
the most recent non-empty frame read in the run, and what the buffer held at the start of
the run when no such frame has been read, which is the null image for a streamer fresh
from its constructor; `getStreamSize` returns the dimensions queried after the initial
open as soon as that open has succeeded, whatever the loop has read, and the stored size
otherwise, which is (0,0) for a fresh streamer.  A pass that reads an empty frame does
a read and nothing else: the run continues with the same state on the remaining inputs,
and its effects are the read followed by the effects of the remaining passes. -/
theorem frame_buffer_and_stream_size (s : RTSPStreamer) (inp : RunInput) :
    (s.run inp).state.getCurrentFrame
      = (if s.m_opencvEnabled && inp.opened
          then mostRecentFrame s.getCurrentFrame (framesRead inp.loop)
          else s.getCurrentFrame) ∧
    (s.run inp).state.getStreamSize
      = (if s.m_opencvEnabled && inp.opened then ⟨inp.width, inp.height⟩
          else s.getStreamSize) ∧
    (∀ (b : Bool) (url : String),
      ((RTSPStreamer.init b).setUrl url).getCurrentFrame = none ∧
      ((RTSPStreamer.init b).setUrl url).getStreamSize = ⟨0, 0⟩) ∧
    (∀ (url : String) (t : RTSPStreamer) (frame : Mat) (rest : List LoopInput),
      frame.empty = true →
      captureLoop url t (.readOk frame :: rest)
        = (captureLoop url t rest).after [.captureRead true] ∧
      (captureLoop url t [.readOk frame]).state = t ∧
      (captureLoop url t [.readOk frame]).status = .Streaming ∧
      (captureLoop url t [.readOk frame]).effects = [.captureRead true]) := by
  refine ⟨?_, ?_, fun b url => ⟨rfl, rfl⟩, ?_⟩
  · unfold RTSPStreamer.run
    cases ho : s.m_opencvEnabled with
    | false => simp [ho]; rfl
    | true =>
      cases hi : inp.opened with
      | false => simp [ho, hi]; rfl
      | true =>
        have key := (captureLoop_buffer s.m_rtspUrl inp.loop
          { s with m_stopped := false, captureOpened := true,
                   m_streamSize := ⟨inp.width, inp.height⟩ }).1
        simp only [ho] at key
        simpa [ho, hi, RunResult.after, RTSPStreamer.getCurrentFrame,
          RTSPStreamer.getStreamSize] using key
  · unfold RTSPStreamer.run
    cases ho : s.m_opencvEnabled with
    | false => simp [ho]; rfl
    | true =>
      cases hi : inp.opened with
      | false => simp [ho, hi]; rfl
      | true =>
        have key := (captureLoop_buffer s.m_rtspUrl inp.loop
          { s with m_stopped := false, captureOpened := true,
                   m_streamSize := ⟨inp.width, inp.height⟩ }).2
        simp only [ho] at key
        simpa [ho, hi, RunResult.after, RTSPStreamer.getCurrentFrame,
          RTSPStreamer.getStreamSize] using key
  · intro url t frame rest hf
    refine ⟨?_, ?_, ?_, ?_⟩ <;> simp [captureLoop, hf, RunResult.after]


/-! ## C23: the stream URL of the window -/

/-- The URL the format string of the window yields for an address without a percent sign:
the scheme, the address, a colon, the decimal port, and the path `/test`. -/
theorem arg_rtspUrl_eq (address : String) (port : Int)
    (ha : ∀ c ∈ address.data, c ≠ '%') :
    QString.argInt (QString.arg "rtsp://%1:%2/test" address) port
      = "rtsp://" ++ address ++ ":" ++ decimal port ++ "/test" := by
  have h1 : findArgEscapes "rtsp://%1:%2/test".data =
      [.text 'r', .text 't', .text 's', .text 'p', .text ':', .text '/', .text '/',
       .escape 1 ['%', '1'], .text ':', .escape 2 ['%', '2'],
       .text '/', .text 't', .text 'e', .text 's', .text 't'] := by decide
  have e1 : QString.arg "rtsp://%1:%2/test" address
      = ⟨("rtsp://".data ++ address.data ++ [':']) ++ ('%' :: '2' :: "/test".data)⟩ := by
    unfold QString.arg
    rw [h1]
    apply String.ext
    simp [minEscape, replaceArgEscapes]
  have hp : ∀ c ∈ "rtsp://".data ++ address.data ++ [':'], c ≠ '%' := by
    intro c hc
    simp only [List.mem_append, List.mem_singleton] at hc
    rcases hc with (hc | hc) | rfl
    · revert c; decide
    · exact ha c hc
    · decide
  have h3 : scanArg .plain ('%' :: '2' :: "/test".data)
      = [.escape 2 ['%', '2'], .text '/', .text 't', .text 'e', .text 's', .text 't'] := by
    decide
  have h2 : findArgEscapes (("rtsp://".data ++ address.data ++ [':']) ++ ('%' :: '2' :: "/test".data))
      = ("rtsp://".data ++ address.data ++ [':']).map .text ++
        [.escape 2 ['%', '2'], .text '/', .text 't', .text 'e', .text 's', .text 't'] := by
    unfold findArgEscapes
    rw [scanArg_plain_append _ _ hp, h3]
  rw [e1]
  unfold QString.argInt QString.arg
  simp only [h2, minEscape_text_append, replaceArgEscapes_text_append]
  apply String.ext
  simp [minEscape, replaceArgEscapes]

/-- The URL that `setNetworkConfiguration` stores, and the URL the constructor builds from
the fields of the window, for an address without a percent sign: the path is `/test`. -/
theorem window_rtspUrl (w : MainWindow) (address : String) (rtspPort tcpPort udpPort : Nat)
    (ha : ∀ c ∈ address.data, c ≠ '%') :
    (setNetworkConfiguration w address rtspPort tcpPort udpPort).1.m_rtspUrl
      = "rtsp://" ++ address ++ ":" ++ decimal rtspPort ++ "/test" ∧
    (initRtspUrl { w with m_tcpAddress := address, m_rtspPort := rtspPort }).m_rtspUrl
      = "rtsp://" ++ address ++ ":" ++ decimal rtspPort ++ "/test" := by
  refine ⟨?_, ?_⟩
  · unfold setNetworkConfiguration
    dsimp only
    split <;> exact arg_rtspUrl_eq address rtspPort ha
  · exact arg_rtspUrl_eq address rtspPort ha

/-- C23, the code at the failing input: for the address 10.0.0.100 and the port 554 the
window stores the URL with the path `/test`, both through `setNetworkConfiguration` and
through the statement of the constructor, and that URL is not the one with the path
`/camera` that the notes in `network_config_example.h` describe. -/
theorem stream_url_has_path_test :
    (setNetworkConfiguration (MainWindow.withController NativeController.init true)
        "10.0.0.100" 554 8555 8556).1.m_rtspUrl = "rtsp://10.0.0.100:554/test" ∧
    (initRtspUrl { MainWindow.withController NativeController.init true with
        m_tcpAddress := "10.0.0.100", m_rtspPort := 554 }).m_rtspUrl
      = "rtsp://10.0.0.100:554/test" ∧
    (initRtspUrl (MainWindow.withController NativeController.init true)).m_rtspUrl
      = "rtsp://192.168.10.102:554/test" ∧
    "rtsp://10.0.0.100:554/test" ≠ "rtsp://" ++ "10.0.0.100" ++ ":" ++ decimal 554 ++ "/camera" := by
  decide

/-! ## C25: the capture buffer size after an open -/

/-- The loop sets no buffer size: when none of its reopens succeeds, its effects hold no
successful open, so every successful open among them (there is none) is followed by the
setting. -/
theorem captureLoop_no_reopen_buffer (url : String) (script : List LoopInput) :
    ∀ (s : RTSPStreamer), (∀ e ∈ script, e ≠ .readFails true) →
      bufferSizeSetAfterEveryOpen (captureLoop url s script).effects = true := by
  induction script with
  | nil => intro s _; rfl
  | cons e es ih =>
    intro s h
    have hes : ∀ e ∈ es, e ≠ .readFails true := fun e he => h e (List.mem_cons_of_mem _ he)
    cases e with
    | stopRequested => rfl
    | urlChanged v => exact ih (s.setUrl v) hes
    | readFails reopened =>
      cases reopened with
      | true => exact absurd rfl (h _ (List.mem_cons_self _ _))
      | false => rfl
    | readOk frame =>
      by_cases hf : frame.empty = true
      · simpa [captureLoop, hf, RunResult.after, bufferSizeSetAfterEveryOpen] using ih s hes
      · simpa [captureLoop, hf, RunResult.after, bufferSizeSetAfterEveryOpen] using
          ih { s with m_currentFrame := some (matToQImage frame) } hes

/-- The initial open is followed by the setting of the buffer size: in a run none of
whose reopens succeeds, every successful open is followed by the setting before the next
read. -/
theorem run_initial_open_sets_buffer (s : RTSPStreamer) (inp : RunInput)
    (h : ∀ e ∈ inp.loop, e ≠ .readFails true) :
    bufferSizeSetAfterEveryOpen (s.run inp).effects = true := by
  unfold RTSPStreamer.run
  dsimp only
  split
  · rfl
  · split
    · rfl
    · simpa [RunResult.after, bufferSizeSetAfterEveryOpen, bufferSizeSetBeforeRead] using
        captureLoop_no_reopen_buffer s.m_rtspUrl inp.loop _ h

/-- C25, the code at the failing input: in a run whose first read fails, whose reopen
succeeds and whose next read delivers a frame, the buffer size is set once, after the
initial open; the reopen is followed by the read at once, so it is false of the trace
that every successful open is followed by the setting before the next read. -/
theorem reopen_sets_no_buffer_size :
    (((RTSPStreamer.init true).setUrl "rtsp://192.168.10.102:554/test").run
        ⟨true, 640, 480, [.readFails true, .readOk ⟨640, 480, 7⟩]⟩).effects
      = [.captureOpen "rtsp://192.168.10.102:554/test" true, .captureSetBufferSize 1,
         .storeStreamSize ⟨640, 480⟩,
         .captureRead false, .captureRelease,
         .captureOpen "rtsp://192.168.10.102:554/test" true,
         .captureRead true, .storeCurrentFrame ⟨640, 480, 7⟩,
         .emitNewFrameAvailable ⟨640, 480, 7⟩, .msleep 1] ∧
    bufferSizeSetAfterEveryOpen
      (((RTSPStreamer.init true).setUrl "rtsp://192.168.10.102:554/test").run
        ⟨true, 640, 480, [.readFails true, .readOk ⟨640, 480, 7⟩]⟩).effects = false ∧
    bufferSizeSetAfterEveryOpen
      (((RTSPStreamer.init true).setUrl "rtsp://192.168.10.102:554/test").run
        ⟨true, 640, 480, [.readOk ⟨640, 480, 7⟩]⟩).effects = true := by
  decide


/-! ## C24: the touch command of a click -/

/-- The clamp leaves a value between 0 and 1 as it is. -/
theorem qBound_inside (q : ℚ) (h0 : 0 ≤ q) (h1 : q ≤ 1) :
    qBound (.finite 0) (.finite q) (.finite 1) = .finite q := by
  unfold qBound
  rw [qMin_finite, qMax_finite, min_eq_right h1, max_eq_right h0]

theorem round_16_9 :
    Double.round ((1280 : ℚ) / 720) = .finite (8006399337547548 * 2 ^ (-52 : ℤ)) := by
  have := round_pos_eq ((1280 : ℚ) / 720) 8006399337547548 (-52) (by norm_num) (by norm_num)
    (by norm_num) (by norm_num) (by norm_num) (by norm_num)
  exact_mod_cast this

theorem round_16_9_label :
    Double.round ((1920 : ℚ) / 1080) = .finite (8006399337547548 * 2 ^ (-52 : ℤ)) := by
  have e : (1920 : ℚ) / 1080 = 1280 / 720 := by norm_num
  rw [e, round_16_9]

theorem round_scaledWidth :
    Double.round ((1080 : ℚ) * (8006399337547548 * 2 ^ (-52 : ℤ))) = .finite 1920 := by
  have := round_pos_eq ((1080 : ℚ) * (8006399337547548 * 2 ^ (-52 : ℤ))) 8444249301319680 (-42)
    (by norm_num) (by norm_num) (by norm_num) (by norm_num) (by norm_num) (by norm_num)
  rw [this]
  norm_num

theorem round_39_1920 :
    Double.round ((39 : ℚ) / 1920) = .finite (5854679515581645 * 2 ^ (-58 : ℤ)) := by
  have := round_pos_eq ((39 : ℚ) / 1920) 5854679515581645 (-58) (by norm_num) (by norm_num)
    (by norm_num) (by norm_num) (by norm_num) (by norm_num)
  exact_mod_cast this

theorem round_39_1080 :
    Double.round ((39 : ℚ) / 1080) = .finite (5204159569405906 * 2 ^ (-57 : ℤ)) := by
  have := round_pos_eq ((39 : ℚ) / 1080) 5204159569405906 (-57) (by norm_num) (by norm_num)
    (by norm_num) (by norm_num) (by norm_num) (by norm_num)
  exact_mod_cast this

theorem round_touch_x :
    Double.round ((5854679515581645 * 2 ^ (-58 : ℤ) : ℚ) * 1280) = .finite 26 := by
  have := round_pos_eq ((5854679515581645 * 2 ^ (-58 : ℤ) : ℚ) * 1280) 7318349394477056 (-48)
    (by norm_num) (by norm_num) (by norm_num) (by norm_num) (by norm_num) (by norm_num)
  rw [this]
  norm_num

theorem round_touch_y :
    Double.round ((5204159569405906 * 2 ^ (-57 : ℤ) : ℚ) * 720)
      = .finite (7318349394477055 * 2 ^ (-48 : ℤ)) := by
  have := round_pos_eq ((5204159569405906 * 2 ^ (-57 : ℤ) : ℚ) * 720) 7318349394477055 (-48)
    (by norm_num) (by norm_num) (by norm_num) (by norm_num) (by norm_num) (by norm_num)
  exact_mod_cast this

theorem toInt_1920 : Double.toInt (.finite 1920) = some 1920 := by
  simp only [Double.toInt]
  norm_num

theorem toInt_touch_x : Double.toInt (.finite 26) = some 26 := by
  simp only [Double.toInt]
  norm_num

/-- The product 25.999999999999996 is truncated to 25. -/
theorem toInt_touch_y :
    Double.toInt (.finite (7318349394477055 * 2 ^ (-48 : ℤ))) = some 25 := by
  have hf : ⌊(7318349394477055 * 2 ^ (-48 : ℤ) : ℚ)⌋ = 25 := by
    rw [Int.floor_eq_iff]
    constructor <;> norm_num
  have h0 : (0 : ℚ) ≤ 7318349394477055 * 2 ^ (-48 : ℤ) := by positivity
  simp only [Double.toInt, h0, if_true, hf]
  norm_num

/-- A quotient that is 60 in exact arithmetic and 59.99999999999999 in `double`
arithmetic: a width of 140 divided by the aspect ratio 7/3 of a frame gives the scaled
height 59. -/
theorem scaledHeight_rounds_below :
    Double.div (Double.ofInt 7) (Double.ofInt 3)
      = .finite (5254199565265579 * 2 ^ (-51 : ℤ)) ∧
    Double.div (Double.ofInt 140) (.finite (5254199565265579 * 2 ^ (-51 : ℤ)))
      = .finite (8444249301319679 * 2 ^ (-47 : ℤ)) ∧
    Double.toInt (.finite (8444249301319679 * 2 ^ (-47 : ℤ))) = some 59 := by
  refine ⟨?_, ?_, ?_⟩
  · rw [div_ofInt 7 3 (by norm_num)]
    have := round_pos_eq (((7 : Int) : ℚ) / ((3 : Int) : ℚ)) 5254199565265579 (-51)
      (by norm_num) (by norm_num) (by norm_num) (by norm_num) (by norm_num) (by norm_num)
    exact_mod_cast this
  · have hne : (5254199565265579 * 2 ^ (-51 : ℤ) : ℚ) ≠ 0 := by norm_num
    simp only [Double.div, Double.ofInt, hne, if_false]
    have := round_pos_eq (((140 : Int) : ℚ) / (5254199565265579 * 2 ^ (-51 : ℤ)))
      8444249301319679 (-47)
      (by norm_num) (by norm_num) (by norm_num) (by norm_num) (by norm_num) (by norm_num)
    exact_mod_cast this
  · have hf : ⌊(8444249301319679 * 2 ^ (-47 : ℤ) : ℚ)⌋ = 59 := by
      rw [Int.floor_eq_iff]
      constructor <;> norm_num
    have h0 : (0 : ℚ) ≤ 8444249301319679 * 2 ^ (-47 : ℤ) := by positivity
    simp only [Double.toInt, h0, if_true, hf]
    norm_num

/-- The normalisation of the point (39, 39) in a view of 1920 by 1080 that shows a frame
of 1280 by 720: both aspect ratios round to the same `double`, the scaled width is 1920,
and the components are the quotients 39/1920 and 39/1080 rounded to `double`. -/
theorem normalizeCoordinates_fullHd (c : NativeController) :
    normalizeCoordinates (MainWindow.fullHd c) ⟨39, 39⟩
      = some ⟨.finite (5854679515581645 * 2 ^ (-58 : ℤ)),
              .finite (5204159569405906 * 2 ^ (-57 : ℤ))⟩ := by
  unfold normalizeCoordinates
  simp only [MainWindow.fullHd, Option.isNone_some, Bool.false_and, Bool.false_eq_true, if_false]
  rw [div_ofInt 1280 720 (by norm_num), div_ofInt 1920 1080 (by norm_num)]
  simp only [Int.cast_ofNat, round_16_9, round_16_9_label, Double.gt, Double.lt,
    lt_self_iff_false, decide_False, Bool.false_eq_true, if_false, mul_ofInt_finite,
    round_scaledWidth, toInt_1920, Option.map_some']
  have e1 : (39 - (0 + Int.tdiv (1920 - 1920) 2) : Int) = 39 := by decide
  have e2 : (39 - 0 : Int) = 39 := by decide
  rw [e1, e2, div_ofInt 39 1920 (by norm_num), div_ofInt 39 1080 (by norm_num)]
  simp only [Int.cast_ofNat, round_39_1920, round_39_1080]
  rw [qBound_inside _ (by norm_num) (by norm_num), qBound_inside _ (by norm_num) (by norm_num)]

/-- The outcome of a left click in AUTO mode on a window that owns a controller, from the
normalised point and the two conversions to `int`: the touch command with the converted
coordinates, then the mode command. -/
theorem mousePressEvent_eval (w : MainWindow) (envTouch envMode : SocketEnv) (pos : QPoint)
    (c : NativeController) (a b : Double) (x y : Int)
    (hmode : w.m_isAutoMode = true) (hc : w.m_nativeController = some c)
    (hn : normalizeCoordinates w pos = some ⟨a, b⟩)
    (hx : Double.toInt (Double.mul a (Double.ofInt w.streamSize.width)) = some x)
    (hy : Double.toInt (Double.mul b (Double.ofInt w.streamSize.height)) = some y) :
    mousePressEvent w envTouch envMode .LeftButton pos
      = some (w, (sendTouchCoordinate c envTouch x y).2
                  ++ (sendModeChange c envMode true).2) := by
  unfold mousePressEvent
  simp only [hmode, hn, hx, hy, hc, decide_True, Bool.and_self, if_true,
    sendTouchCoordinate_eq, sendModeChange_eq]
  congr 2
  cases w
  simp only at hc hmode
  subst hc hmode
  rfl

/-- The click at (39, 39) in that window: the product of 39/1080 and 720 is
25.999999999999996 as a `double`, so the command sent is TOUCH:26:25. -/
theorem mousePressEvent_fullHd_click (c : NativeController) (envTouch envMode : SocketEnv) :
    mousePressEvent (MainWindow.fullHd c) envTouch envMode .LeftButton ⟨39, 39⟩
      = some (MainWindow.fullHd c,
              (sendTouchCoordinate c envTouch 26 25).2 ++ (sendModeChange c envMode true).2) ∧
    ((sendTouchCoordinate c envTouch 26 25).2
        ++ (sendModeChange c envMode true).2).filter Effect.isSignal
      = [.emit (.commandSent "TOUCH:26:25"), .emit (.commandSent "MODE:AUTO")] := by
  have hx : Double.toInt (Double.mul (.finite (5854679515581645 * 2 ^ (-58 : ℤ)))
      (Double.ofInt (MainWindow.fullHd c).streamSize.width)) = some 26 := by
    rw [mul_finite_ofInt]
    simp only [MainWindow.fullHd, Int.cast_ofNat, round_touch_x, toInt_touch_x]
  have hy : Double.toInt (Double.mul (.finite (5204159569405906 * 2 ^ (-57 : ℤ)))
      (Double.ofInt (MainWindow.fullHd c).streamSize.height)) = some 25 := by
    rw [mul_finite_ofInt]
    simp only [MainWindow.fullHd, Int.cast_ofNat, round_touch_y, toInt_touch_y]
  constructor
  · exact mousePressEvent_eval (MainWindow.fullHd c) envTouch envMode ⟨39, 39⟩ c _ _ 26 25
      rfl rfl (normalizeCoordinates_fullHd c) hx hy
  · have hd : "TOUCH:" ++ decimal 26 ++ ":" ++ decimal 25 = "TOUCH:26:25" := by decide
    simp [sendTouchCoordinate_eq, sendModeChange_eq, List.filter_append, dispatch_signals,
      Effect.isSignal, hd]

/-- The conversion of a scaled coordinate: for a factor between 0 and 1 and a
non-negative extent that is an `int`, the product as a `double` is the exact product
rounded, it lies between 0 and the extent, and so does its truncation. -/
theorem toInt_scaled (n : ℚ) (W : Int) (hn : 0 ≤ n ∧ n ≤ 1)
    (hW : 0 ≤ W ∧ W ≤ 2147483647) :
    ∃ p : ℚ, Double.mul (.finite n) (Double.ofInt W) = .finite p ∧
      Double.round (n * (W : ℚ)) = .finite p ∧
      Double.toInt (.finite p) = some ⌊p⌋ ∧ 0 ≤ ⌊p⌋ ∧ ⌊p⌋ ≤ W := by
  have hWq : (0 : ℚ) ≤ (W : ℚ) := by exact_mod_cast hW.1
  have h0 : 0 ≤ n * (W : ℚ) := mul_nonneg hn.1 hWq
  have h1 : n * (W : ℚ) ≤ (W : ℚ) := by
    have := mul_le_mul_of_nonneg_right hn.2 hWq
    simpa using this
  obtain ⟨p, hp, hp0, hpW⟩ := round_between (n * (W : ℚ)) W h0 h1 (by omega)
  have hf0 : 0 ≤ ⌊p⌋ := Int.floor_nonneg.mpr hp0
  have hf1 : ⌊p⌋ ≤ W := by
    have := Int.floor_mono hpW
    simpa using this
  refine ⟨p, ?_, hp, ?_, hf0, hf1⟩
  · rw [mul_finite_ofInt]; exact hp
  · unfold Double.toInt
    simp only [hp0, if_true]
    have hr : -2147483648 ≤ ⌊p⌋ ∧ ⌊p⌋ ≤ 2147483647 := by
      constructor <;> omega
    simp only [hr, and_self, if_true]

/-- C24: a left click in AUTO mode whose normalised point (nx, ny) lies in the unit
square, on a window that owns a controller and reads the stream size (W, H) with
non-negative `int` extents, sends the touch command with x the truncation of the
`double` product nx * W and y the truncation of the `double` product ny * H (followed
by the mode command of AUTO), so x lies between 0 and W and y between 0 and H; with the
stream size (0,0) the command is TOUCH:0:0. -/
theorem mousePressEvent_touch_coordinates (w : MainWindow) (envTouch envMode : SocketEnv)
    (pos : QPoint) (c : NativeController) (nx ny : ℚ)
    (hmode : w.m_isAutoMode = true) (hc : w.m_nativeController = some c)
    (hn : normalizeCoordinates w pos = some ⟨.finite nx, .finite ny⟩)
    (hx : 0 ≤ nx ∧ nx ≤ 1) (hy : 0 ≤ ny ∧ ny ≤ 1)
    (hW : 0 ≤ w.streamSize.width ∧ w.streamSize.width ≤ 2147483647)
    (hH : 0 ≤ w.streamSize.height ∧ w.streamSize.height ≤ 2147483647) :
    ∃ (x y : Int) (px py : ℚ),
      Double.mul (.finite nx) (Double.ofInt w.streamSize.width) = .finite px ∧
      Double.mul (.finite ny) (Double.ofInt w.streamSize.height) = .finite py ∧
      Double.round (nx * (w.streamSize.width : ℚ)) = .finite px ∧
      Double.round (ny * (w.streamSize.height : ℚ)) = .finite py ∧
      x = ⌊px⌋ ∧ y = ⌊py⌋ ∧
      Double.toInt (Double.mul (.finite nx) (Double.ofInt w.streamSize.width)) = some x ∧
      Double.toInt (Double.mul (.finite ny) (Double.ofInt w.streamSize.height)) = some y ∧
      0 ≤ x ∧ x ≤ w.streamSize.width ∧ 0 ≤ y ∧ y ≤ w.streamSize.height ∧
      mousePressEvent w envTouch envMode .LeftButton pos
        = some (w, (sendTouchCoordinate c envTouch x y).2
                    ++ (sendModeChange c envMode true).2) ∧
      ((sendTouchCoordinate c envTouch x y).2
          ++ (sendModeChange c envMode true).2).filter Effect.isSignal
        = [.emit (.commandSent ("TOUCH:" ++ decimal x ++ ":" ++ decimal y)),
           .emit (.commandSent "MODE:AUTO")] ∧
      (w.streamSize = ⟨0, 0⟩ →
        "TOUCH:" ++ decimal x ++ ":" ++ decimal y = "TOUCH:0:0") := by
  obtain ⟨px, mx, rx, tx, tx0, tx1⟩ := toInt_scaled nx w.streamSize.width hx hW
  obtain ⟨py, my, ry, ty, ty0, ty1⟩ := toInt_scaled ny w.streamSize.height hy hH
  refine ⟨⌊px⌋, ⌊py⌋, px, py, mx, my, rx, ry, rfl, rfl, by rw [mx, tx], by rw [my, ty],
    tx0, tx1, ty0, ty1, ?_, ?_, ?_⟩
  · exact mousePressEvent_eval w envTouch envMode pos c _ _ _ _ hmode hc hn
      (by rw [mx, tx]) (by rw [my, ty])
  · simp [sendTouchCoordinate_eq, sendModeChange_eq, List.filter_append, dispatch_signals,
      Effect.isSignal]
  · intro h0
    have hw0 : w.streamSize.width = 0 := by rw [h0]
    have hh0 : w.streamSize.height = 0 := by rw [h0]
    have a : ⌊px⌋ = 0 := by rw [hw0] at tx1; omega
    have b : ⌊py⌋ = 0 := by rw [hh0] at ty1; omega
    rw [a, b]
    decide

/-- C24, instance: a click at (39, 39) in the view of 1920 by 1080 on a stream of 1280 by
720 is normalised to the `double` quotients 39/1920 and 39/1080, both in the unit square,
and the theorem applies to it. -/
theorem mousePressEvent_touch_coordinates_witness :
    (0 ≤ (5854679515581645 * 2 ^ (-58 : ℤ) : ℚ) ∧ (5854679515581645 * 2 ^ (-58 : ℤ) : ℚ) ≤ 1) ∧
    ∃ (x y : Int) (px py : ℚ),
      Double.mul (.finite (5854679515581645 * 2 ^ (-58 : ℤ)))
        (Double.ofInt (MainWindow.fullHd NativeController.init).streamSize.width)
          = .finite px ∧
      Double.mul (.finite (5204159569405906 * 2 ^ (-57 : ℤ)))
        (Double.ofInt (MainWindow.fullHd NativeController.init).streamSize.height)
          = .finite py ∧
      Double.round ((5854679515581645 * 2 ^ (-58 : ℤ))
        * ((MainWindow.fullHd NativeController.init).streamSize.width : ℚ)) = .finite px ∧
      Double.round ((5204159569405906 * 2 ^ (-57 : ℤ))
        * ((MainWindow.fullHd NativeController.init).streamSize.height : ℚ)) = .finite py ∧
      x = ⌊px⌋ ∧ y = ⌊py⌋ ∧
      Double.toInt (Double.mul (.finite (5854679515581645 * 2 ^ (-58 : ℤ)))
        (Double.ofInt (MainWindow.fullHd NativeController.init).streamSize.width))
          = some x ∧
      Double.toInt (Double.mul (.finite (5204159569405906 * 2 ^ (-57 : ℤ)))
        (Double.ofInt (MainWindow.fullHd NativeController.init).streamSize.height))
          = some y ∧
      0 ≤ x ∧ x ≤ (MainWindow.fullHd NativeController.init).streamSize.width ∧
      0 ≤ y ∧ y ≤ (MainWindow.fullHd NativeController.init).streamSize.height ∧
      mousePressEvent (MainWindow.fullHd NativeController.init)
          (SocketEnv.ok 13) (SocketEnv.ok 9) .LeftButton ⟨39, 39⟩
        = some (MainWindow.fullHd NativeController.init,
                (sendTouchCoordinate NativeController.init (SocketEnv.ok 13) x y).2
                    ++ (sendModeChange NativeController.init (SocketEnv.ok 9) true).2) ∧
      ((sendTouchCoordinate NativeController.init (SocketEnv.ok 13) x y).2
          ++ (sendModeChange NativeController.init (SocketEnv.ok 9) true).2).filter
            Effect.isSignal
        = [.emit (.commandSent ("TOUCH:" ++ decimal x ++ ":" ++ decimal y)),
           .emit (.commandSent "MODE:AUTO")] ∧
      ((MainWindow.fullHd NativeController.init).streamSize = ⟨0, 0⟩ →
        "TOUCH:" ++ decimal x ++ ":" ++ decimal y = "TOUCH:0:0") :=
  ⟨⟨by norm_num, by norm_num⟩,
   mousePressEvent_touch_coordinates (MainWindow.fullHd NativeController.init)
    (SocketEnv.ok 13) (SocketEnv.ok 9) ⟨39, 39⟩ NativeController.init
    (5854679515581645 * 2 ^ (-58 : ℤ)) (5204159569405906 * 2 ^ (-57 : ℤ))
    rfl rfl (normalizeCoordinates_fullHd NativeController.init)
    ⟨by norm_num, by norm_num⟩ ⟨by norm_num, by norm_num⟩
    (by decide) (by decide)⟩

/-! ## C26 to C28: buttons, keys and the window -/

/-- The slot of `modeTogglePressed` on a window that owns a controller: the mode is
inverted and the mode command of the new mode is sent. -/
theorem handleModeToggle_sends_new_mode (w : MainWindow) (env : SocketEnv)
    (c : NativeController) (hc : w.m_nativeController = some c) :
    (handleModeToggle w env).1.m_isAutoMode = (!w.m_isAutoMode) ∧
    (handleModeToggle w env).2 = (sendModeChange c env (!w.m_isAutoMode)).2 := by
  unfold handleModeToggle toggleAutoManual
  simp [hc]

/-- The slot of the on-screen toggle button inverts the mode and has no effect on the
controller. -/
theorem toggleAutoManual_sends_nothing (w : MainWindow) :
    (toggleAutoManual w).1.m_isAutoMode = (!w.m_isAutoMode) ∧ (toggleAutoManual w).2 = [] :=
  ⟨rfl, rfl⟩

/-- C26, the code at the failing input: a click on the on-screen toggle button of a window
in AUTO mode runs `toggleAutoManual`, which changes the mode to MANUAL and calls nothing of
the controller, so no MODE command is sent; the same change made through the slot
`handleModeToggle`, which gamepad button 0 and the key Space reach, sends MODE:MANUAL. -/
theorem toggle_button_sends_no_mode_command :
    (toggleAutoManual
        (MainWindow.withController NativeController.init true)).1.m_isAutoMode = false ∧
    (toggleAutoManual (MainWindow.withController NativeController.init true)).2 = [] ∧
    (handleModeToggle (MainWindow.withController NativeController.init true)
        (SocketEnv.ok 11)).1.m_isAutoMode = false ∧
    commandsSent (handleModeToggle (MainWindow.withController NativeController.init true)
        (SocketEnv.ok 11)).2 = ["MODE:MANUAL"] ∧
    commandsSent (controllerInput (MainWindow.withController NativeController.init true)
        (SocketEnv.ok 11) (fun c => onGamepadButtonPressed c (SocketEnv.ok 9) 0)).2
      = ["MODE:MANUAL"] ∧
    commandsSent (controllerInput (MainWindow.withController NativeController.init true)
        (SocketEnv.ok 11) (fun c => onKeyboardShortcut c (SocketEnv.ok 9) (some "Space"))).2
      = ["MODE:MANUAL"] := by
  decide

/-- C27: with gamepad control enabled, the buttons 1, 2, 3, 4 are the direction inputs
UP, DOWN, LEFT, RIGHT (the command BUTTON with the direction is sent, then
`directionPressed` is raised with it), button 0 raises `modeTogglePressed` and nothing
else, and any other button produces nothing; with keyboard control enabled, the keys Up or
W, Down or S, Left or A, Right or D are the direction inputs UP, DOWN, LEFT, RIGHT, the
key Space raises `modeTogglePressed` and nothing else, and any other key, or a sender that
is no shortcut, produces nothing; with the source disabled nothing is produced at all. -/
theorem buttons_and_keys_select_directions (s : NativeController) (env : SocketEnv) :
    (FiresDirection { s with m_gamepadEnabled := true } env
        (onGamepadButtonPressed { s with m_gamepadEnabled := true } env 1) "UP" ∧
     FiresDirection { s with m_gamepadEnabled := true } env
        (onGamepadButtonPressed { s with m_gamepadEnabled := true } env 2) "DOWN" ∧
     FiresDirection { s with m_gamepadEnabled := true } env
        (onGamepadButtonPressed { s with m_gamepadEnabled := true } env 3) "LEFT" ∧
     FiresDirection { s with m_gamepadEnabled := true } env
        (onGamepadButtonPressed { s with m_gamepadEnabled := true } env 4) "RIGHT" ∧
     onGamepadButtonPressed { s with m_gamepadEnabled := true } env 0
        = ({ s with m_gamepadEnabled := true }, [.emit .modeTogglePressed]) ∧
     ∀ button : Int, (button < 0 ∨ 4 < button) →
       onGamepadButtonPressed { s with m_gamepadEnabled := true } env button
         = ({ s with m_gamepadEnabled := true }, [])) ∧
    (∀ button : Int, onGamepadButtonPressed { s with m_gamepadEnabled := false } env button
        = ({ s with m_gamepadEnabled := false }, [])) ∧
    ((∀ key ∈ ["Up", "W"], FiresDirection { s with m_keyboardEnabled := true } env
        (onKeyboardShortcut { s with m_keyboardEnabled := true } env (some key)) "UP") ∧
     (∀ key ∈ ["Down", "S"], FiresDirection { s with m_keyboardEnabled := true } env
        (onKeyboardShortcut { s with m_keyboardEnabled := true } env (some key)) "DOWN") ∧
     (∀ key ∈ ["Left", "A"], FiresDirection { s with m_keyboardEnabled := true } env
        (onKeyboardShortcut { s with m_keyboardEnabled := true } env (some key)) "LEFT") ∧
     (∀ key ∈ ["Right", "D"], FiresDirection { s with m_keyboardEnabled := true } env
        (onKeyboardShortcut { s with m_keyboardEnabled := true } env (some key)) "RIGHT") ∧
     onKeyboardShortcut { s with m_keyboardEnabled := true } env (some "Space")
        = ({ s with m_keyboardEnabled := true }, [.emit .modeTogglePressed]) ∧
     (∀ key : String,
       key ∉ ["Space", "Up", "W", "Down", "S", "Left", "A", "Right", "D"] →
       onKeyboardShortcut { s with m_keyboardEnabled := true } env (some key)
         = ({ s with m_keyboardEnabled := true }, [])) ∧
     onKeyboardShortcut { s with m_keyboardEnabled := true } env none
        = ({ s with m_keyboardEnabled := true }, [])) ∧
    (∀ sender : Option String,
      onKeyboardShortcut { s with m_keyboardEnabled := false } env sender
        = ({ s with m_keyboardEnabled := false }, [])) := by
  refine ⟨⟨?_, ?_, ?_, ?_, rfl, ?_⟩, fun _ => rfl, ⟨?_, ?_, ?_, ?_, rfl, ?_, rfl⟩, fun _ => rfl⟩
  · exact sendButtonPress_fires _ env "UP"
  · exact sendButtonPress_fires _ env "DOWN"
  · exact sendButtonPress_fires _ env "LEFT"
  · exact sendButtonPress_fires _ env "RIGHT"
  · intro button hb
    have h0 : button ≠ 0 := by omega
    have h1 : button ≠ 1 := by omega
    have h2 : button ≠ 2 := by omega
    have h3 : button ≠ 3 := by omega
    have h4 : button ≠ 4 := by omega
    simp [onGamepadButtonPressed, h0, h1, h2, h3, h4]
  · intro key hk
    simp only [List.mem_cons, List.mem_singleton, List.not_mem_nil, or_false] at hk
    rcases hk with rfl | rfl <;> exact sendButtonPress_fires _ env "UP"
  · intro key hk
    simp only [List.mem_cons, List.mem_singleton, List.not_mem_nil, or_false] at hk
    rcases hk with rfl | rfl <;> exact sendButtonPress_fires _ env "DOWN"
  · intro key hk
    simp only [List.mem_cons, List.mem_singleton, List.not_mem_nil, or_false] at hk
    rcases hk with rfl | rfl <;> exact sendButtonPress_fires _ env "LEFT"
  · intro key hk
    simp only [List.mem_cons, List.mem_singleton, List.not_mem_nil, or_false] at hk
    rcases hk with rfl | rfl <;> exact sendButtonPress_fires _ env "RIGHT"
  · intro key hk
    simp only [List.mem_cons, List.mem_singleton, List.not_mem_nil, or_false, not_or] at hk
    obtain ⟨k1, k2, k3, k4, k5, k6, k7, k8, k9⟩ := hk
    simp [onKeyboardShortcut, k1, k2, k3, k4, k5, k6, k7, k8, k9]

/-- The slot of `directionPressed`: in AUTO mode it does nothing; in MANUAL mode, on a
window that owns a controller and has the four arrow buttons of `setupUI`, it sends the
command of the direction once more through `sendButtonPress`. -/
theorem handleDirectionPress_resends (w : MainWindow) (env : SocketEnv)
    (c : NativeController) (d : String) (hd : d ∈ directions)
    (hc : w.m_nativeController = some c)
    (hb : w.m_arrowButtons = ["↑", "→", "↓", "←"]) :
    handleDirectionPress w env d =
      if w.m_isAutoMode = false then
        ({ w with m_nativeController := some (sendButtonPress c env d).1 },
         (sendButtonPress c env d).2)
      else (w, []) := by
  unfold handleDirectionPress
  by_cases hm : w.m_isAutoMode = false
  · simp only [hm, if_true, hb]
    simp only [directions, List.mem_cons, List.mem_singleton, List.not_mem_nil, or_false] at hd
    rcases hd with rfl | rfl | rfl | rfl
    · have hf : (["↑", "→", "↓", "←"].find? fun b => decide (b = "↑")) = some "↑" := by decide
      simp only [show ("UP" = "UP") = True from eq_self _, if_true, hf, arrowButtonClicked, hc]
      simp [hm, hb]
    · have hf : (["↑", "→", "↓", "←"].find? fun b => decide (b = "↓")) = some "↓" := by decide
      have e1 : ¬ ("DOWN" = "UP") := by decide
      simp only [e1, if_false, if_true, hf, arrowButtonClicked, hc]
      simp [hm, hb]
    · have hf : (["↑", "→", "↓", "←"].find? fun b => decide (b = "←")) = some "←" := by decide
      have e1 : ¬ ("LEFT" = "UP") := by decide
      have e2 : ¬ ("LEFT" = "DOWN") := by decide
      simp only [e1, e2, if_false, if_true, hf, arrowButtonClicked, hc]
      simp [hm, hb]
    · have hf : (["↑", "→", "↓", "←"].find? fun b => decide (b = "→")) = some "→" := by decide
      have e1 : ¬ ("RIGHT" = "UP") := by decide
      have e2 : ¬ ("RIGHT" = "DOWN") := by decide
      have e3 : ¬ ("RIGHT" = "LEFT") := by decide
      simp only [e1, e2, e3, if_false, if_true, hf, arrowButtonClicked, hc]
      simp [hm, hb]
  · simp [hm]

/-- Effects that are no signal for a slot of the window pass through the delivery
unchanged. -/
theorem deliverSignals_quiet_append (env : SocketEnv) (l r : List Effect) :
    ∀ (w : MainWindow), (∀ e ∈ l, e.isWindowSignal = false) →
      deliverSignals env w (l ++ r)
        = ((deliverSignals env w r).1, l ++ (deliverSignals env w r).2) := by
  induction l with
  | nil => intro w _; rfl
  | cons e es ih =>
    intro w h
    have he : e.isWindowSignal = false := h e (List.mem_cons_self _ _)
    have hes : ∀ d ∈ es, d.isWindowSignal = false := fun d hd => h d (List.mem_cons_of_mem _ hd)
    have key := ih w hes
    cases e with
    | emit sig =>
      cases sig with
      | directionPressed d => simp [Effect.isWindowSignal] at he
      | modeTogglePressed => simp [Effect.isWindowSignal] at he
      | _ => simp [deliverSignals, windowSlot, key]
    | _ => simp [deliverSignals, key]

/-- The effects of `sendButtonPress` hold no signal for a slot of the window. -/
theorem sendButtonPress_quiet (s : NativeController) (env : SocketEnv) (b : String) :
    ∀ e ∈ (sendButtonPress s env b).2, e.isWindowSignal = false := by
  intro e he
  cases hw : e.isWindowSignal with
  | false => rfl
  | true =>
    have hsig : e.isSignal = true := by
      cases e with
      | emit sig => rfl
      | _ => exact absurd hw (by simp [Effect.isWindowSignal])
    have hmem : e ∈ (sendButtonPress s env b).2.filter Effect.isSignal :=
      List.mem_filter.mpr ⟨he, hsig⟩
    rw [sendButtonPress_eq] at hmem
    simp only [List.filter_append, dispatch_signals] at hmem
    simp [Effect.isSignal] at hmem
    subst hmem
    exact absurd hw (by simp [Effect.isWindowSignal])

/-- One direction input as the window sees it: the effects of the handler of the
controller pass through, and the slot of `directionPressed` adds its own effects, which
in MANUAL mode are those of a second `sendButtonPress` for the same direction and in
AUTO mode none. -/
theorem direction_input_trace (w : MainWindow) (envC envSlot : SocketEnv)
    (c : NativeController) (d : String) (hd : d ∈ directions)
    (hc : w.m_nativeController = some c)
    (hb : w.m_arrowButtons = ["↑", "→", "↓", "←"]) :
    (deliverSignals envSlot w
        ((sendButtonPress c envC d).2 ++ [.emit (.directionPressed d)])).2
      = (sendButtonPress c envC d).2 ++ [.emit (.directionPressed d)] ++
          (if w.m_isAutoMode = false then (sendButtonPress c envSlot d).2 else []) := by
  rw [deliverSignals_quiet_append envSlot _ _ w (sendButtonPress_quiet c envC d)]
  simp only [deliverSignals, windowSlot, handleDirectionPress_resends w envSlot c d hd hc hb]
  by_cases hm : w.m_isAutoMode = false <;> simp [hm]

/-- The number of datagrams of one direction input on a window whose controller has UDP
enabled and a server address: two in MANUAL mode, one in AUTO mode. -/
theorem direction_input_datagrams (w : MainWindow) (envC envSlot : SocketEnv)
    (c : NativeController) (d : String) (hd : d ∈ directions)
    (hc : w.m_nativeController = some c)
    (hb : w.m_arrowButtons = ["↑", "→", "↓", "←"])
    (hu : c.m_udpEnabled = true) (ha : c.m_serverAddress ≠ "") :
    ((deliverSignals envSlot w
        ((sendButtonPress c envC d).2 ++ [.emit (.directionPressed d)])).2.filter
          Effect.isDatagram).length
      = (if w.m_isAutoMode = false then 2 else 1) := by
  rw [direction_input_trace w envC envSlot c d hd hc hb]
  by_cases hm : w.m_isAutoMode = false <;>
    simp [hm, sendButtonPress_eq, List.filter_append, dispatch_datagrams, hu, ha,
      Effect.isDatagram]

/-- C28, the code at the failing input: on a window in MANUAL mode, the press of gamepad
button 1 and the press of the key W each hand the command BUTTON:UP to the transport
twice, once by the handler of the controller and once more by the slot of the window
that answers `directionPressed` with a click on the arrow button; in AUTO mode the same
inputs send the command once. -/
theorem direction_input_is_sent_twice_in_manual_mode :
    transportWrites (controllerInput (MainWindow.withController NativeController.init false)
        (SocketEnv.ok 9) (fun c => onGamepadButtonPressed c (SocketEnv.ok 9) 1)).2
      = [toUtf8 "BUTTON:UP", toUtf8 "BUTTON:UP"] ∧
    commandsSent (controllerInput (MainWindow.withController NativeController.init false)
        (SocketEnv.ok 9) (fun c => onGamepadButtonPressed c (SocketEnv.ok 9) 1)).2
      = ["BUTTON:UP", "BUTTON:UP"] ∧
    transportWrites (controllerInput (MainWindow.withController NativeController.init false)
        (SocketEnv.ok 9) (fun c => onKeyboardShortcut c (SocketEnv.ok 9) (some "W"))).2
      = [toUtf8 "BUTTON:UP", toUtf8 "BUTTON:UP"] ∧
    transportWrites (controllerInput (MainWindow.withController NativeController.init true)
        (SocketEnv.ok 9) (fun c => onGamepadButtonPressed c (SocketEnv.ok 9) 1)).2
      = [toUtf8 "BUTTON:UP"] ∧
    transportWrites (controllerInput (MainWindow.withController NativeController.init true)
        (SocketEnv.ok 9) (fun c => onKeyboardShortcut c (SocketEnv.ok 9) (some "W"))).2
      = [toUtf8 "BUTTON:UP"] := by
  decide

/-! ## C29: stopping the controller -/

/-- After `stopController` on a connected link and the closure that its disconnect brings,
the reconnect timer runs exactly when auto-reconnect and TCP are enabled. -/
theorem stop_then_closure_timer (s : NativeController) (h : s.tcpState = .ConnectedState) :
    (runEvents s [.stopController, .socketDisconnected]).map (fun r => r.1.timerActive)
      = some (s.m_autoReconnect && s.m_tcpEnabled) := by
  simp only [runEvents, step, stopController, reconnectTimerStop, h, socketDisconnectFromHost,
    if_true, or_true, onTcpDisconnected, reconnectTimerStart]
  cases s.m_autoReconnect <;> cases s.m_tcpEnabled <;> rfl

/-- C29, the code at the failing input: the connected state is reachable; from it,
`stopController` stops the timer and closes the link, and the handler of the closure
starts the timer again, since TCP is still enabled; 5000 ms later the timer fires and
calls `connectToHost`. -/
theorem stopController_then_closure_restarts_timer :
    Reachable NativeController.connected ∧
    (runEvents NativeController.connected [.stopController, .socketDisconnected]).map
        (fun r => (r.1.timerActive, r.1.timerRemaining, r.1.tcpState, r.2))
      = some (true, 5000, .UnconnectedState,
          [.timerStop, .disconnectFromHost, .emit .controllerStopped,
           .qDebug ["Disconnected from TCP server"], .emit .serverDisconnected,
           .timerStart]) ∧
    (runEvents NativeController.connected
        [.stopController, .socketDisconnected, .elapse 5000, .timerTimeout]).map
        (fun r => r.2.filter Effect.isConnectToHost)
      = some [.connectToHost "192.168.1.71" 8555] := by
  refine ⟨connected_reachable, by decide, by decide⟩

end KriaClient
